import Mathlib

/-!
Verification development for the DMG-01 emulator core.

This file gives a shallow embedding, in Lean, of the emulator core sources
(`src/guest/cpu.rs`, `src/guest/mmu/*`, `src/guest/cartridge/*`,
`src/guest/systems/{alu,timer,ppu}.rs`) and proves properties of the embedded
definitions.

Conventions of the embedding:
* Machine integers (`u8`, `u16`, `usize`) are `Nat` with explicit wrapping
  (`% 256`, `% 65536`) exactly where the source wraps (`wrapping_add`,
  shifts and `as uN` casts).  All reachable states keep the width invariants.
* A Rust panic (out-of-range address, unimplemented opcode, invalid register,
  array index out of bounds, diverging loop) is modelled as `Option.none`;
  fallible operations return `Option`.
* Rust `isize` arithmetic in the renderer is modelled with `Int`.
* `Vec<u8>` cartridge images are modelled as a length together with a
  contents function; indexing past the length is `none` (the Rust panic).
-/

set_option maxHeartbeats 1000000
set_option maxRecDepth 16000
set_option linter.unusedVariables false
set_option linter.unreachableTactic false

/-- `is_bit_set` from `src/guest/mmu/mod.rs`: boolean state of a bit in a byte. -/
def is_bit_set (value : Nat) (position : Nat) : Bool :=
  value &&& (1 <<< position) != 0

/-- `u8::trailing_zeros` restricted to byte values: index of the lowest set bit,
8 when the byte is zero. -/
def u8_trailing_zeros (n : Nat) : Nat :=
  if n.testBit 0 then 0
  else if n.testBit 1 then 1
  else if n.testBit 2 then 2
  else if n.testBit 3 then 3
  else if n.testBit 4 then 4
  else if n.testBit 5 then 5
  else if n.testBit 6 then 6
  else if n.testBit 7 then 7
  else 8

/-- Interrupt controller state, `Interrupts` from `src/guest/mmu/interrupts.rs`. -/
structure Interrupts where
  inte : Nat
  intf : Nat
  is_halted : Bool
  ime : Bool
  disable_ime_counter : Nat
  enable_ime_counter : Nat
deriving DecidableEq, Repr

/-- `Interrupts::new`. -/
def Interrupts.new : Interrupts :=
  { is_halted := false, inte := 0, intf := 0, ime := true
    disable_ime_counter := 0, enable_ime_counter := 0 }

/-- `Interrupts::disable_ime`: arm the 2-step disable counter. -/
def Interrupts.disable_ime (s : Interrupts) : Interrupts :=
  { s with disable_ime_counter := 2 }

/-- `Interrupts::enable_ime`: arm the enable counter with the given delay. -/
def Interrupts.enable_ime (s : Interrupts) (delay : Nat) : Interrupts :=
  { s with enable_ime_counter := delay }

/-- `Interrupts::tick_ime_timer`: tick both delay counters down, applying the
IME change when a counter hits 1 (disable first, then enable). -/
def Interrupts.tick_ime_timer (s : Interrupts) : Interrupts :=
  let s :=
    if s.disable_ime_counter = 2 then { s with disable_ime_counter := 1 }
    else if s.disable_ime_counter = 1 then { s with ime := false, disable_ime_counter := 0 }
    else { s with disable_ime_counter := 0 }
  if s.enable_ime_counter = 2 then { s with enable_ime_counter := 1 }
  else if s.enable_ime_counter = 1 then { s with ime := true, enable_ime_counter := 0 }
  else { s with enable_ime_counter := 0 }

/-- `Interrupts::try_interrupt`.  Outer `none` is the Rust panic on a request
mask with any of the top three bits set; the inner option is the returned
interrupt index.  The source resets `is_halted` before clearing the handled
bit of `intf`; both updates are folded into the returned record. -/
def Interrupts.try_interrupt (s : Interrupts) : Option (Option Nat × Interrupts) :=
  if !s.ime && !s.is_halted then some (none, s)
  else if s.inte &&& s.intf == 0 then some (none, s)
  else if s.intf > 31 then none
  else
    some (some (u8_trailing_zeros (s.inte &&& s.intf)),
      { s with is_halted := false
               intf := s.intf &&& (255 ^^^ ((1 <<< u8_trailing_zeros (s.inte &&& s.intf)) % 256)) })

/-- Timer register block, `TimerRegisters` from `src/guest/mmu/timer.rs`. -/
structure TimerRegisters where
  divider : Nat
  counter : Nat
  modulo : Nat
  started : Bool
  clock : Nat
deriving DecidableEq, Repr

/-- `TimerRegisters::new`. -/
def TimerRegisters.new : TimerRegisters :=
  { divider := 0, counter := 0, modulo := 0, started := false, clock := 0 }

/-- `TimerRegisters::rb`: reads of the timer register block.  The source match
has arms for 0xFF04-0xFF06 only; every other address (notably 0xFF07) panics. -/
def TimerRegisters.rb (s : TimerRegisters) (address : Nat) : Option Nat :=
  if address = 0xFF04 then some s.divider
  else if address = 0xFF05 then some s.counter
  else if address = 0xFF06 then some s.modulo
  else none

/-- `TimerRegisters::wb`: writes to the timer register block. -/
def TimerRegisters.wb (s : TimerRegisters) (address value : Nat) : Option TimerRegisters :=
  if address = 0xFF04 then some { s with divider := 0 }
  else if address = 0xFF05 then some { s with counter := value }
  else if address = 0xFF06 then some { s with modulo := value }
  else if address = 0xFF07 then
    some { s with started := is_bit_set value 2, clock := value &&& 0b11 }
  else none

/-- Display-controller register block, `PpuRegisters` from `src/guest/mmu/ppu.rs`. -/
structure PpuRegisters where
  lyc_int_enable : Bool
  mode2_int_enable : Bool
  mode1_int_enable : Bool
  mode0_int_enable : Bool
  scy : Nat
  scx : Nat
  line : Nat
  background_palette : Nat
  obj_palette_0 : Nat
  obj_palette_1 : Nat
  win_x : Nat
  win_y : Nat
  lyc : Nat
  mode : Nat
  lcd_on : Bool
  window_tilemap : Bool
  window_on : Bool
  tile_data_table : Bool
  bg_tilemap : Bool
  sprite_size : Bool
  sprite_on : Bool
  window_bg_on : Bool
  clear_screen : Bool
deriving DecidableEq, Repr

/-- `PpuRegisters::new`. -/
def PpuRegisters.new : PpuRegisters :=
  { background_palette := 0, bg_tilemap := false, lcd_on := false, line := 0
    lyc_int_enable := false, mode2_int_enable := false, mode1_int_enable := false
    mode0_int_enable := false, lyc := 0, mode := 0, obj_palette_0 := 0
    obj_palette_1 := 0, scx := 0, scy := 0, sprite_on := false
    sprite_size := false, tile_data_table := false, win_x := 0, win_y := 0
    window_bg_on := false, window_on := false, window_tilemap := false
    clear_screen := false }

/-- `PpuRegisters::rb`. -/
def PpuRegisters.rb (s : PpuRegisters) (address : Nat) : Option Nat :=
  if address = 0xFF40 then
    some ((if s.lcd_on then 0x80 else 0)
      ||| (if s.window_tilemap then 0x40 else 0)
      ||| (if s.window_on then 0x20 else 0)
      ||| (if s.tile_data_table then 0x10 else 0)
      ||| (if s.bg_tilemap then 0x08 else 0)
      ||| (if s.sprite_size then 0x04 else 0)
      ||| (if s.sprite_on then 0x02 else 0)
      ||| (if s.window_bg_on then 0x01 else 0))
  else if address = 0xFF41 then
    some ((if s.lyc_int_enable then 0x40 else 0)
      ||| (if s.mode2_int_enable then 0x20 else 0)
      ||| (if s.mode1_int_enable then 0x10 else 0)
      ||| (if s.mode0_int_enable then 0x08 else 0)
      ||| (if s.line = s.lyc then 0x04 else 0)
      ||| s.mode)
  else if address = 0xFF42 then some s.scy
  else if address = 0xFF43 then some s.scx
  else if address = 0xFF44 then some s.line
  else if address = 0xFF45 then some s.lyc
  else none

/-- `PpuRegisters::wb`.  Writing 0xFF44 panics in the source (`none` here). -/
def PpuRegisters.wb (s : PpuRegisters) (address value : Nat) : Option PpuRegisters :=
  if address = 0xFF40 then
    let was_lcd_on := s.lcd_on
    let s := { s with
      lcd_on := is_bit_set value 7
      window_tilemap := is_bit_set value 6
      window_on := is_bit_set value 5
      tile_data_table := is_bit_set value 4
      bg_tilemap := is_bit_set value 3
      sprite_size := is_bit_set value 2
      sprite_on := is_bit_set value 1
      window_bg_on := is_bit_set value 0 }
    if was_lcd_on && !s.lcd_on then
      some { s with line := 0, mode := 0, clear_screen := true }
    else some s
  else if address = 0xFF41 then
    some { s with
      lyc_int_enable := is_bit_set value 6
      mode2_int_enable := is_bit_set value 5
      mode1_int_enable := is_bit_set value 4
      mode0_int_enable := is_bit_set value 3 }
  else if address = 0xFF42 then some { s with scy := value }
  else if address = 0xFF43 then some { s with scx := value }
  else if address = 0xFF44 then none
  else if address = 0xFF45 then some { s with lyc := value }
  else if address = 0xFF47 then some { s with background_palette := value }
  else if address = 0xFF48 then some { s with obj_palette_0 := value }
  else if address = 0xFF49 then some { s with obj_palette_1 := value }
  else if address = 0xFF4A then some { s with win_y := value }
  else if address = 0xFF4B then some { s with win_x := value }
  else none

/-- Audio register block, `ApuRegisters` from `src/guest/mmu/apu.rs`. -/
structure ApuRegisters where
  square1_sweep_time : Nat
  square1_sweep_increase : Bool
  square1_sweep_shift : Nat
  square1_wave_duty : Nat
  square1_length : Nat
  square1_frequency : Nat
  square1_init_flag : Bool
  square1_length_enabled : Bool
  nr12 : Nat
  square2_wave_duty : Nat
  square2_length : Nat
  square2_frequency : Nat
  square2_init_flag : Bool
  square2_length_enabled : Bool
  nr22 : Nat
  wave_on : Bool
  wave_length : Nat
  wave_length_enabled : Bool
  wave_output : Nat
  wave_frequency : Nat
  wave_ram : Nat → Nat
  wave_init_flag : Bool
  nr41 : Nat
  nr42 : Nat
  nr43 : Nat
  nr44 : Nat
  nr50 : Nat
  nr51 : Nat
  nr52 : Nat

/-- `ApuRegisters::new`. -/
def ApuRegisters.new : ApuRegisters :=
  { square1_sweep_time := 0, square1_sweep_increase := false
    square1_sweep_shift := 0, square1_wave_duty := 0, square1_length := 0
    square1_frequency := 0, square1_init_flag := false
    square1_length_enabled := false, nr12 := 0
    square2_wave_duty := 0, square2_length := 0, square2_frequency := 0
    square2_init_flag := false, square2_length_enabled := false, nr22 := 0
    wave_on := true, wave_length := 0, wave_length_enabled := false
    wave_output := 0, wave_frequency := 0, wave_init_flag := false
    nr41 := 0, nr42 := 0, nr43 := 0, nr44 := 0, nr50 := 0, nr51 := 0
    nr52 := 0, wave_ram := fun _ => 0 }

/-- `ApuRegisters::wb`.  Unimplemented registers (0xFF15, 0xFF1F, 0xFF27-0xFF2F)
panic in the source. -/
def ApuRegisters.wb (s : ApuRegisters) (address value : Nat) : Option ApuRegisters :=
  if address = 0xFF10 then
    some { s with
      square1_sweep_time := (value >>> 4) &&& 0x7
      square1_sweep_shift := value &&& 0x7
      square1_sweep_increase := is_bit_set value 3 }
  else if address = 0xFF11 then
    some { s with square1_wave_duty := value >>> 6, square1_length := value &&& 0x3F }
  else if address = 0xFF12 then some { s with nr12 := value }
  else if address = 0xFF13 then
    some { s with square1_frequency := (s.square1_frequency &&& 0xFF00) ||| (value &&& 0xFF) }
  else if address = 0xFF14 then
    some { s with
      square1_frequency := (s.square1_frequency &&& 0xFF) ||| ((value &&& 0x07) <<< 8)
      square1_init_flag := is_bit_set value 7
      square1_length_enabled := is_bit_set value 6 }
  else if address = 0xFF16 then
    some { s with square2_wave_duty := value >>> 6, square2_length := value &&& 0x3F }
  else if address = 0xFF17 then some { s with nr22 := value }
  else if address = 0xFF18 then
    some { s with square2_frequency := (s.square2_frequency &&& 0xFF00) ||| (value &&& 0xFF) }
  else if address = 0xFF19 then
    some { s with
      square2_frequency := (s.square2_frequency &&& 0xFF) ||| ((value &&& 0x07) <<< 8)
      square2_init_flag := is_bit_set value 7
      square2_length_enabled := is_bit_set value 6 }
  else if address = 0xFF1A then some { s with wave_on := is_bit_set value 7 }
  else if address = 0xFF1B then some { s with wave_length := value }
  else if address = 0xFF1C then some { s with wave_output := (value >>> 5) &&& 0x3 }
  else if address = 0xFF1D then
    some { s with wave_frequency := (s.wave_frequency &&& 0xFF00) ||| (value &&& 0xFF) }
  else if address = 0xFF1E then
    some { s with
      wave_frequency := (s.wave_frequency &&& 0xFF) ||| ((value &&& 0x07) <<< 8)
      wave_init_flag := is_bit_set value 7
      wave_length_enabled := is_bit_set value 6 }
  else if address = 0xFF20 then some { s with nr41 := value }
  else if address = 0xFF21 then some { s with nr42 := value }
  else if address = 0xFF22 then some { s with nr43 := value }
  else if address = 0xFF23 then some { s with nr44 := value }
  else if address = 0xFF24 then some { s with nr50 := value }
  else if address = 0xFF25 then some { s with nr51 := value }
  else if address = 0xFF26 then some { s with nr52 := value }
  else if 0xFF30 ≤ address ∧ address ≤ 0xFF3F then
    some { s with wave_ram := fun i =>
      if i = (address - 0xFF30) / 2 then value >>> 4
      else if i = (address - 0xFF30) / 2 + 1 then value &&& 0xF
      else s.wave_ram i }
  else none

/-- `ApuRegisters::rb`: the source logs the address and returns 0 for every read. -/
def ApuRegisters.rb (_s : ApuRegisters) (_address : Nat) : Option Nat :=
  some 0

/-- Cartridge bank controllers, `src/guest/cartridge/{empty,mbc0,mbc1}.rs`.
A ROM image (`Vec<u8>`) is a length plus a contents function. -/
inductive Mbc where
  | mbcEmpty : Mbc
  | mbc0 (data_len : Nat) (data : Nat → Nat) : Mbc
  | mbc1 (data_len : Nat) (data : Nat → Nat) (ram : Nat → Nat) (rom_bank_number : Nat) : Mbc

/-- `Mbc::rb` for each controller variant (`Cartridge::rb` delegates directly).
`MbcEmpty` answers 0xFF everywhere; `Mbc0` indexes the image verbatim; `Mbc1`
reads 0x4000-0x7FFF offset by `0x4000 * rom_bank_number`. -/
def Mbc.rb : Mbc → Nat → Option Nat
  | .mbcEmpty, _ => some 0xFF
  | .mbc0 data_len data, address =>
      if address < data_len then some (data address) else none
  | .mbc1 data_len data ram rom_bank_number, address =>
      if address ≤ 0x3FFF then
        if address < data_len then some (data address) else none
      else if 0x4000 ≤ address ∧ address ≤ 0x7FFF then
        let offset := 0x4000 * rom_bank_number
        if (address - 0x4000) + offset < data_len then
          some (data ((address - 0x4000) + offset))
        else none
      else if 0xA000 ≤ address ∧ address ≤ 0xBFFF then
        some (ram (address - 0xA000))
      else none

/-- `Mbc::wb` for each controller variant (`Cartridge::wb` delegates directly).
`Mbc1` writes to 0x2000-0x3FFF set `rom_bank_number` to `value & 0x1F`;
writes to 0x0000-0x1FFF (RAM enable) panic in the source. -/
def Mbc.wb : Mbc → Nat → Nat → Option Mbc
  | .mbcEmpty, _, _ => some .mbcEmpty
  | .mbc0 data_len data, _, _ => some (.mbc0 data_len data)
  | .mbc1 data_len data ram rom_bank_number, address, value =>
      if address ≤ 0x1FFF then none
      else if address ≤ 0x3FFF then
        some (.mbc1 data_len data ram (value &&& 0x1F))
      else if 0xA000 ≤ address ∧ address ≤ 0xBFFF then
        some (.mbc1 data_len data
          (fun i => if i = address - 0xA000 then value else ram i) rom_bank_number)
      else none

/-- `BootLoader` from `src/guest/mmu/bootloader.rs` (256-byte ROM). -/
structure BootLoader where
  data : Nat → Nat
  is_enabled : Bool

/-- `BootLoader::rb`: direct indexing (only ever called with `addr ≤ 0xFF`). -/
def BootLoader.rb (b : BootLoader) (addr : Nat) : Nat :=
  b.data addr

/-- The `MMU` aggregate from `src/guest/mmu/mod.rs`: backing stores, register
banks, CPU registers and pointers.  Fixed-size byte arrays are index functions. -/
structure Mmu where
  hram : Nat → Nat
  oam : Nat → Nat
  sram : Nat → Nat
  vram : Nat → Nat
  bootloader : BootLoader
  ppu : PpuRegisters
  apu : ApuRegisters
  timer : TimerRegisters
  cartridge : Mbc
  gamepad : Nat
  interrupts : Interrupts
  pc : Nat
  sp : Nat
  a : Nat
  b : Nat
  c : Nat
  d : Nat
  e : Nat
  h : Nat
  l : Nat
  f : Nat

/-- Flag getter (`create_flag!` in `src/guest/mmu/registers.rs`), zero flag, bit 7. -/
def Mmu.flag_z (m : Mmu) : Bool := m.f &&& (1 <<< 7) != 0

/-- Flag getter, subtract flag, bit 6. -/
def Mmu.flag_n (m : Mmu) : Bool := m.f &&& (1 <<< 6) != 0

/-- Flag getter, half-carry flag, bit 5. -/
def Mmu.flag_h (m : Mmu) : Bool := m.f &&& (1 <<< 5) != 0

/-- Flag getter, carry flag, bit 4. -/
def Mmu.flag_c (m : Mmu) : Bool := m.f &&& (1 <<< 4) != 0

/-- Flag setter for bit 7 (`f |= 1 << 7` or `f &= !(1 << 7)`). -/
def Mmu.set_flag_z (m : Mmu) (value : Bool) : Mmu :=
  if value then { m with f := m.f ||| (1 <<< 7) } else { m with f := m.f &&& (255 ^^^ (1 <<< 7)) }

/-- Flag setter for bit 6. -/
def Mmu.set_flag_n (m : Mmu) (value : Bool) : Mmu :=
  if value then { m with f := m.f ||| (1 <<< 6) } else { m with f := m.f &&& (255 ^^^ (1 <<< 6)) }

/-- Flag setter for bit 5. -/
def Mmu.set_flag_h (m : Mmu) (value : Bool) : Mmu :=
  if value then { m with f := m.f ||| (1 <<< 5) } else { m with f := m.f &&& (255 ^^^ (1 <<< 5)) }

/-- Flag setter for bit 4. -/
def Mmu.set_flag_c (m : Mmu) (value : Bool) : Mmu :=
  if value then { m with f := m.f ||| (1 <<< 4) } else { m with f := m.f &&& (255 ^^^ (1 <<< 4)) }

/-- Register pair getter AF (`create_register_pair!`). -/
def Mmu.af (m : Mmu) : Nat := (m.a <<< 8) ||| m.f

/-- Register pair getter BC. -/
def Mmu.bc (m : Mmu) : Nat := (m.b <<< 8) ||| m.c

/-- Register pair getter DE. -/
def Mmu.de (m : Mmu) : Nat := (m.d <<< 8) ||| m.e

/-- Register pair getter HL. -/
def Mmu.hl (m : Mmu) : Nat := (m.h <<< 8) ||| m.l

/-- Register pair setter AF (`reg1 = (v >> 8) as u8; reg2 = v as u8`). -/
def Mmu.set_af (m : Mmu) (value : Nat) : Mmu :=
  { m with a := (value >>> 8) % 256, f := value % 256 }

/-- Register pair setter BC. -/
def Mmu.set_bc (m : Mmu) (value : Nat) : Mmu :=
  { m with b := (value >>> 8) % 256, c := value % 256 }

/-- Register pair setter DE. -/
def Mmu.set_de (m : Mmu) (value : Nat) : Mmu :=
  { m with d := (value >>> 8) % 256, e := value % 256 }

/-- Register pair setter HL. -/
def Mmu.set_hl (m : Mmu) (value : Nat) : Mmu :=
  { m with h := (value >>> 8) % 256, l := value % 256 }

/-- `MMU::rb`: byte read dispatch over the address space, arms in source order.
`none` is the source panic (in particular reads of 0xFF46 and of any unmapped
address). -/
def Mmu.rb (m : Mmu) (address : Nat) : Option Nat :=
  if address ≤ 0xFF then
    if m.bootloader.is_enabled then some (m.bootloader.rb address)
    else m.cartridge.rb address
  else if address ≤ 0x7FFF then m.cartridge.rb address
  else if 0x8000 ≤ address ∧ address ≤ 0x9FFF then some (m.vram (address - 0x8000))
  else if 0xC000 ≤ address ∧ address ≤ 0xDFFF then some (m.sram (address - 0xC000))
  else if 0xE000 ≤ address ∧ address ≤ 0xFDFF then some (m.sram (address - 0xC000 - 0x2000))
  else if 0xFE00 ≤ address ∧ address ≤ 0xFE9F then some (m.oam (address - 0xFE00))
  else if 0xFEA0 ≤ address ∧ address ≤ 0xFEFF then some 0xFF
  else if address = 0xFF00 then some m.gamepad
  else if address = 0xFF0F then some m.interrupts.intf
  else if address = 0xFF01 then some 0
  else if address = 0xFF02 then some 0
  else if 0xFF04 ≤ address ∧ address ≤ 0xFF07 then m.timer.rb address
  else if 0xFF10 ≤ address ∧ address ≤ 0xFF3F then m.apu.rb address
  else if address = 0xFF46 then none
  else if 0xFF40 ≤ address ∧ address ≤ 0xFF4B then m.ppu.rb address
  else if 0xFF80 ≤ address ∧ address ≤ 0xFFFE then some (m.hram (address - 0xFF80))
  else if address = 0xFFFF then some m.interrupts.inte
  else none

/-- `MMU::oam_dma`: copy 160 bytes from `value << 8` into the sprite table.
Each source-loop iteration reads through `rb` and writes through `wb`; the
write address `0xFE00 + n` always lands in the `wb` OAM arm, whose effect is
inlined here (the arm sets `oam[address - 0xFE00] = value`). -/
def Mmu.oam_dma (m : Mmu) (value : Nat) : Option Mmu :=
  let base := (value % 256) <<< 8
  (List.range 0xA0).foldlM (fun acc n =>
    match acc.rb (base + n) with
    | none => none
    | some byte => some { acc with oam := fun i => if i = n then byte else acc.oam i }) m

/-- `MMU::wb`: byte write dispatch over the address space, arms in source
order.  `none` is the source panic; note the absence of an arm for the echo
region 0xE000-0xFDFF. -/
def Mmu.wb (m : Mmu) (address value : Nat) : Option Mmu :=
  if address ≤ 0x7FFF then
    match m.cartridge.wb address value with
    | none => none
    | some cart => some { m with cartridge := cart }
  else if address ≤ 0x9FFF then
    some { m with vram := fun i => if i = address - 0x8000 then value else m.vram i }
  else if 0xA000 ≤ address ∧ address ≤ 0xBFFF then
    match m.cartridge.wb address value with
    | none => none
    | some cart => some { m with cartridge := cart }
  else if 0xC000 ≤ address ∧ address ≤ 0xDFFF then
    some { m with sram := fun i => if i = address - 0xC000 then value else m.sram i }
  else if 0xFE00 ≤ address ∧ address ≤ 0xFE9F then
    some { m with oam := fun i => if i = address - 0xFE00 then value else m.oam i }
  else if 0xFEA0 ≤ address ∧ address ≤ 0xFEFF then some m
  else if address = 0xFF00 then some { m with gamepad := value }
  else if address = 0xFF01 then some m
  else if address = 0xFF02 then some m
  else if 0xFF04 ≤ address ∧ address ≤ 0xFF07 then
    match m.timer.wb address value with
    | none => none
    | some t => some { m with timer := t }
  else if address = 0xFF0F then
    some { m with interrupts := { m.interrupts with intf := value } }
  else if 0xFF10 ≤ address ∧ address ≤ 0xFF3F then
    match m.apu.wb address value with
    | none => none
    | some ap => some { m with apu := ap }
  else if address = 0xFF46 then m.oam_dma value
  else if 0xFF40 ≤ address ∧ address ≤ 0xFF4B then
    match m.ppu.wb address value with
    | none => none
    | some p => some { m with ppu := p }
  else if address = 0xFF50 then
    some { m with bootloader := { m.bootloader with is_enabled := false } }
  else if 0xFF80 ≤ address ∧ address ≤ 0xFFFE then
    some { m with hram := fun i => if i = address - 0xFF80 then value else m.hram i }
  else if address = 0xFF7F then some m
  else if address = 0xFFFF then
    some { m with interrupts := { m.interrupts with inte := value } }
  else none

/-- `MMU::rw`: little-endian word read (LSB first). -/
def Mmu.rw (m : Mmu) (address : Nat) : Option Nat :=
  match m.rb address with
  | none => none
  | some lsb =>
    match m.rb ((address + 1) % 65536) with
    | none => none
    | some msb => some ((msb <<< 8) ||| lsb)

/-- `MMU::ww`: little-endian word write (LSB first). -/
def Mmu.ww (m : Mmu) (address value : Nat) : Option Mmu :=
  match m.wb address (value &&& 0xFF) with
  | none => none
  | some m => m.wb ((address + 1) % 65536) ((value >>> 8) % 256)

/-- `MMU::get_next_byte`: read at `pc` and advance `pc`. -/
def Mmu.get_next_byte (m : Mmu) : Option (Nat × Mmu) :=
  match m.rb m.pc with
  | none => none
  | some byte => some (byte, { m with pc := (m.pc + 1) % 65536 })

/-- `MMU::get_next_word`: read a word at `pc` and advance `pc` by 2. -/
def Mmu.get_next_word (m : Mmu) : Option (Nat × Mmu) :=
  match m.rw m.pc with
  | none => none
  | some word => some (word, { m with pc := (m.pc + 2) % 65536 })

/-- Sign extension of an `i8` bit pattern to a `u16` bit pattern
(`byte as i8 as u16` in the source). -/
def i8_as_u16 (byte : Nat) : Nat :=
  if byte < 128 then byte else 0xFF00 + byte

/-- `MMU::push_stack`: decrement `sp` by 2 and write the word there. -/
def Mmu.push_stack (m : Mmu) (address : Nat) : Option Mmu :=
  let m := { m with sp := (m.sp + 65534) % 65536 }
  m.ww m.sp address

/-- `MMU::pop_stack`: read the word at `sp` and increment `sp` by 2. -/
def Mmu.pop_stack (m : Mmu) : Option (Nat × Mmu) :=
  match m.rw m.sp with
  | none => none
  | some address => some (address, { m with sp := (m.sp + 2) % 65536 })

/-- `MMU::try_interrupt`: service the next pending interrupt, if any, by
pushing `pc` and jumping to `0x0040 + 8 * index`; returns the cycle cost
(0 when nothing was serviced, 4 otherwise).  `none` is a source panic. -/
def Mmu.try_interrupt (m : Mmu) : Option (Mmu × Nat) :=
  match m.interrupts.try_interrupt with
  | none => none
  | some (none, ints) => some ({ m with interrupts := ints }, 0)
  | some (some n, ints) =>
    if n < 5 then
      match ({ m with interrupts := ints } : Mmu).push_stack m.pc with
      | none => none
      | some m2 => some ({ m2 with pc := 0x0040 + (n <<< 3) }, 4)
    else none

/-- `MMU::check_lyc_interrupt`: raise a STAT interrupt when LY equals LYC and
the LYC interrupt is enabled. -/
def Mmu.check_lyc_interrupt (m : Mmu) : Mmu :=
  if m.ppu.lyc_int_enable && m.ppu.line == m.ppu.lyc then
    { m with interrupts := { m.interrupts with intf := m.interrupts.intf ||| 0x02 } }
  else m

/-- `alu::xor` (`src/guest/systems/alu.rs`): A ^= n, flags Z 0 0 0. -/
def alu.xor (m : Mmu) (n : Nat) : Mmu :=
  let m := { m with a := m.a ^^^ n }
  let m := m.set_flag_z (m.a == 0)
  let m := m.set_flag_n false
  let m := m.set_flag_h false
  m.set_flag_c false

/-- `alu::or`: A |= n, flags Z 0 0 0. -/
def alu.or (m : Mmu) (n : Nat) : Mmu :=
  let m := { m with a := m.a ||| n }
  let m := m.set_flag_z (m.a == 0)
  let m := m.set_flag_n false
  let m := m.set_flag_h false
  m.set_flag_c false

/-- `alu::and`: A &= n, flags Z 0 1 0. -/
def alu.and (m : Mmu) (n : Nat) : Mmu :=
  let m := { m with a := m.a &&& n }
  let m := m.set_flag_z (m.a == 0)
  let m := m.set_flag_n false
  let m := m.set_flag_h true
  m.set_flag_c false

/-- `alu::inc`: increment a byte, flags Z 0 H -, returning the new byte. -/
def alu.inc (m : Mmu) (value : Nat) : Mmu × Nat :=
  let new_value := (value + 1) % 256
  let m := m.set_flag_z (new_value == 0)
  let m := m.set_flag_n false
  let m := m.set_flag_h (decide ((0xF &&& value) + 1 > 0xF))
  (m, new_value)

/-- `alu::dec`: decrement a byte, flags Z 1 H -, returning the new byte. -/
def alu.dec (m : Mmu) (value : Nat) : Mmu × Nat :=
  let new_value := (value + 255) % 256
  let m := m.set_flag_z (new_value == 0)
  let m := m.set_flag_n true
  let m := m.set_flag_h ((0x0F &&& value) == 0)
  (m, new_value)

/-- `alu::bit`: test one bit, flags Z 0 1 -. -/
def alu.bit (m : Mmu) (bit_index : Nat) (value : Nat) : Mmu :=
  let mask := 1 <<< bit_index
  let is_unset := value &&& mask == 0
  let m := m.set_flag_z is_unset
  let m := m.set_flag_n false
  m.set_flag_h true

/-- `alu::add`: A += value, flags Z 0 H C. -/
def alu.add (m : Mmu) (value : Nat) : Mmu :=
  let new_a := (m.a + value) % 256
  let overflow := decide (m.a + value > 255)
  let m1 := m.set_flag_z (new_a == 0)
  let m1 := m1.set_flag_n false
  let m1 := m1.set_flag_h (decide ((m.a &&& 0xF) + (value &&& 0xF) > 0xF))
  let m1 := m1.set_flag_c overflow
  { m1 with a := new_a }

/-- `alu::add_hl_16` (invoked as `alu::add_16` in the CPU dispatch):
HL += value, flags - 0 H C; the carry flag is assigned twice in the source,
the overflow assignment winning. -/
def alu.add_16 (m : Mmu) (value : Nat) : Mmu :=
  let hl := m.hl
  let new_hl := (hl + value) % 65536
  let overflow := decide (hl + value > 65535)
  let m := m.set_flag_n false
  let m := m.set_flag_h (decide ((hl &&& 0x07FF) + (value &&& 0x07FF) > 0x07FF))
  let m := m.set_flag_c (decide (hl > 0xFFFF - value))
  let m := m.set_flag_c overflow
  m.set_hl new_hl

/-- `alu::sub`: A -= value, flags Z 1 H C (H and C are the borrows). -/
def alu.sub (m : Mmu) (value : Nat) : Mmu :=
  let new_a := (m.a + 256 - value) % 256
  let m1 := m.set_flag_z (new_a == 0)
  let m1 := m1.set_flag_n true
  let m1 := m1.set_flag_h (decide ((m.a &&& 0x0F) < (value &&& 0x0F)))
  let m1 := m1.set_flag_c (decide (m.a < value))
  { m1 with a := new_a }

/-- `alu::sbc`: subtract value plus the carry bit from A. -/
def alu.sbc (m : Mmu) (value : Nat) : Mmu :=
  alu.sub m ((value + (if m.flag_c then 1 else 0)) % 256)

/-- `alu::rl`: rotate left through carry, flags Z 0 0 C, returning the new byte. -/
def alu.rl (m : Mmu) (value : Nat) : Mmu × Nat :=
  let new_value := ((value <<< 1) % 256) ||| (if m.flag_c then 1 else 0)
  let m := m.set_flag_z (new_value == 0)
  let m := m.set_flag_h false
  let m := m.set_flag_n false
  let m := m.set_flag_c ((value &&& 0x80) == 0x80)
  (m, new_value)

/-- `alu::rlc`: rotate left (not through carry), flags Z 0 0 C. -/
def alu.rlc (m : Mmu) (value : Nat) : Mmu × Nat :=
  let has_carry := (value &&& 0x80) == 0x80
  let new_value := ((value <<< 1) % 256) ||| (if has_carry then 1 else 0)
  let m := m.set_flag_z (new_value == 0)
  let m := m.set_flag_h false
  let m := m.set_flag_n false
  let m := m.set_flag_c has_carry
  (m, new_value)

/-- `alu::rr`: rotate right through carry as written in the source (the old
carry is masked with the value itself), flags Z 0 0 C. -/
def alu.rr (m : Mmu) (value : Nat) : Mmu × Nat :=
  let has_carry := (value &&& 0x01) == 0x01
  let new_value := (value >>> 1) ||| (value &&& (if m.flag_c then 0x80 else 0x00))
  let m := m.set_flag_z (new_value == 0)
  let m := m.set_flag_h false
  let m := m.set_flag_n false
  let m := m.set_flag_c has_carry
  (m, new_value)

/-- `alu::rrc`: rotate right (not through carry), flags Z 0 0 C. -/
def alu.rrc (m : Mmu) (value : Nat) : Mmu × Nat :=
  let has_carry := (value &&& 0x01) == 0x01
  let new_value := (value >>> 1) ||| (if has_carry then 0x80 else 0x00)
  let m := m.set_flag_z (new_value == 0)
  let m := m.set_flag_h false
  let m := m.set_flag_n false
  let m := m.set_flag_c has_carry
  (m, new_value)

/-- `alu::cp`: compare (subtract without storing), flags Z 1 H C. -/
def alu.cp (m : Mmu) (value : Nat) : Mmu :=
  let m1 := m.set_flag_z (((m.a + 256 - value) % 256) == 0)
  let m1 := m1.set_flag_n true
  let m1 := m1.set_flag_h (decide ((m.a &&& 0x0F) < (value &&& 0x0F)))
  m1.set_flag_c (decide (m.a < value))

/-- `alu::cpl`: complement A, flags - 1 1 -. -/
def alu.cpl (m : Mmu) : Mmu :=
  let m := { m with a := m.a ^^^ 0xFF }
  let m := m.set_flag_n true
  m.set_flag_h true

/-- `alu::swap`: swap nibbles, flags Z 0 0 0, returning the new byte. -/
def alu.swap (m : Mmu) (value : Nat) : Mmu × Nat :=
  let m := m.set_flag_z (value == 0)
  let m := m.set_flag_n false
  let m := m.set_flag_h false
  let m := m.set_flag_c false
  (m, (value >>> 4) ||| ((value <<< 4) % 256))

/-- `alu::res`: reset one bit, no flag effects. -/
def alu.res (bit : Nat) (value : Nat) : Nat :=
  value &&& (255 ^^^ ((1 <<< bit) % 256))

/-- `alu::set`: set one bit, no flag effects. -/
def alu.set (bit : Nat) (value : Nat) : Nat :=
  value ||| ((1 <<< bit) % 256)

/-- `alu::sla`: shift left arithmetic, flags Z 0 0 C. -/
def alu.sla (m : Mmu) (value : Nat) : Mmu × Nat :=
  let new_value := (value <<< 1) % 256
  let m := m.set_flag_z (new_value == 0)
  let m := m.set_flag_n false
  let m := m.set_flag_h false
  let m := m.set_flag_c ((value >>> 7) == 1)
  (m, new_value)

/-- `alu::sra`: shift right arithmetic, flags Z 0 0 C. -/
def alu.sra (m : Mmu) (value : Nat) : Mmu × Nat :=
  let msb := value &&& 0x80
  let new_value := (value >>> 1) ||| msb
  let m := m.set_flag_z (new_value == 0)
  let m := m.set_flag_n false
  let m := m.set_flag_h false
  let m := m.set_flag_c ((value &&& 0x01) == 0x01)
  (m, new_value)

/-- `alu::srl`: shift right logical, flags Z 0 0 C. -/
def alu.srl (m : Mmu) (value : Nat) : Mmu × Nat :=
  let new_value := value >>> 1
  let m := m.set_flag_z (new_value == 0)
  let m := m.set_flag_n false
  let m := m.set_flag_h false
  let m := m.set_flag_c ((value &&& 0x01) == 0x01)
  (m, new_value)

/-- `alu::adc`: A += value + carry, flags Z 0 H C.  As in the source, the
half-carry compares the nibbles of `value` (not of `value + carry`), and the
byte carry is computed on the wrapped `value + carry`. -/
def alu.adc (m : Mmu) (value : Nat) : Mmu :=
  let value_with_carry := (value + (if m.flag_c then 1 else 0)) % 256
  let new_a := (m.a + value_with_carry) % 256
  let overflow := decide (m.a + value_with_carry > 255)
  let m1 := m.set_flag_z (new_a == 0)
  let m1 := m1.set_flag_n false
  let m1 := m1.set_flag_h (decide ((m.a &&& 0xF) + (value &&& 0xF) > 0xF))
  let m1 := m1.set_flag_c overflow
  { m1 with a := new_a }

/-- `alu::daa`: decimal adjust A for BCD, flags Z - 0 C. -/
def alu.daa (m : Mmu) : Mmu :=
  let subtract := m.flag_n
  let carry := m.flag_c
  let halfcarry := m.flag_h
  let m :=
    if subtract then
      let m := if carry then { m with a := (m.a + 256 - 0x60) % 256 } else m
      if halfcarry then { m with a := (m.a + 256 - 0x6) % 256 } else m
    else
      let m :=
        if carry || decide (m.a > 0x99) then
          ({ m with a := (m.a + 0x60) % 256 }).set_flag_c true
        else m
      if halfcarry || decide (m.a &&& 0x0F > 0x09) then
        { m with a := (m.a + 0x6) % 256 }
      else m
  let m := m.set_flag_z (m.a == 0)
  m.set_flag_h false

/-- Arms 0x00-0x3f of the non-prefixed opcode dispatch (the single
source match is split into quarters only to keep each Lean term small; the
arms themselves are unchanged). -/
def exec_opcode_q0 (opcode : Nat) (m : Mmu) : Option (Mmu × Bool) :=
  if opcode = 0x00 then
    some (m, false)
  else if opcode = 0x01 then
    match m.get_next_word with
    | none => none
    | some (w, m1) => some (m1.set_bc w, false)
  else if opcode = 0x03 then
    some (m.set_bc ((m.bc + 1) % 65536), false)
  else if opcode = 0x04 then
    some ({ (alu.inc m m.b).1 with b := (alu.inc m m.b).2 }, false)
  else if opcode = 0x05 then
    some ({ (alu.dec m m.b).1 with b := (alu.dec m m.b).2 }, false)
  else if opcode = 0x06 then
    match m.get_next_byte with
    | none => none
    | some (d8, m1) => some ({ m1 with b := d8 }, false)
  else if opcode = 0x07 then
    some ((({ (alu.rlc m m.a).1 with a := (alu.rlc m m.a).2 }).set_flag_z false), false)
  else if opcode = 0x09 then
    some (alu.add_16 m m.bc, false)
  else if opcode = 0x0a then
    match m.rb m.bc with
    | none => none
    | some byte => some ({ m with a := byte }, false)
  else if opcode = 0x0b then
    some (m.set_bc ((m.bc + 65535) % 65536), false)
  else if opcode = 0x0c then
    some ({ m with c := (m.c + 1) % 256 }, false)
  else if opcode = 0x0d then
    some ({ (alu.dec m m.c).1 with c := (alu.dec m m.c).2 }, false)
  else if opcode = 0x0e then
    match m.get_next_byte with
    | none => none
    | some (d8, m1) => some ({ m1 with c := d8 }, false)
  else if opcode = 0x11 then
    match m.get_next_word with
    | none => none
    | some (w, m1) => some (m1.set_de w, false)
  else if opcode = 0x12 then
    match m.wb m.de m.a with
    | none => none
    | some m1 => some (m1, false)
  else if opcode = 0x13 then
    some (m.set_de ((m.de + 1) % 65536), false)
  else if opcode = 0x15 then
    some ({ (alu.dec m m.d).1 with d := (alu.dec m m.d).2 }, false)
  else if opcode = 0x16 then
    match m.get_next_byte with
    | none => none
    | some (d8, m1) => some ({ m1 with d := d8 }, false)
  else if opcode = 0x17 then
    some ((({ (alu.rl m m.a).1 with a := (alu.rl m m.a).2 }).set_flag_z false), false)
  else if opcode = 0x18 then
    match m.get_next_byte with
    | none => none
    | some (d8, m1) => some ({ m1 with pc := (m1.pc + i8_as_u16 d8) % 65536 }, false)
  else if opcode = 0x19 then
    some (alu.add_16 m m.de, false)
  else if opcode = 0x1a then
    match m.rb m.de with
    | none => none
    | some byte => some ({ m with a := byte }, false)
  else if opcode = 0x1b then
    some (m.set_de ((m.de + 65535) % 65536), false)
  else if opcode = 0x1c then
    some ({ (alu.inc m m.e).1 with e := (alu.inc m m.e).2 }, false)
  else if opcode = 0x1d then
    some ({ (alu.dec m m.e).1 with e := (alu.dec m m.e).2 }, false)
  else if opcode = 0x1e then
    match m.get_next_byte with
    | none => none
    | some (d8, m1) => some ({ m1 with e := d8 }, false)
  else if opcode = 0x20 then
    match m.get_next_byte with
    | none => none
    | some (d8, m1) =>
      if !m1.flag_z then some ({ m1 with pc := (m1.pc + i8_as_u16 d8) % 65536 }, true)
      else some (m1, false)
  else if opcode = 0x21 then
    match m.get_next_word with
    | none => none
    | some (w, m1) => some (m1.set_hl w, false)
  else if opcode = 0x22 then
    match m.wb m.hl m.a with
    | none => none
    | some m1 => some (m1.set_hl ((m.hl + 1) % 65536), false)
  else if opcode = 0x23 then
    some (m.set_hl ((m.hl + 1) % 65536), false)
  else if opcode = 0x24 then
    some ({ (alu.inc m m.h).1 with h := (alu.inc m m.h).2 }, false)
  else if opcode = 0x25 then
    some ({ (alu.dec m m.h).1 with h := (alu.dec m m.h).2 }, false)
  else if opcode = 0x26 then
    match m.get_next_byte with
    | none => none
    | some (d8, m1) => some ({ m1 with h := d8 }, false)
  else if opcode = 0x27 then
    some (alu.daa m, false)
  else if opcode = 0x28 then
    match m.get_next_byte with
    | none => none
    | some (d8, m1) =>
      if m1.flag_z then some ({ m1 with pc := (m1.pc + i8_as_u16 d8) % 65536 }, true)
      else some (m1, false)
  else if opcode = 0x2a then
    match m.rb m.hl with
    | none => none
    | some byte => some (({ m with a := byte }).set_hl ((m.hl + 1) % 65536), false)
  else if opcode = 0x2b then
    some (m.set_hl ((m.hl + 65535) % 65536), false)
  else if opcode = 0x2c then
    some ({ (alu.inc m m.l).1 with l := (alu.inc m m.l).2 }, false)
  else if opcode = 0x2d then
    some ({ (alu.dec m m.l).1 with l := (alu.dec m m.l).2 }, false)
  else if opcode = 0x2e then
    match m.get_next_byte with
    | none => none
    | some (d8, m1) => some ({ m1 with l := d8 }, false)
  else if opcode = 0x2f then
    some (alu.cpl m, false)
  else if opcode = 0x30 then
    match m.get_next_byte with
    | none => none
    | some (d8, m1) =>
      if !m1.flag_c then some ({ m1 with pc := (m1.pc + i8_as_u16 d8) % 65536 }, true)
      else some (m1, false)
  else if opcode = 0x31 then
    match m.get_next_word with
    | none => none
    | some (w, m1) => some ({ m1 with sp := w }, false)
  else if opcode = 0x32 then
    match m.wb m.hl m.a with
    | none => none
    | some m1 => some (m1.set_hl ((m.hl + 65535) % 65536), false)
  else if opcode = 0x34 then
    match m.rb m.hl with
    | none => none
    | some byte =>
      match (alu.inc m byte).1.wb m.hl (alu.inc m byte).2 with
      | none => none
      | some m2 => some (m2, false)
  else if opcode = 0x35 then
    match m.rb m.hl with
    | none => none
    | some byte =>
      match (alu.dec m byte).1.wb m.hl (alu.dec m byte).2 with
      | none => none
      | some m2 => some (m2, false)
  else if opcode = 0x36 then
    match m.get_next_byte with
    | none => none
    | some (d8, m1) =>
      match m1.wb m.hl d8 with
      | none => none
      | some m2 => some (m2, false)
  else if opcode = 0x38 then
    match m.get_next_byte with
    | none => none
    | some (d8, m1) =>
      if m1.flag_c then some (m1, true)
      else some (m1, false)
  else if opcode = 0x3a then
    match m.rb m.hl with
    | none => none
    | some byte => some (({ m with a := byte }).set_hl ((m.hl + 65535) % 65536), false)
  else if opcode = 0x3b then
    some ({ m with sp := (m.sp + 65535) % 65536 }, false)
  else if opcode = 0x3c then
    some ({ (alu.inc m m.a).1 with a := (alu.inc m m.a).2 }, false)
  else if opcode = 0x3d then
    some ({ (alu.dec m m.a).1 with a := (alu.dec m m.a).2 }, false)
  else if opcode = 0x3e then
    match m.get_next_byte with
    | none => none
    | some (d8, m1) => some ({ m1 with a := d8 }, false)
  else none

/-- Arms 0x40-0x7f of the non-prefixed opcode dispatch (the single
source match is split into quarters only to keep each Lean term small; the
arms themselves are unchanged). -/
def exec_opcode_q1 (opcode : Nat) (m : Mmu) : Option (Mmu × Bool) :=
  if opcode = 0x40 then
    some (m, false)
  else if opcode = 0x4e then
    match m.rb m.hl with
    | none => none
    | some byte => some ({ m with c := byte }, false)
  else if opcode = 0x46 then
    match m.rb m.hl with
    | none => none
    | some byte => some ({ m with b := byte }, false)
  else if opcode = 0x47 then
    some ({ m with b := m.a }, false)
  else if opcode = 0x49 then
    some (m, false)
  else if opcode = 0x4f then
    some ({ m with c := m.a }, false)
  else if opcode = 0x50 then
    some ({ m with d := m.b }, false)
  else if opcode = 0x51 then
    some ({ m with d := m.c }, false)
  else if opcode = 0x53 then
    some ({ m with d := m.e }, false)
  else if opcode = 0x54 then
    some ({ m with d := m.h }, false)
  else if opcode = 0x55 then
    some ({ m with d := m.l }, false)
  else if opcode = 0x57 then
    some ({ m with d := m.a }, false)
  else if opcode = 0x58 then
    some ({ m with a := m.b }, false)
  else if opcode = 0x59 then
    some ({ m with a := m.c }, false)
  else if opcode = 0x5a then
    some ({ m with a := m.d }, false)
  else if opcode = 0x5b then
    some ({ m with a := m.e }, false)
  else if opcode = 0x5c then
    some ({ m with a := m.h }, false)
  else if opcode = 0x5d then
    some ({ m with e := m.l }, false)
  else if opcode = 0x5f then
    some ({ m with e := m.a }, false)
  else if opcode = 0x60 then
    some ({ m with h := m.b }, false)
  else if opcode = 0x61 then
    some ({ m with h := m.c }, false)
  else if opcode = 0x62 then
    some ({ m with h := m.d }, false)
  else if opcode = 0x63 then
    some ({ m with h := m.e }, false)
  else if opcode = 0x64 then
    some ({ m with h := m.h }, false)
  else if opcode = 0x65 then
    some ({ m with h := m.l }, false)
  else if opcode = 0x67 then
    some ({ m with h := m.a }, false)
  else if opcode = 0x68 then
    some ({ m with l := m.b }, false)
  else if opcode = 0x69 then
    some ({ m with l := m.c }, false)
  else if opcode = 0x6a then
    some ({ m with l := m.d }, false)
  else if opcode = 0x6b then
    some ({ m with l := m.e }, false)
  else if opcode = 0x6c then
    some ({ m with l := m.h }, false)
  else if opcode = 0x6d then
    some ({ m with l := m.l }, false)
  else if opcode = 0x6f then
    some ({ m with l := m.a }, false)
  else if opcode = 0x78 then
    some ({ m with a := m.b }, false)
  else if opcode = 0x79 then
    some ({ m with a := m.c }, false)
  else if opcode = 0x7a then
    some ({ m with a := m.d }, false)
  else if opcode = 0x7b then
    some ({ m with a := m.e }, false)
  else if opcode = 0x7c then
    some ({ m with a := m.h }, false)
  else if opcode = 0x7d then
    some ({ m with a := m.l }, false)
  else if opcode = 0x52 then
    some (m, false)
  else if opcode = 0x56 then
    match m.rb m.hl with
    | none => none
    | some byte => some ({ m with d := byte }, false)
  else if opcode = 0x5e then
    match m.rb m.hl with
    | none => none
    | some byte => some ({ m with e := byte }, false)
  else if opcode = 0x70 then
    match m.wb m.hl m.b with
    | none => none
    | some m1 => some (m1, false)
  else if opcode = 0x71 then
    match m.wb m.hl m.c with
    | none => none
    | some m1 => some (m1, false)
  else if opcode = 0x72 then
    match m.wb m.hl m.d with
    | none => none
    | some m1 => some (m1, false)
  else if opcode = 0x73 then
    match m.wb m.hl m.e with
    | none => none
    | some m1 => some (m1, false)
  else if opcode = 0x74 then
    match m.wb m.hl m.h with
    | none => none
    | some m1 => some (m1, false)
  else if opcode = 0x75 then
    match m.wb m.hl m.l with
    | none => none
    | some m1 => some (m1, false)
  else if opcode = 0x77 then
    match m.wb m.hl m.a with
    | none => none
    | some m1 => some (m1, false)
  else if opcode = 0x7e then
    match m.rb m.hl with
    | none => none
    | some byte => some ({ m with a := byte }, false)
  else none

/-- Arms 0x80-0xbf of the non-prefixed opcode dispatch (the single
source match is split into quarters only to keep each Lean term small; the
arms themselves are unchanged). -/
def exec_opcode_q2 (opcode : Nat) (m : Mmu) : Option (Mmu × Bool) :=
  if opcode = 0x80 then
    some (alu.add m m.b, false)
  else if opcode = 0x81 then
    some (alu.add m m.c, false)
  else if opcode = 0x82 then
    some (alu.add m m.d, false)
  else if opcode = 0x83 then
    some (alu.add m m.e, false)
  else if opcode = 0x84 then
    some (alu.add m m.h, false)
  else if opcode = 0x85 then
    some (alu.add m m.l, false)
  else if opcode = 0x86 then
    match m.rb m.hl with
    | none => none
    | some byte => some (alu.add m byte, false)
  else if opcode = 0x87 then
    some (alu.add m m.a, false)
  else if opcode = 0x88 then
    some (alu.adc m m.b, false)
  else if opcode = 0x89 then
    some (alu.adc m m.c, false)
  else if opcode = 0x8a then
    some (alu.adc m m.d, false)
  else if opcode = 0x8b then
    some (alu.adc m m.e, false)
  else if opcode = 0x8c then
    some (alu.adc m m.h, false)
  else if opcode = 0x8d then
    some (alu.adc m m.l, false)
  else if opcode = 0x8e then
    match m.rb m.hl with
    | none => none
    | some byte => some (alu.adc m byte, false)
  else if opcode = 0x8f then
    some (alu.adc m m.a, false)
  else if opcode = 0x90 then
    some (alu.sub m m.b, false)
  else if opcode = 0x91 then
    some (alu.sub m m.c, false)
  else if opcode = 0x92 then
    some (alu.sub m m.d, false)
  else if opcode = 0x93 then
    some (alu.sub m m.e, false)
  else if opcode = 0x94 then
    some (alu.sub m m.h, false)
  else if opcode = 0x95 then
    some (alu.sub m m.l, false)
  else if opcode = 0x96 then
    match m.rb m.hl with
    | none => none
    | some byte => some (alu.sub m byte, false)
  else if opcode = 0x97 then
    some (alu.sub m m.a, false)
  else if opcode = 0x98 then
    some (alu.sbc m m.b, false)
  else if opcode = 0x99 then
    some (alu.sbc m m.c, false)
  else if opcode = 0x9a then
    some (alu.sbc m m.d, false)
  else if opcode = 0x9b then
    some (alu.sbc m m.e, false)
  else if opcode = 0x9c then
    some (alu.sbc m m.h, false)
  else if opcode = 0x9d then
    some (alu.sbc m m.l, false)
  else if opcode = 0x9e then
    match m.rb m.hl with
    | none => none
    | some byte => some (alu.sbc m byte, false)
  else if opcode = 0x9f then
    some (alu.sbc m m.a, false)
  else if opcode = 0xa1 then
    some (alu.and m m.c, false)
  else if opcode = 0xa7 then
    some (alu.and m m.a, false)
  else if opcode = 0xa8 then
    some (alu.xor m m.b, false)
  else if opcode = 0xa9 then
    some (alu.xor m m.c, false)
  else if opcode = 0xaa then
    some (alu.xor m m.d, false)
  else if opcode = 0xab then
    some (alu.xor m m.e, false)
  else if opcode = 0xac then
    some (alu.xor m m.h, false)
  else if opcode = 0xad then
    some (alu.xor m m.l, false)
  else if opcode = 0xae then
    match m.rb m.hl with
    | none => none
    | some byte => some (alu.xor m byte, false)
  else if opcode = 0xaf then
    some (alu.xor m m.a, false)
  else if opcode = 0xb0 then
    some (alu.or m m.b, false)
  else if opcode = 0xb1 then
    some (alu.or m m.c, false)
  else if opcode = 0xb2 then
    some (alu.or m m.d, false)
  else if opcode = 0xb3 then
    some (alu.or m m.e, false)
  else if opcode = 0xb4 then
    some (alu.or m m.h, false)
  else if opcode = 0xb5 then
    some (alu.or m m.l, false)
  else if opcode = 0xb6 then
    match m.rb m.hl with
    | none => none
    | some byte => some (alu.or m byte, false)
  else if opcode = 0xb7 then
    some (alu.or m m.a, false)
  else if opcode = 0xb8 then
    some (alu.cp m m.b, false)
  else if opcode = 0xb9 then
    some (alu.cp m m.c, false)
  else if opcode = 0xba then
    some (alu.cp m m.d, false)
  else if opcode = 0xbb then
    some (alu.cp m m.e, false)
  else if opcode = 0xbc then
    some (alu.cp m m.h, false)
  else if opcode = 0xbd then
    some (alu.cp m m.l, false)
  else if opcode = 0xbe then
    match m.rb m.hl with
    | none => none
    | some byte => some (alu.cp m byte, false)
  else if opcode = 0xbf then
    some (alu.cp m m.a, false)
  else none

/-- Arms 0xc0-0xff of the non-prefixed opcode dispatch (the single
source match is split into quarters only to keep each Lean term small; the
arms themselves are unchanged). -/
def exec_opcode_q3 (opcode : Nat) (m : Mmu) : Option (Mmu × Bool) :=
  if opcode = 0xc0 then
    if !m.flag_z then
      match m.pop_stack with
      | none => none
      | some (w, m1) => some ({ m1 with pc := w }, true)
    else some (m, false)
  else if opcode = 0xc1 then
    match m.pop_stack with
    | none => none
    | some (w, m1) => some (m1.set_bc w, false)
  else if opcode = 0xc2 then
    match m.get_next_word with
    | none => none
    | some (w, m1) =>
      if !m1.flag_z then some ({ m1 with pc := w }, true)
      else some (m1, false)
  else if opcode = 0xc3 then
    match m.get_next_word with
    | none => none
    | some (w, m1) => some ({ m1 with pc := w }, false)
  else if opcode = 0xc5 then
    match m.push_stack m.bc with
    | none => none
    | some m1 => some (m1, false)
  else if opcode = 0xc6 then
    match m.get_next_byte with
    | none => none
    | some (d8, m1) => some (alu.add m1 d8, false)
  else if opcode = 0xc8 then
    if m.flag_z then
      match m.pop_stack with
      | none => none
      | some (w, m1) => some ({ m1 with pc := w }, true)
    else some (m, false)
  else if opcode = 0xc9 then
    match m.pop_stack with
    | none => none
    | some (w, m1) => some ({ m1 with pc := w }, false)
  else if opcode = 0xca then
    match m.get_next_word with
    | none => none
    | some (w, m1) =>
      if m1.flag_z then some ({ m1 with pc := w }, true)
      else some (m1, false)
  else if opcode = 0xcd then
    match m.get_next_word with
    | none => none
    | some (w, m1) =>
      match m1.push_stack m1.pc with
      | none => none
      | some m2 => some ({ m2 with pc := w }, false)
  else if opcode = 0xce then
    match m.get_next_byte with
    | none => none
    | some (d8, m1) => some (alu.adc m1 d8, false)
  else if opcode = 0xd0 then
    if !m.flag_c then
      match m.pop_stack with
      | none => none
      | some (w, m1) => some ({ m1 with pc := w }, true)
    else some (m, false)
  else if opcode = 0xd1 then
    match m.pop_stack with
    | none => none
    | some (w, m1) => some (m1.set_de w, false)
  else if opcode = 0xd5 then
    match m.push_stack m.de with
    | none => none
    | some m1 => some (m1, false)
  else if opcode = 0xd6 then
    match m.get_next_byte with
    | none => none
    | some (d8, m1) => some (alu.sub m1 d8, false)
  else if opcode = 0xd8 then
    if m.flag_c then
      match m.pop_stack with
      | none => none
      | some (w, m1) => some ({ m1 with pc := w }, true)
    else some (m, false)
  else if opcode = 0xd9 then
    match m.pop_stack with
    | none => none
    | some (w, m1) => some ({ { m1 with pc := w } with interrupts := ({ m1 with pc := w }).interrupts.enable_ime 1 }, false)
  else if opcode = 0xe0 then
    match m.get_next_byte with
    | none => none
    | some (d8, m1) =>
      match m1.wb (0xFF00 + d8) m.a with
      | none => none
      | some m2 => some (m2, false)
  else if opcode = 0xe1 then
    match m.pop_stack with
    | none => none
    | some (w, m1) => some (m1.set_hl w, false)
  else if opcode = 0xe2 then
    match m.wb (0xFF00 + m.c) m.a with
    | none => none
    | some m1 => some (m1, false)
  else if opcode = 0xe5 then
    match m.push_stack m.hl with
    | none => none
    | some m1 => some (m1, false)
  else if opcode = 0xe6 then
    match m.get_next_byte with
    | none => none
    | some (d8, m1) => some (alu.and m1 d8, false)
  else if opcode = 0xe9 then
    some ({ m with pc := m.hl }, false)
  else if opcode = 0xea then
    match m.get_next_word with
    | none => none
    | some (w, m1) =>
      match m1.wb w m.a with
      | none => none
      | some m2 => some (m2, false)
  else if opcode = 0xee then
    match m.get_next_byte with
    | none => none
    | some (d8, m1) => some (alu.xor m1 d8, false)
  else if opcode = 0xef then
    match m.push_stack m.pc with
    | none => none
    | some m1 => some ({ m1 with pc := 0x0028 }, false)
  else if opcode = 0xf0 then
    match m.get_next_byte with
    | none => none
    | some (d8, m1) =>
      match m1.rb (0xFF00 + d8) with
      | none => none
      | some byte => some ({ m1 with a := byte }, false)
  else if opcode = 0xf1 then
    match m.pop_stack with
    | none => none
    | some (w, m1) => some (m1.set_af w, false)
  else if opcode = 0xf3 then
    some ({ m with interrupts := m.interrupts.disable_ime }, false)
  else if opcode = 0xf5 then
    match m.push_stack m.af with
    | none => none
    | some m1 => some (m1, false)
  else if opcode = 0xf6 then
    match m.get_next_byte with
    | none => none
    | some (d8, m1) => some (alu.or m1 d8, false)
  else if opcode = 0xfa then
    match m.get_next_word with
    | none => none
    | some (w, m1) =>
      match m1.rb (w) with
      | none => none
      | some byte => some ({ m1 with a := byte }, false)
  else if opcode = 0xfb then
    some ({ m with interrupts := m.interrupts.enable_ime 2 }, false)
  else if opcode = 0xfe then
    match m.get_next_byte with
    | none => none
    | some (d8, m1) => some (alu.cp m1 d8, false)
  else none

/-- The non-prefixed opcode dispatch: the first `match` of `CPU::do_opcode`
(`src/guest/cpu.rs`), arm for arm (if-chains have the same first-match
semantics; each arm is keyed by one literal, so quartering by value is
equivalent).  Returns the mutated state and the `condition_met` flag; `none`
is the catch-all panic for an opcode with no dispatch entry (and any panic
inside an arm).  Register names `m.b`, `m.hl`, ... are the snapshot the
source takes before the match; ALU helpers returning a byte are modelled as
pairs, read with `.1`/`.2`. -/
def exec_opcode (opcode : Nat) (m : Mmu) : Option (Mmu × Bool) :=
  if opcode < 0x40 then exec_opcode_q0 opcode m
  else if opcode < 0x80 then exec_opcode_q1 opcode m
  else if opcode < 0xC0 then exec_opcode_q2 opcode m
  else exec_opcode_q3 opcode m

/-- Arms 0x00-0x3f of the CB-prefixed opcode dispatch (quartered
only to keep each Lean term small; the arms themselves are unchanged). -/
def exec_cb_q0 (opcode : Nat) (m : Mmu) : Option Mmu :=
  if opcode = 0x11 then
    some { (alu.rl m m.c).1 with c := (alu.rl m m.c).2 }
  else if opcode = 0x27 then
    some { (alu.sla m m.a).1 with a := (alu.sla m m.a).2 }
  else if opcode = 0x30 then
    some { (alu.swap m m.b).1 with b := (alu.swap m m.b).2 }
  else if opcode = 0x31 then
    some { (alu.swap m m.c).1 with c := (alu.swap m m.c).2 }
  else if opcode = 0x32 then
    some { (alu.swap m m.d).1 with d := (alu.swap m m.d).2 }
  else if opcode = 0x33 then
    some { (alu.swap m m.e).1 with e := (alu.swap m m.e).2 }
  else if opcode = 0x34 then
    some { (alu.swap m m.h).1 with h := (alu.swap m m.h).2 }
  else if opcode = 0x35 then
    some { (alu.swap m m.l).1 with l := (alu.swap m m.l).2 }
  else if opcode = 0x36 then
    match m.rb m.hl with
    | none => none
    | some byte => (alu.swap m byte).1.wb m.hl (alu.swap m byte).2
  else if opcode = 0x37 then
    some { (alu.swap m m.a).1 with a := (alu.swap m m.a).2 }
  else if opcode = 0x3f then
    some { (alu.srl m m.a).1 with a := (alu.srl m m.a).2 }
  else none

/-- Arms 0x40-0x7f of the CB-prefixed opcode dispatch (quartered
only to keep each Lean term small; the arms themselves are unchanged). -/
def exec_cb_q1 (opcode : Nat) (m : Mmu) : Option Mmu :=
  if opcode = 0x40 then
    some (alu.bit m 0 m.b)
  else if opcode = 0x41 then
    some (alu.bit m 0 m.c)
  else if opcode = 0x42 then
    some (alu.bit m 0 m.d)
  else if opcode = 0x43 then
    some (alu.bit m 0 m.e)
  else if opcode = 0x44 then
    some (alu.bit m 0 m.h)
  else if opcode = 0x45 then
    some (alu.bit m 0 m.l)
  else if opcode = 0x46 then
    match m.rb m.hl with
    | none => none
    | some byte => some (alu.bit m 0 byte)
  else if opcode = 0x47 then
    some (alu.bit m 0 m.a)
  else if opcode = 0x48 then
    some (alu.bit m 1 m.b)
  else if opcode = 0x49 then
    some (alu.bit m 1 m.c)
  else if opcode = 0x4a then
    some (alu.bit m 1 m.d)
  else if opcode = 0x4b then
    some (alu.bit m 1 m.e)
  else if opcode = 0x4c then
    some (alu.bit m 1 m.h)
  else if opcode = 0x4d then
    some (alu.bit m 1 m.l)
  else if opcode = 0x4e then
    match m.rb m.hl with
    | none => none
    | some byte => some (alu.bit m 1 byte)
  else if opcode = 0x4f then
    some (alu.bit m 1 m.a)
  else if opcode = 0x50 then
    some (alu.bit m 2 m.b)
  else if opcode = 0x51 then
    some (alu.bit m 2 m.c)
  else if opcode = 0x52 then
    some (alu.bit m 2 m.d)
  else if opcode = 0x53 then
    some (alu.bit m 2 m.e)
  else if opcode = 0x54 then
    some (alu.bit m 2 m.h)
  else if opcode = 0x55 then
    some (alu.bit m 2 m.l)
  else if opcode = 0x56 then
    match m.rb m.hl with
    | none => none
    | some byte => some (alu.bit m 2 byte)
  else if opcode = 0x57 then
    some (alu.bit m 2 m.a)
  else if opcode = 0x58 then
    some (alu.bit m 3 m.b)
  else if opcode = 0x59 then
    some (alu.bit m 3 m.c)
  else if opcode = 0x5a then
    some (alu.bit m 3 m.d)
  else if opcode = 0x5b then
    some (alu.bit m 3 m.e)
  else if opcode = 0x5c then
    some (alu.bit m 3 m.h)
  else if opcode = 0x5d then
    some (alu.bit m 3 m.l)
  else if opcode = 0x5e then
    match m.rb m.hl with
    | none => none
    | some byte => some (alu.bit m 3 byte)
  else if opcode = 0x5f then
    some (alu.bit m 3 m.a)
  else if opcode = 0x60 then
    some (alu.bit m 4 m.b)
  else if opcode = 0x61 then
    some (alu.bit m 4 m.c)
  else if opcode = 0x62 then
    some (alu.bit m 4 m.d)
  else if opcode = 0x63 then
    some (alu.bit m 4 m.e)
  else if opcode = 0x64 then
    some (alu.bit m 4 m.h)
  else if opcode = 0x65 then
    some (alu.bit m 4 m.l)
  else if opcode = 0x66 then
    match m.rb m.hl with
    | none => none
    | some byte => some (alu.bit m 4 byte)
  else if opcode = 0x67 then
    some (alu.bit m 4 m.a)
  else if opcode = 0x68 then
    some (alu.bit m 5 m.b)
  else if opcode = 0x69 then
    some (alu.bit m 5 m.c)
  else if opcode = 0x6a then
    some (alu.bit m 5 m.d)
  else if opcode = 0x6b then
    some (alu.bit m 5 m.e)
  else if opcode = 0x6c then
    some (alu.bit m 5 m.h)
  else if opcode = 0x6d then
    some (alu.bit m 5 m.l)
  else if opcode = 0x6e then
    match m.rb m.hl with
    | none => none
    | some byte => some (alu.bit m 5 byte)
  else if opcode = 0x6f then
    some (alu.bit m 5 m.a)
  else if opcode = 0x70 then
    some (alu.bit m 6 m.b)
  else if opcode = 0x71 then
    some (alu.bit m 6 m.c)
  else if opcode = 0x72 then
    some (alu.bit m 6 m.d)
  else if opcode = 0x73 then
    some (alu.bit m 6 m.e)
  else if opcode = 0x74 then
    some (alu.bit m 6 m.h)
  else if opcode = 0x75 then
    some (alu.bit m 6 m.l)
  else if opcode = 0x76 then
    match m.rb m.hl with
    | none => none
    | some byte => some (alu.bit m 6 byte)
  else if opcode = 0x77 then
    some (alu.bit m 6 m.a)
  else if opcode = 0x78 then
    some (alu.bit m 7 m.b)
  else if opcode = 0x79 then
    some (alu.bit m 7 m.c)
  else if opcode = 0x7a then
    some (alu.bit m 7 m.d)
  else if opcode = 0x7b then
    some (alu.bit m 7 m.e)
  else if opcode = 0x7c then
    some (alu.bit m 7 m.h)
  else if opcode = 0x7d then
    some (alu.bit m 7 m.l)
  else if opcode = 0x7e then
    match m.rb m.hl with
    | none => none
    | some byte => some (alu.bit m 7 byte)
  else if opcode = 0x7f then
    some (alu.bit m 7 m.a)
  else none

/-- Arms 0x80-0xbf of the CB-prefixed opcode dispatch (quartered
only to keep each Lean term small; the arms themselves are unchanged). -/
def exec_cb_q2 (opcode : Nat) (m : Mmu) : Option Mmu :=
  if opcode = 0x80 then
    some { m with b := alu.res 0 m.b }
  else if opcode = 0x81 then
    some { m with c := alu.res 0 m.c }
  else if opcode = 0x82 then
    some { m with d := alu.res 0 m.d }
  else if opcode = 0x83 then
    some { m with e := alu.res 0 m.e }
  else if opcode = 0x84 then
    some { m with h := alu.res 0 m.h }
  else if opcode = 0x85 then
    some { m with l := alu.res 0 m.l }
  else if opcode = 0x86 then
    match m.rb m.hl with
    | none => none
    | some byte => m.wb m.hl (alu.res 0 byte)
  else if opcode = 0x87 then
    some { m with a := alu.res 0 m.a }
  else if opcode = 0x88 then
    some { m with b := alu.res 1 m.b }
  else if opcode = 0x89 then
    some { m with c := alu.res 1 m.c }
  else if opcode = 0x8a then
    some { m with d := alu.res 1 m.d }
  else if opcode = 0x8b then
    some { m with e := alu.res 1 m.e }
  else if opcode = 0x8c then
    some { m with h := alu.res 1 m.h }
  else if opcode = 0x8d then
    some { m with l := alu.res 1 m.l }
  else if opcode = 0x8e then
    match m.rb m.hl with
    | none => none
    | some byte => m.wb m.hl (alu.res 1 byte)
  else if opcode = 0x8f then
    some { m with a := alu.res 1 m.a }
  else if opcode = 0x90 then
    some { m with b := alu.res 2 m.b }
  else if opcode = 0x91 then
    some { m with c := alu.res 2 m.c }
  else if opcode = 0x92 then
    some { m with d := alu.res 2 m.d }
  else if opcode = 0x93 then
    some { m with e := alu.res 2 m.e }
  else if opcode = 0x94 then
    some { m with h := alu.res 2 m.h }
  else if opcode = 0x95 then
    some { m with l := alu.res 2 m.l }
  else if opcode = 0x96 then
    match m.rb m.hl with
    | none => none
    | some byte => m.wb m.hl (alu.res 2 byte)
  else if opcode = 0x97 then
    some { m with a := alu.res 2 m.a }
  else if opcode = 0x98 then
    some { m with b := alu.res 3 m.b }
  else if opcode = 0x99 then
    some { m with c := alu.res 3 m.c }
  else if opcode = 0x9a then
    some { m with d := alu.res 3 m.d }
  else if opcode = 0x9b then
    some { m with e := alu.res 3 m.e }
  else if opcode = 0x9c then
    some { m with h := alu.res 3 m.h }
  else if opcode = 0x9d then
    some { m with l := alu.res 3 m.l }
  else if opcode = 0x9e then
    match m.rb m.hl with
    | none => none
    | some byte => m.wb m.hl (alu.res 3 byte)
  else if opcode = 0x9f then
    some { m with a := alu.res 3 m.a }
  else if opcode = 0xa0 then
    some { m with b := alu.res 4 m.b }
  else if opcode = 0xa1 then
    some { m with c := alu.res 4 m.c }
  else if opcode = 0xa2 then
    some { m with d := alu.res 4 m.d }
  else if opcode = 0xa3 then
    some { m with e := alu.res 4 m.e }
  else if opcode = 0xa4 then
    some { m with h := alu.res 4 m.h }
  else if opcode = 0xa5 then
    some { m with l := alu.res 4 m.l }
  else if opcode = 0xa6 then
    match m.rb m.hl with
    | none => none
    | some byte => m.wb m.hl (alu.res 4 byte)
  else if opcode = 0xa7 then
    some { m with a := alu.res 4 m.a }
  else if opcode = 0xa8 then
    some { m with b := alu.res 5 m.b }
  else if opcode = 0xa9 then
    some { m with c := alu.res 5 m.c }
  else if opcode = 0xaa then
    some { m with d := alu.res 5 m.d }
  else if opcode = 0xab then
    some { m with e := alu.res 5 m.e }
  else if opcode = 0xac then
    some { m with h := alu.res 5 m.h }
  else if opcode = 0xad then
    some { m with l := alu.res 5 m.l }
  else if opcode = 0xae then
    match m.rb m.hl with
    | none => none
    | some byte => m.wb m.hl (alu.res 5 byte)
  else if opcode = 0xaf then
    some { m with a := alu.res 5 m.a }
  else if opcode = 0xb0 then
    some { m with b := alu.res 6 m.b }
  else if opcode = 0xb1 then
    some { m with c := alu.res 6 m.c }
  else if opcode = 0xb2 then
    some { m with d := alu.res 6 m.d }
  else if opcode = 0xb3 then
    some { m with e := alu.res 6 m.e }
  else if opcode = 0xb4 then
    some { m with h := alu.res 6 m.h }
  else if opcode = 0xb5 then
    some { m with l := alu.res 6 m.l }
  else if opcode = 0xb6 then
    match m.rb m.hl with
    | none => none
    | some byte => m.wb m.hl (alu.res 6 byte)
  else if opcode = 0xb7 then
    some { m with a := alu.res 6 m.a }
  else if opcode = 0xb8 then
    some { m with b := alu.res 7 m.b }
  else if opcode = 0xb9 then
    some { m with c := alu.res 7 m.c }
  else if opcode = 0xba then
    some { m with d := alu.res 7 m.d }
  else if opcode = 0xbb then
    some { m with e := alu.res 7 m.e }
  else if opcode = 0xbc then
    some { m with h := alu.res 7 m.h }
  else if opcode = 0xbd then
    some { m with l := alu.res 7 m.l }
  else if opcode = 0xbe then
    match m.rb m.hl with
    | none => none
    | some byte => m.wb m.hl (alu.res 7 byte)
  else if opcode = 0xbf then
    some { m with a := alu.res 7 m.a }
  else none

/-- Arms 0xc0-0xff of the CB-prefixed opcode dispatch (quartered
only to keep each Lean term small; the arms themselves are unchanged). -/
def exec_cb_q3 (opcode : Nat) (m : Mmu) : Option Mmu :=
  if opcode = 0xc0 then
    some { m with b := alu.set 0 m.b }
  else if opcode = 0xc1 then
    some { m with c := alu.set 0 m.c }
  else if opcode = 0xc2 then
    some { m with d := alu.set 0 m.d }
  else if opcode = 0xc3 then
    some { m with e := alu.set 0 m.e }
  else if opcode = 0xc4 then
    some { m with h := alu.set 0 m.h }
  else if opcode = 0xc5 then
    some { m with l := alu.set 0 m.l }
  else if opcode = 0xc6 then
    match m.rb m.hl with
    | none => none
    | some byte => m.wb m.hl (alu.set 0 byte)
  else if opcode = 0xc7 then
    some { m with a := alu.set 0 m.a }
  else if opcode = 0xc8 then
    some { m with b := alu.set 1 m.b }
  else if opcode = 0xc9 then
    some { m with c := alu.set 1 m.c }
  else if opcode = 0xca then
    some { m with d := alu.set 1 m.d }
  else if opcode = 0xcb then
    some { m with e := alu.set 1 m.e }
  else if opcode = 0xcc then
    some { m with h := alu.set 1 m.h }
  else if opcode = 0xcd then
    some { m with l := alu.set 1 m.l }
  else if opcode = 0xce then
    match m.rb m.hl with
    | none => none
    | some byte => m.wb m.hl (alu.set 1 byte)
  else if opcode = 0xcf then
    some { m with a := alu.set 1 m.a }
  else if opcode = 0xd0 then
    some { m with b := alu.set 2 m.b }
  else if opcode = 0xd1 then
    some { m with c := alu.set 2 m.c }
  else if opcode = 0xd2 then
    some { m with d := alu.set 2 m.d }
  else if opcode = 0xd3 then
    some { m with e := alu.set 2 m.e }
  else if opcode = 0xd4 then
    some { m with h := alu.set 2 m.h }
  else if opcode = 0xd5 then
    some { m with l := alu.set 2 m.l }
  else if opcode = 0xd6 then
    match m.rb m.hl with
    | none => none
    | some byte => m.wb m.hl (alu.set 2 byte)
  else if opcode = 0xd7 then
    some { m with a := alu.set 2 m.a }
  else if opcode = 0xd8 then
    some { m with b := alu.set 3 m.b }
  else if opcode = 0xd9 then
    some { m with c := alu.set 3 m.c }
  else if opcode = 0xda then
    some { m with d := alu.set 3 m.d }
  else if opcode = 0xdb then
    some { m with e := alu.set 3 m.e }
  else if opcode = 0xdc then
    some { m with h := alu.set 3 m.h }
  else if opcode = 0xdd then
    some { m with l := alu.set 3 m.l }
  else if opcode = 0xde then
    match m.rb m.hl with
    | none => none
    | some byte => m.wb m.hl (alu.set 3 byte)
  else if opcode = 0xdf then
    some { m with a := alu.set 3 m.a }
  else if opcode = 0xe0 then
    some { m with b := alu.set 4 m.b }
  else if opcode = 0xe1 then
    some { m with c := alu.set 4 m.c }
  else if opcode = 0xe2 then
    some { m with d := alu.set 4 m.d }
  else if opcode = 0xe3 then
    some { m with e := alu.set 4 m.e }
  else if opcode = 0xe4 then
    some { m with h := alu.set 4 m.h }
  else if opcode = 0xe5 then
    some { m with l := alu.set 4 m.l }
  else if opcode = 0xe6 then
    match m.rb m.hl with
    | none => none
    | some byte => m.wb m.hl (alu.set 4 byte)
  else if opcode = 0xe7 then
    some { m with a := alu.set 4 m.a }
  else if opcode = 0xe8 then
    some { m with b := alu.set 5 m.b }
  else if opcode = 0xe9 then
    some { m with c := alu.set 5 m.c }
  else if opcode = 0xea then
    some { m with d := alu.set 5 m.d }
  else if opcode = 0xeb then
    some { m with e := alu.set 5 m.e }
  else if opcode = 0xec then
    some { m with h := alu.set 5 m.h }
  else if opcode = 0xed then
    some { m with l := alu.set 5 m.l }
  else if opcode = 0xee then
    match m.rb m.hl with
    | none => none
    | some byte => m.wb m.hl (alu.set 5 byte)
  else if opcode = 0xef then
    some { m with a := alu.set 5 m.a }
  else if opcode = 0xf0 then
    some { m with b := alu.set 6 m.b }
  else if opcode = 0xf1 then
    some { m with c := alu.set 6 m.c }
  else if opcode = 0xf2 then
    some { m with d := alu.set 6 m.d }
  else if opcode = 0xf3 then
    some { m with e := alu.set 6 m.e }
  else if opcode = 0xf4 then
    some { m with h := alu.set 6 m.h }
  else if opcode = 0xf5 then
    some { m with l := alu.set 6 m.l }
  else if opcode = 0xf6 then
    match m.rb m.hl with
    | none => none
    | some byte => m.wb m.hl (alu.set 6 byte)
  else if opcode = 0xf7 then
    some { m with a := alu.set 6 m.a }
  else if opcode = 0xf8 then
    some { m with b := alu.set 7 m.b }
  else if opcode = 0xf9 then
    some { m with c := alu.set 7 m.c }
  else if opcode = 0xfa then
    some { m with d := alu.set 7 m.d }
  else if opcode = 0xfb then
    some { m with e := alu.set 7 m.e }
  else if opcode = 0xfc then
    some { m with h := alu.set 7 m.h }
  else if opcode = 0xfd then
    some { m with l := alu.set 7 m.l }
  else if opcode = 0xfe then
    match m.rb m.hl with
    | none => none
    | some byte => m.wb m.hl (alu.set 7 byte)
  else if opcode = 0xff then
    some { m with a := alu.set 7 m.a }
  else none

/-- The CB-prefixed opcode dispatch: the second `match` of `CPU::do_opcode`,
arm for arm (if-chains, quartered by value).  No CB arm sets
`condition_met`, so only the state is returned; `none` is the catch-all
panic. -/
def exec_cb (opcode : Nat) (m : Mmu) : Option Mmu :=
  if opcode < 0x40 then exec_cb_q0 opcode m
  else if opcode < 0x80 then exec_cb_q1 opcode m
  else if opcode < 0xC0 then exec_cb_q2 opcode m
  else exec_cb_q3 opcode m

/-- Modelled from the spec: the opcode metadata table (`OpCodes`, loaded from
an external JSON file; the `guest/opcode.rs` module is not present under
`src/`).  Section 6 of the specification describes it as a static lookup
keyed by the opcode byte and the prefixed flag, returning a 1-2 element
cycle-cost list; `get_cycles(opcode, is_cb, branch_taken)` selects the
element for the branch outcome.  It is modelled as an opaque-to-the-proofs
lookup function supplied as a parameter. -/
def GetCycles : Type := Nat → Bool → Bool → Nat

/-- `CPU::do_opcode`: fetch one opcode byte (plus one more after the 0xCB
prefix), dispatch, and return the tabulated cycle cost, re-read with
`branch_taken = true` when a conditional branch was taken. -/
def do_opcode (get_cycles : GetCycles) (m : Mmu) : Option (Mmu × Nat) :=
  match m.get_next_byte with
  | none => none
  | some (first, m1) =>
    if first = 0xCB then
      match m1.get_next_byte with
      | none => none
      | some (opcode, m2) =>
        match exec_cb opcode m2 with
        | none => none
        | some m3 => some (m3, get_cycles opcode true false)
    else
      match exec_opcode first m1 with
      | none => none
      | some (m3, condition_met) =>
        some (m3, if condition_met then get_cycles first false true
                  else get_cycles first false false)

/-- `CPU::step`: tick the IME delay counters, then service an interrupt, or
idle while halted, or execute one opcode; returns the cycle cost. -/
def cpu_step (get_cycles : GetCycles) (m0 : Mmu) : Option (Mmu × Nat) :=
  match ({ m0 with interrupts := m0.interrupts.tick_ime_timer } : Mmu).try_interrupt with
  | none => none
  | some (m, n) =>
    if n = 0 then
      if m.interrupts.is_halted then some (m, 1)
      else do_opcode get_cycles m
    else some (m, n)

/-- `CPU_FREQ` from `src/emulator.rs`: 4 MHz DMG-01 clock. -/
def CPU_FREQ : Nat := 4194304

/-- `DIVIDER_FREQ` from `src/emulator.rs`. -/
def DIVIDER_FREQ : Nat := CPU_FREQ / 16384

/-- `DIVIDER_TICKSIZE` from `src/guest/systems/timer.rs`. -/
def DIVIDER_TICKSIZE : Nat := CPU_FREQ / DIVIDER_FREQ

/-- The divider while-loop of `Timer::step`, run on explicit fuel: while a full
tick size has accumulated, increment the divider (wrapping at 8 bits) and drain
one tick size.  Each iteration removes `ticksize ≥ 1` from `lapsed`, so fuel
equal to the initial `lapsed` (supplied by `divider_loop` below) always reaches
the loop exit, and the 0-fuel arm returns the same pair the guard exit would. -/
def divider_loop_go : Nat → Nat → Nat → Nat → Nat × Nat
  | 0, _, divider, lapsed => (divider, lapsed)
  | fuel + 1, ticksize, divider, lapsed =>
    if 0 < ticksize ∧ ticksize ≤ lapsed then
      divider_loop_go fuel ticksize ((divider + 1) % 256) (lapsed - ticksize)
    else (divider, lapsed)

/-- The divider while-loop of `Timer::step`. -/
def divider_loop (ticksize divider lapsed : Nat) : Nat × Nat :=
  divider_loop_go lapsed ticksize divider lapsed

/-- The counter while-loop of `Timer::step`, run on explicit fuel: while a full
tick size has accumulated, increment the counter (wrapping at 8 bits, reloading
from `modulo` on overflow) and drain one tick size.  Fuel equal to the initial
`lapsed` (supplied by `counter_loop` below) always reaches the loop exit;
`Timer.step` returns `none` instead of calling this with tick size 0 (where
the source loop would never terminate). -/
def counter_loop_go : Nat → Nat → Nat → Nat → Nat → Nat × Nat
  | 0, _, counter, _, lapsed => (counter, lapsed)
  | fuel + 1, ticksize, counter, modulo, lapsed =>
    if 0 < ticksize ∧ ticksize ≤ lapsed then
      counter_loop_go fuel ticksize
        (if (counter + 1) % 256 = 0 then modulo else (counter + 1) % 256)
        modulo (lapsed - ticksize)
    else (counter, lapsed)

/-- The counter while-loop of `Timer::step`. -/
def counter_loop (ticksize counter modulo lapsed : Nat) : Nat × Nat :=
  counter_loop_go lapsed ticksize counter modulo lapsed

/-- Local timer state, `Timer` from `src/guest/systems/timer.rs`. -/
structure Timer where
  divider_lapsed : Nat
  counter_lapsed : Nat
deriving DecidableEq, Repr

/-- `Timer::new`. -/
def Timer.new : Timer := { divider_lapsed := 0, counter_lapsed := 0 }

/-- `Timer::step`: advance the free-running divider, and, when started, the
programmable counter, by the elapsed cycles.  The clock-select match arm for
values above 3 panics in the source; for clock selects 1 and 2 the tick size
truncated to `u16` is 0 and the source while-loop diverges, both modelled as
`none`. -/
def Timer.step (t : Timer) (m : Mmu) (cycles : Nat) : Option (Timer × Mmu) :=
  let dl := (t.divider_lapsed + cycles) % 65536
  let (div1, dl1) := divider_loop (DIVIDER_TICKSIZE % 65536) m.timer.divider dl
  let m := { m with timer := { m.timer with divider := div1 } }
  let t := { t with divider_lapsed := dl1 }
  if m.timer.started then
    match (if m.timer.clock = 0 then some (CPU_FREQ / 1024)
           else if m.timer.clock = 1 then some (CPU_FREQ / 16)
           else if m.timer.clock = 2 then some (CPU_FREQ / 64)
           else if m.timer.clock = 3 then some (CPU_FREQ / 256)
           else none) with
    | none => none
    | some ts =>
      let ts16 := ts % 65536
      if ts16 = 0 then none
      else
        let cl := (t.counter_lapsed + cycles) % 65536
        let (c1, cl1) := counter_loop ts16 m.timer.counter m.timer.modulo cl
        some ({ t with counter_lapsed := cl1 },
              { m with timer := { m.timer with counter := c1 } })
  else some (t, m)

/-- `get_tile_data_address` from `src/guest/systems/ppu.rs`: tile data address
for a tile number; the 0x8800 table is indexed with a signed offset. -/
def get_tile_data_address (base_address tile_number : Nat) : Nat :=
  if base_address = 0x8800 then
    base_address + (if tile_number < 128 then tile_number + 128 else tile_number - 128) * 16
  else
    base_address + tile_number * 16

/-- `get_pixel`: extract the 2-bit colour index of one pixel from a tile row. -/
def get_pixel (tile_lower tile_upper pixel_num : Nat) : Nat :=
  let p0 := (tile_lower >>> (7 - pixel_num)) &&& 0x1
  let p1 := (tile_upper >>> (7 - pixel_num)) &&& 0x1
  (p1 <<< 1) + p0

/-- `get_tile_pixel`: pixel value at scene coordinates via tilemap lookup. -/
def get_tile_pixel (m : Mmu) (x y tilemap_address : Nat) : Option Nat :=
  let tiledata_base_address := if m.ppu.tile_data_table then 0x8000 else 0x8800
  let tile_row_num := y / 8
  let tile_col_num := x / 8
  let tile_number := tile_row_num * 32 + tile_col_num
  match m.rb (tilemap_address + tile_number) with
  | none => none
  | some tile_data_number =>
    let tile_data_address := get_tile_data_address tiledata_base_address tile_data_number
    let pixel_row_num := y % 8
    let pixel_col_num := x % 8
    let tile_row_index := tile_data_address + pixel_row_num * 2
    match m.rb tile_row_index, m.rb (tile_row_index + 1) with
    | some tile_data_lower, some tile_data_upper =>
      some (get_pixel tile_data_lower tile_data_upper pixel_col_num)
    | _, _ => none

/-- Display controller local state, `PPU` from `src/guest/systems/ppu.rs`.
The two fixed-size arrays are index functions. -/
structure Ppu where
  modeclock : Nat
  bg_color_zero : Nat → Bool
  image_buffer : Nat → Nat

/-- `PPU::new`. -/
def Ppu.new : Ppu :=
  { modeclock := 0, bg_color_zero := fun _ => false, image_buffer := fun _ => 0 }

/-- `PPU::draw_pixel`: write one colour index into the 160x144 buffer. -/
def Ppu.draw_pixel (p : Ppu) (line col value : Nat) : Ppu :=
  { p with image_buffer := fun i => if i = line * 160 + col then value else p.image_buffer i }

/-- `PPU::draw_background_scanline`: draw the 160 background pixels of the
current line and record which have colour index 0. -/
def draw_background_scanline (p : Ppu) (m : Mmu) : Option Ppu :=
  if !m.ppu.window_bg_on then some p
  else
    let tilemap_address := if m.ppu.bg_tilemap then 0x9C00 else 0x9800
    (List.range 160).foldlM (fun p col => do
      let x := (col + m.ppu.scx) % 256
      let y := (m.ppu.line + m.ppu.scy) % 256
      let pixel_value ← get_tile_pixel m x y tilemap_address
      let color := (m.ppu.background_palette >>> (pixel_value * 2)) &&& 0x3
      let p := { p with
        bg_color_zero := fun i => if i = col then pixel_value == 0 else p.bg_color_zero i }
      some (p.draw_pixel m.ppu.line col color)) p

/-- `PPU::draw_window_scanline`: draw the window over the background. -/
def draw_window_scanline (p : Ppu) (m : Mmu) : Option Ppu :=
  if !m.ppu.window_on then some p
  else
    let win_y : Int := (m.ppu.line : Int) - (m.ppu.win_y : Int)
    if win_y < 0 then some p
    else
      let tilemap_address := if m.ppu.window_tilemap then 0x9C00 else 0x9800
      (List.range 160).foldlM (fun (p : Ppu) (x : Nat) =>
        let win_x : Int := 0 - ((m.ppu.win_x : Int) - 7) + (x : Int)
        if win_x < 0 ∨ 160 ≤ win_x then some p
        else do
          let pixel ← get_tile_pixel m (win_x.toNat % 256) (win_y.toNat % 256) tilemap_address
          some (p.draw_pixel m.ppu.line x pixel)) p

/-- `PPU::draw_sprites_scanline`: pick up to 10 sprites for the line in table
order, then draw them back to front.  Indexing `bg_color_zero` with a negative
`x_pos` is an out-of-bounds panic in the source (`none` here). -/
def draw_sprites_scanline (p : Ppu) (m : Mmu) : Option Ppu :=
  let line : Int := m.ppu.line
  let sprite_y_size : Int := if m.ppu.sprite_size then 16 else 8
  if !m.ppu.sprite_on then some p
  else do
    let sprites_to_draw ← (List.range 40).foldlM (fun (acc : List Nat) s =>
      if acc.length = 10 then some acc
      else do
        let b0 ← m.rb (0xFE00 + s * 4)
        let b1 ← m.rb (0xFE00 + s * 4 + 1)
        let y_pos : Int := (b0 : Int) - 16
        let x_pos : Int := (b1 : Int) - 8
        if line < y_pos ∨ y_pos + sprite_y_size ≤ line ∨ x_pos < -7 ∨ 160 ≤ x_pos then
          some acc
        else some (acc ++ [s])) ([] : List Nat)
    sprites_to_draw.reverse.foldlM (fun p s => do
      let oam_address := 0xFE00 + s * 4
      let b0 ← m.rb oam_address
      let b1 ← m.rb (oam_address + 1)
      let sprite_number ← m.rb (oam_address + 2)
      let flags ← m.rb (oam_address + 3)
      let y_pos : Int := (b0 : Int) - 16
      let x_pos : Int := (b1 : Int) - 8
      let palette := if is_bit_set flags 4 then m.ppu.obj_palette_1 else m.ppu.obj_palette_0
      let bg_priority := is_bit_set flags 7
      let y_flip := is_bit_set flags 6
      let x_flip := is_bit_set flags 5
      let sprite_y : Nat :=
        if y_flip then (sprite_y_size - 1 - (line - y_pos)).toNat
        else (line - y_pos).toNat
      let sprite_data_address := 0x8000 + sprite_number * 16 + sprite_y * 2
      let sprite_data_lower ← m.rb sprite_data_address
      let sprite_data_upper ← m.rb (sprite_data_address + 1)
      (List.range 8).foldlM (fun p pn => do
        let pi : Int := (pn : Int)
        if x_pos + pi < 0 ∨ 160 ≤ x_pos + pi then some p
        else do
          let hidden ←
            if m.ppu.window_bg_on && bg_priority then
              if x_pos < 0 then none
              else some (!(p.bg_color_zero x_pos.toNat))
            else some false
          if hidden then some p
          else
            let pixel_num : Int := if x_flip then 7 - pi else pi
            let pixel_value := get_pixel sprite_data_lower sprite_data_upper (pixel_num.toNat % 256)
            let color := (palette >>> (pixel_value * 2)) &&& 0x3
            some (p.draw_pixel (line.toNat % 256) ((x_pos + pi).toNat % 256) color)) p) p

/-- `PPU::draw_scanline`: background, then window, then sprites (a no-op while
the display is off). -/
def Ppu.draw_scanline (p : Ppu) (m : Mmu) : Option Ppu :=
  if !m.ppu.lcd_on then some p
  else do
    let p := { p with bg_color_zero := fun _ => false }
    let p ← draw_background_scanline p m
    let p ← draw_window_scanline p m
    draw_sprites_scanline p m

/-- The opening block of `PPU::step`: when the display was just shut off,
blank the image, reset the mode clock, and zero line and mode. -/
def ppu_clear_phase (p : Ppu) (m : Mmu) : Ppu × Mmu :=
  if m.ppu.clear_screen then
    ({ p with image_buffer := fun _ => 0, modeclock := 0 },
     { m with ppu := { m.ppu with line := 0, mode := 0, clear_screen := false } })
  else (p, m)

/-- The V-Blank block of `PPU::step`: entering line 144 outside mode 1 sets
mode 1 and raises the V-Blank request bit (plus the STAT bit when the mode-1
interrupt is enabled).  The source applies its `ppu.mode` and `intf`
assignments one at a time; they are folded into single updated records. -/
def ppu_vblank_phase (p : Ppu) (m : Mmu) (mode : Nat) : Ppu × Mmu :=
  if 144 ≤ m.ppu.line ∧ mode ≠ 1 then
    if m.ppu.mode1_int_enable then
      (p, { m with ppu := { m.ppu with mode := 1 }
                   interrupts :=
                     { m.interrupts with intf := (m.interrupts.intf ||| 0x02) ||| 0x01 } })
    else
      (p, { m with ppu := { m.ppu with mode := 1 }
                   interrupts := { m.interrupts with intf := m.interrupts.intf ||| 0x01 } })
  else (p, m)

/-- The line-wrap block of `PPU::step`: a mode clock past a full 456-cycle
line carries the excess over, advances the scanline (wrapping at 154), runs
the permanent LY = LYC comparison and the V-Blank entry check. -/
def ppu_wrap_phase (p : Ppu) (m : Mmu) (mode : Nat) : Ppu × Mmu :=
  if 456 ≤ p.modeclock then
    ppu_vblank_phase { p with modeclock := p.modeclock - 456 }
      (({ m with ppu := { m.ppu with line := (m.ppu.line + 1) % 154 } } : Mmu).check_lyc_interrupt)
      mode
  else (p, m)

/-- The mode-change commit of `PPU::step`: set the new mode and, when asked,
raise the STAT request bit (the source applies the two assignments one at a
time; they are folded into one updated record). -/
def ppu_mode_commit (m : Mmu) (next_mode : Nat) (set_interrupt : Bool) : Mmu :=
  if set_interrupt then
    { m with ppu := { m.ppu with mode := next_mode }
             interrupts := { m.interrupts with intf := m.interrupts.intf ||| 0x02 } }
  else { m with ppu := { m.ppu with mode := next_mode } }

/-- Applying a selected mode change in `PPU::step`: commit it, and draw the
scanline when the new mode is H-Blank (mode 0). -/
def ppu_apply_mode (p : Ppu) (m : Mmu) (next_mode : Nat) (set_interrupt : Bool) :
    Option (Ppu × Mmu) :=
  if next_mode = 0 then
    match p.draw_scanline (ppu_mode_commit m next_mode set_interrupt) with
    | none => none
    | some p2 => some (p2, ppu_mode_commit m next_mode set_interrupt)
  else some (p, ppu_mode_commit m next_mode set_interrupt)

/-- The mode-selection block of `PPU::step`: on a visible line, pick the mode
the current mode clock position dictates (sprite scan up to 80, transfer up
to 252, H-Blank up to 455) when it differs from the mode snapshot taken at
entry. -/
def ppu_mode_phase (p : Ppu) (m : Mmu) (mode : Nat) : Option (Ppu × Mmu) :=
  if m.ppu.line < 144 then
    match (if p.modeclock ≤ 80 ∧ mode ≠ 2 then some (2, m.ppu.mode2_int_enable)
           else if 81 ≤ p.modeclock ∧ p.modeclock ≤ 252 ∧ mode ≠ 3 then some (3, false)
           else if 253 ≤ p.modeclock ∧ p.modeclock ≤ 455 ∧ mode ≠ 0 then
             some (0, m.ppu.mode0_int_enable)
           else none) with
    | some (next_mode, set_interrupt) => ppu_apply_mode p m next_mode set_interrupt
    | none => some (p, m)
  else some (p, m)

/-- `PPU::step`: advance the four-mode state machine by the elapsed cycles;
mode durations are measured on `modeclock`, a full line wrapping at 456.  The
sequential mutations of the source are threaded through the phase functions
above, with the mode snapshot taken after the clear block as in the source. -/
def Ppu.step (p0 : Ppu) (m0 : Mmu) (cycles : Nat) : Option (Ppu × Mmu) :=
  match ppu_clear_phase p0 m0 with
  | (p, m) =>
    match ppu_wrap_phase { p with modeclock := p.modeclock + cycles } m m.ppu.mode with
    | (p2, m2) => ppu_mode_phase p2 m2 m.ppu.mode

/-- Several calls of `PPU::step` in sequence (the driver loop feeds the PPU
one cycle count at a time); `none` as soon as one call panics. -/
def ppu_run (feeds : List Nat) (p : Ppu) (m : Mmu) : Option (Ppu × Mmu) :=
  match feeds with
  | [] => some (p, m)
  | c :: rest =>
    match p.step m c with
    | none => none
    | some (p, m) => ppu_run rest p m

/-- The part of the interrupt-controller state that only
`Interrupts.tick_ime_timer`, `disable_ime` and `enable_ime` may change:
the IME flag and the two delay counters. -/
def ime_frame (x y : Interrupts) : Prop :=
  x.ime = y.ime ∧ x.disable_ime_counter = y.disable_ime_counter
    ∧ x.enable_ime_counter = y.enable_ime_counter

/-- A constant cycle table (concrete stand-in for the external opcode table). -/
def gc_one : GetCycles := fun _ _ _ => 1

/-- A cycle table distinguishing taken from untaken branches. -/
def gc_branch : GetCycles := fun _ _ condition_met => if condition_met then 3 else 2

/-- A concrete machine state: all stores zero, no cartridge, boot ROM
disabled, registers and pointers zero (the shape `MMU::new` produces before
the post-boot initialisation). -/
def mmu_base : Mmu :=
  { hram := fun _ => 0, oam := fun _ => 0, sram := fun _ => 0, vram := fun _ => 0
    bootloader := { data := fun _ => 0, is_enabled := false }
    ppu := PpuRegisters.new, apu := ApuRegisters.new, timer := TimerRegisters.new
    cartridge := .mbcEmpty, gamepad := 0x2F, interrupts := Interrupts.new
    pc := 0, sp := 0, a := 0, b := 0, c := 0, d := 0, e := 0, h := 0, l := 0, f := 0 }

/-- Concrete timer fixture: programmable counter enabled on clock select 3
(tick size 16384), counter at 0xFF, modulo 0xAB, with 16383 cycles already
accumulated towards the next tick. -/
def c1_mmu : Mmu :=
  { mmu_base with timer :=
    { divider := 0, counter := 0xFF, modulo := 0xAB, started := true, clock := 3 } }

/-- Local timer state one cycle short of a full tick period. -/
def c1_timer : Timer := { divider_lapsed := 0, counter_lapsed := 16383 }

/-- Concrete state about to execute opcode 0x0C (INC C) with C = 0x0F and all
flags clear. -/
def c3_inc_mmu : Mmu :=
  { mmu_base with
    pc := 0xFF80
    hram := fun n => if n = 0 then 0x0C else 0
    c := 0x0F
    f := 0 }

/-- Concrete state about to execute opcode 0x88 (ADC A,B) with A = 0,
B = 0x0F and the carry flag set: the addition actually performed is
0 + 0x0F + 1 = 0x10, which carries out of bit 3. -/
def c3_adc_mmu : Mmu :=
  { mmu_base with
    pc := 0xFF80
    hram := fun n => if n = 0 then 0x88 else 0
    a := 0
    b := 0x0F
    f := 0x10 }

/-- Concrete MBC1 cartridge: 64 KiB image whose bytes name their own 16 KiB
bank (`data a = a / 0x4000`), bank register initially 1. -/
def c4_cart : Mbc := .mbc1 0x10000 (fun a => (a / 0x4000) % 256) (fun _ => 0) 1

/-- Concrete interrupt-controller state: master enable on; V-Blank (bit 0),
LCD status (bit 1) and Timer (bit 2) all enabled and all requested. -/
def c5_ints : Interrupts :=
  { inte := 7, intf := 7, is_halted := false, ime := true
    disable_ime_counter := 0, enable_ime_counter := 0 }

/-- Concrete machine whose next instructions are RETI (0xD9) forever: `pc`
points into high memory filled with 0xD9, and the stack (in work memory)
always pops 0xFF80 again. -/
def c6_mmu : Mmu :=
  { mmu_base with
    pc := 0xFF80
    sp := 0xC000
    hram := fun _ => 0xD9
    sram := fun n => if n % 2 = 0 then 0x80 else 0xFF }

/-- The same machine right after `disable_ime` (the DI request) was issued. -/
def c6_start : Mmu := { c6_mmu with interrupts := c6_mmu.interrupts.disable_ime }

/-- Machine state after one CPU step from `c6_start`. -/
def c6_after1 : Option (Mmu × Nat) := cpu_step gc_one c6_start

/-- Machine state after two CPU steps from `c6_start`. -/
def c6_after2 : Option (Mmu × Nat) := c6_after1.bind fun r => cpu_step gc_one r.1

/-- Concrete display fixture: display powered on, scanline 0, sprite-scan
mode, everything else as after reset. -/
def c7_mmu : Mmu :=
  { mmu_base with ppu := { PpuRegisters.new with lcd_on := true, mode := 2 } }

/-- Concrete state about to execute opcode 0x38 (JR C, r8) with the carry
flag set and operand 5. -/
def c10_mmu : Mmu :=
  { mmu_base with
    pc := 0xFF80
    hram := fun n => if n = 0 then 0x38 else 5
    f := 0x10 }

/-- Concrete machine whose next instructions are all NOP (high memory is
zero-filled). -/
def c6_nop : Mmu := { mmu_base with pc := 0xFF80 }

/-- Timer fixture on clock select 1, whose tick size 262144 truncates to 0 as
a `u16`. -/
def c1_mmu_clock1 : Mmu :=
  { mmu_base with timer :=
    { divider := 0, counter := 0xFF, modulo := 0xAB, started := true, clock := 1 } }

/-- Concrete interrupt-controller state: master enable on; V-Blank (bit 0)
and Timer (bit 2) enabled and requested, LCD status (bit 1) inactive. -/
def c5w_ints : Interrupts :=
  { inte := 5, intf := 5, is_halted := false, ime := true
    disable_ime_counter := 0, enable_ime_counter := 0 }

/-- Concrete display fixture on which a 456-cycle run crashes: display on in
sprite-scan mode with background and sprites enabled, and sprite 0 hanging
off the left edge (x byte 1, so `x_pos = -7`) with the bg-priority flag set:
drawing the scanline indexes `bg_color_zero` with the negative `x_pos`. -/
def c7x_mmu : Mmu :=
  { mmu_base with
    ppu := { PpuRegisters.new with
      lcd_on := true
      mode := 2
      sprite_on := true
      window_bg_on := true }
    oam := fun i => if i = 0 then 9 else if i = 1 then 1 else if i = 3 then 0x80 else 0 }

/-- The flag getter for bit 7 reads `testBit 7` of the flag register. -/
lemma flag_z_eq (m : Mmu) : m.flag_z = m.f.testBit 7 := by
  unfold Mmu.flag_z
  rw [Nat.one_shiftLeft, Nat.and_two_pow]
  cases h : m.f.testBit 7 <;> simp [h]

/-- The flag getter for bit 6 reads `testBit 6` of the flag register. -/
lemma flag_n_eq (m : Mmu) : m.flag_n = m.f.testBit 6 := by
  unfold Mmu.flag_n
  rw [Nat.one_shiftLeft, Nat.and_two_pow]
  cases h : m.f.testBit 6 <;> simp [h]

/-- The flag getter for bit 5 reads `testBit 5` of the flag register. -/
lemma flag_h_eq (m : Mmu) : m.flag_h = m.f.testBit 5 := by
  unfold Mmu.flag_h
  rw [Nat.one_shiftLeft, Nat.and_two_pow]
  cases h : m.f.testBit 5 <;> simp [h]

/-- The flag getter for bit 4 reads `testBit 4` of the flag register. -/
lemma flag_c_eq (m : Mmu) : m.flag_c = m.f.testBit 4 := by
  unfold Mmu.flag_c
  rw [Nat.one_shiftLeft, Nat.and_two_pow]
  cases h : m.f.testBit 4 <;> simp [h]

/-- Reading flag bit 7 after setting it yields the written value. -/
@[simp] lemma flag_z_set_flag_z (m : Mmu) (b : Bool) : (m.set_flag_z b).flag_z = b := by
  rw [flag_z_eq]
  unfold Mmu.set_flag_z
  cases b <;>
    simp [Nat.testBit_or, Nat.testBit_and,
      show Nat.testBit 127 7 = false from by decide,
      show Nat.testBit 128 7 = true from by decide]

/-- Setting flag bit 6 leaves flag bit 7 unchanged. -/
@[simp] lemma flag_z_set_flag_n (m : Mmu) (b : Bool) : (m.set_flag_n b).flag_z = m.flag_z := by
  rw [flag_z_eq, flag_z_eq]
  unfold Mmu.set_flag_n
  cases b <;>
    simp [Nat.testBit_or, Nat.testBit_and,
      show Nat.testBit 191 7 = true from by decide,
      show Nat.testBit 64 7 = false from by decide]

/-- Setting flag bit 5 leaves flag bit 7 unchanged. -/
@[simp] lemma flag_z_set_flag_h (m : Mmu) (b : Bool) : (m.set_flag_h b).flag_z = m.flag_z := by
  rw [flag_z_eq, flag_z_eq]
  unfold Mmu.set_flag_h
  cases b <;>
    simp [Nat.testBit_or, Nat.testBit_and,
      show Nat.testBit 223 7 = true from by decide,
      show Nat.testBit 32 7 = false from by decide]

/-- Setting flag bit 4 leaves flag bit 7 unchanged. -/
@[simp] lemma flag_z_set_flag_c (m : Mmu) (b : Bool) : (m.set_flag_c b).flag_z = m.flag_z := by
  rw [flag_z_eq, flag_z_eq]
  unfold Mmu.set_flag_c
  cases b <;>
    simp [Nat.testBit_or, Nat.testBit_and,
      show Nat.testBit 239 7 = true from by decide,
      show Nat.testBit 16 7 = false from by decide]

/-- Setting flag bit 7 leaves flag bit 6 unchanged. -/
@[simp] lemma flag_n_set_flag_z (m : Mmu) (b : Bool) : (m.set_flag_z b).flag_n = m.flag_n := by
  rw [flag_n_eq, flag_n_eq]
  unfold Mmu.set_flag_z
  cases b <;>
    simp [Nat.testBit_or, Nat.testBit_and,
      show Nat.testBit 127 6 = true from by decide,
      show Nat.testBit 128 6 = false from by decide]

/-- Reading flag bit 6 after setting it yields the written value. -/
@[simp] lemma flag_n_set_flag_n (m : Mmu) (b : Bool) : (m.set_flag_n b).flag_n = b := by
  rw [flag_n_eq]
  unfold Mmu.set_flag_n
  cases b <;>
    simp [Nat.testBit_or, Nat.testBit_and,
      show Nat.testBit 191 6 = false from by decide,
      show Nat.testBit 64 6 = true from by decide]

/-- Setting flag bit 5 leaves flag bit 6 unchanged. -/
@[simp] lemma flag_n_set_flag_h (m : Mmu) (b : Bool) : (m.set_flag_h b).flag_n = m.flag_n := by
  rw [flag_n_eq, flag_n_eq]
  unfold Mmu.set_flag_h
  cases b <;>
    simp [Nat.testBit_or, Nat.testBit_and,
      show Nat.testBit 223 6 = true from by decide,
      show Nat.testBit 32 6 = false from by decide]

/-- Setting flag bit 4 leaves flag bit 6 unchanged. -/
@[simp] lemma flag_n_set_flag_c (m : Mmu) (b : Bool) : (m.set_flag_c b).flag_n = m.flag_n := by
  rw [flag_n_eq, flag_n_eq]
  unfold Mmu.set_flag_c
  cases b <;>
    simp [Nat.testBit_or, Nat.testBit_and,
      show Nat.testBit 239 6 = true from by decide,
      show Nat.testBit 16 6 = false from by decide]

/-- Setting flag bit 7 leaves flag bit 5 unchanged. -/
@[simp] lemma flag_h_set_flag_z (m : Mmu) (b : Bool) : (m.set_flag_z b).flag_h = m.flag_h := by
  rw [flag_h_eq, flag_h_eq]
  unfold Mmu.set_flag_z
  cases b <;>
    simp [Nat.testBit_or, Nat.testBit_and,
      show Nat.testBit 127 5 = true from by decide,
      show Nat.testBit 128 5 = false from by decide]

/-- Setting flag bit 6 leaves flag bit 5 unchanged. -/
@[simp] lemma flag_h_set_flag_n (m : Mmu) (b : Bool) : (m.set_flag_n b).flag_h = m.flag_h := by
  rw [flag_h_eq, flag_h_eq]
  unfold Mmu.set_flag_n
  cases b <;>
    simp [Nat.testBit_or, Nat.testBit_and,
      show Nat.testBit 191 5 = true from by decide,
      show Nat.testBit 64 5 = false from by decide]

/-- Reading flag bit 5 after setting it yields the written value. -/
@[simp] lemma flag_h_set_flag_h (m : Mmu) (b : Bool) : (m.set_flag_h b).flag_h = b := by
  rw [flag_h_eq]
  unfold Mmu.set_flag_h
  cases b <;>
    simp [Nat.testBit_or, Nat.testBit_and,
      show Nat.testBit 223 5 = false from by decide,
      show Nat.testBit 32 5 = true from by decide]

/-- Setting flag bit 4 leaves flag bit 5 unchanged. -/
@[simp] lemma flag_h_set_flag_c (m : Mmu) (b : Bool) : (m.set_flag_c b).flag_h = m.flag_h := by
  rw [flag_h_eq, flag_h_eq]
  unfold Mmu.set_flag_c
  cases b <;>
    simp [Nat.testBit_or, Nat.testBit_and,
      show Nat.testBit 239 5 = true from by decide,
      show Nat.testBit 16 5 = false from by decide]

/-- Setting flag bit 7 leaves flag bit 4 unchanged. -/
@[simp] lemma flag_c_set_flag_z (m : Mmu) (b : Bool) : (m.set_flag_z b).flag_c = m.flag_c := by
  rw [flag_c_eq, flag_c_eq]
  unfold Mmu.set_flag_z
  cases b <;>
    simp [Nat.testBit_or, Nat.testBit_and,
      show Nat.testBit 127 4 = true from by decide,
      show Nat.testBit 128 4 = false from by decide]

/-- Setting flag bit 6 leaves flag bit 4 unchanged. -/
@[simp] lemma flag_c_set_flag_n (m : Mmu) (b : Bool) : (m.set_flag_n b).flag_c = m.flag_c := by
  rw [flag_c_eq, flag_c_eq]
  unfold Mmu.set_flag_n
  cases b <;>
    simp [Nat.testBit_or, Nat.testBit_and,
      show Nat.testBit 191 4 = true from by decide,
      show Nat.testBit 64 4 = false from by decide]

/-- Setting flag bit 5 leaves flag bit 4 unchanged. -/
@[simp] lemma flag_c_set_flag_h (m : Mmu) (b : Bool) : (m.set_flag_h b).flag_c = m.flag_c := by
  rw [flag_c_eq, flag_c_eq]
  unfold Mmu.set_flag_h
  cases b <;>
    simp [Nat.testBit_or, Nat.testBit_and,
      show Nat.testBit 223 4 = true from by decide,
      show Nat.testBit 32 4 = false from by decide]

/-- Reading flag bit 4 after setting it yields the written value. -/
@[simp] lemma flag_c_set_flag_c (m : Mmu) (b : Bool) : (m.set_flag_c b).flag_c = b := by
  rw [flag_c_eq]
  unfold Mmu.set_flag_c
  cases b <;>
    simp [Nat.testBit_or, Nat.testBit_and,
      show Nat.testBit 239 4 = false from by decide,
      show Nat.testBit 16 4 = true from by decide]

/-- Flag setters only touch the flag register. -/
@[simp] lemma a_set_flag_z (m : Mmu) (bv : Bool) : (m.set_flag_z bv).a = m.a := by
  unfold Mmu.set_flag_z; cases bv <;> rfl

/-- Flag setters only touch the flag register. -/
@[simp] lemma b_set_flag_z (m : Mmu) (bv : Bool) : (m.set_flag_z bv).b = m.b := by
  unfold Mmu.set_flag_z; cases bv <;> rfl

/-- Flag setters only touch the flag register. -/
@[simp] lemma c_set_flag_z (m : Mmu) (bv : Bool) : (m.set_flag_z bv).c = m.c := by
  unfold Mmu.set_flag_z; cases bv <;> rfl

/-- Flag setters only touch the flag register. -/
@[simp] lemma d_set_flag_z (m : Mmu) (bv : Bool) : (m.set_flag_z bv).d = m.d := by
  unfold Mmu.set_flag_z; cases bv <;> rfl

/-- Flag setters only touch the flag register. -/
@[simp] lemma e_set_flag_z (m : Mmu) (bv : Bool) : (m.set_flag_z bv).e = m.e := by
  unfold Mmu.set_flag_z; cases bv <;> rfl

/-- Flag setters only touch the flag register. -/
@[simp] lemma h_set_flag_z (m : Mmu) (bv : Bool) : (m.set_flag_z bv).h = m.h := by
  unfold Mmu.set_flag_z; cases bv <;> rfl

/-- Flag setters only touch the flag register. -/
@[simp] lemma l_set_flag_z (m : Mmu) (bv : Bool) : (m.set_flag_z bv).l = m.l := by
  unfold Mmu.set_flag_z; cases bv <;> rfl

/-- Flag setters only touch the flag register. -/
@[simp] lemma pc_set_flag_z (m : Mmu) (bv : Bool) : (m.set_flag_z bv).pc = m.pc := by
  unfold Mmu.set_flag_z; cases bv <;> rfl

/-- Flag setters only touch the flag register. -/
@[simp] lemma sp_set_flag_z (m : Mmu) (bv : Bool) : (m.set_flag_z bv).sp = m.sp := by
  unfold Mmu.set_flag_z; cases bv <;> rfl

/-- Flag setters only touch the flag register. -/
@[simp] lemma interrupts_set_flag_z (m : Mmu) (bv : Bool) : (m.set_flag_z bv).interrupts = m.interrupts := by
  unfold Mmu.set_flag_z; cases bv <;> rfl

/-- Flag setters only touch the flag register. -/
@[simp] lemma hram_set_flag_z (m : Mmu) (bv : Bool) : (m.set_flag_z bv).hram = m.hram := by
  unfold Mmu.set_flag_z; cases bv <;> rfl

/-- Flag setters only touch the flag register. -/
@[simp] lemma oam_set_flag_z (m : Mmu) (bv : Bool) : (m.set_flag_z bv).oam = m.oam := by
  unfold Mmu.set_flag_z; cases bv <;> rfl

/-- Flag setters only touch the flag register. -/
@[simp] lemma sram_set_flag_z (m : Mmu) (bv : Bool) : (m.set_flag_z bv).sram = m.sram := by
  unfold Mmu.set_flag_z; cases bv <;> rfl

/-- Flag setters only touch the flag register. -/
@[simp] lemma vram_set_flag_z (m : Mmu) (bv : Bool) : (m.set_flag_z bv).vram = m.vram := by
  unfold Mmu.set_flag_z; cases bv <;> rfl

/-- Flag setters only touch the flag register. -/
@[simp] lemma timer_set_flag_z (m : Mmu) (bv : Bool) : (m.set_flag_z bv).timer = m.timer := by
  unfold Mmu.set_flag_z; cases bv <;> rfl

/-- Flag setters only touch the flag register. -/
@[simp] lemma ppu_set_flag_z (m : Mmu) (bv : Bool) : (m.set_flag_z bv).ppu = m.ppu := by
  unfold Mmu.set_flag_z; cases bv <;> rfl

/-- Flag setters only touch the flag register. -/
@[simp] lemma apu_set_flag_z (m : Mmu) (bv : Bool) : (m.set_flag_z bv).apu = m.apu := by
  unfold Mmu.set_flag_z; cases bv <;> rfl

/-- Flag setters only touch the flag register. -/
@[simp] lemma cartridge_set_flag_z (m : Mmu) (bv : Bool) : (m.set_flag_z bv).cartridge = m.cartridge := by
  unfold Mmu.set_flag_z; cases bv <;> rfl

/-- Flag setters only touch the flag register. -/
@[simp] lemma bootloader_set_flag_z (m : Mmu) (bv : Bool) : (m.set_flag_z bv).bootloader = m.bootloader := by
  unfold Mmu.set_flag_z; cases bv <;> rfl

/-- Flag setters only touch the flag register. -/
@[simp] lemma gamepad_set_flag_z (m : Mmu) (bv : Bool) : (m.set_flag_z bv).gamepad = m.gamepad := by
  unfold Mmu.set_flag_z; cases bv <;> rfl

/-- Flag setters only touch the flag register. -/
@[simp] lemma a_set_flag_n (m : Mmu) (bv : Bool) : (m.set_flag_n bv).a = m.a := by
  unfold Mmu.set_flag_n; cases bv <;> rfl

/-- Flag setters only touch the flag register. -/
@[simp] lemma b_set_flag_n (m : Mmu) (bv : Bool) : (m.set_flag_n bv).b = m.b := by
  unfold Mmu.set_flag_n; cases bv <;> rfl

/-- Flag setters only touch the flag register. -/
@[simp] lemma c_set_flag_n (m : Mmu) (bv : Bool) : (m.set_flag_n bv).c = m.c := by
  unfold Mmu.set_flag_n; cases bv <;> rfl

/-- Flag setters only touch the flag register. -/
@[simp] lemma d_set_flag_n (m : Mmu) (bv : Bool) : (m.set_flag_n bv).d = m.d := by
  unfold Mmu.set_flag_n; cases bv <;> rfl

/-- Flag setters only touch the flag register. -/
@[simp] lemma e_set_flag_n (m : Mmu) (bv : Bool) : (m.set_flag_n bv).e = m.e := by
  unfold Mmu.set_flag_n; cases bv <;> rfl

/-- Flag setters only touch the flag register. -/
@[simp] lemma h_set_flag_n (m : Mmu) (bv : Bool) : (m.set_flag_n bv).h = m.h := by
  unfold Mmu.set_flag_n; cases bv <;> rfl

/-- Flag setters only touch the flag register. -/
@[simp] lemma l_set_flag_n (m : Mmu) (bv : Bool) : (m.set_flag_n bv).l = m.l := by
  unfold Mmu.set_flag_n; cases bv <;> rfl

/-- Flag setters only touch the flag register. -/
@[simp] lemma pc_set_flag_n (m : Mmu) (bv : Bool) : (m.set_flag_n bv).pc = m.pc := by
  unfold Mmu.set_flag_n; cases bv <;> rfl

/-- Flag setters only touch the flag register. -/
@[simp] lemma sp_set_flag_n (m : Mmu) (bv : Bool) : (m.set_flag_n bv).sp = m.sp := by
  unfold Mmu.set_flag_n; cases bv <;> rfl

/-- Flag setters only touch the flag register. -/
@[simp] lemma interrupts_set_flag_n (m : Mmu) (bv : Bool) : (m.set_flag_n bv).interrupts = m.interrupts := by
  unfold Mmu.set_flag_n; cases bv <;> rfl

/-- Flag setters only touch the flag register. -/
@[simp] lemma hram_set_flag_n (m : Mmu) (bv : Bool) : (m.set_flag_n bv).hram = m.hram := by
  unfold Mmu.set_flag_n; cases bv <;> rfl

/-- Flag setters only touch the flag register. -/
@[simp] lemma oam_set_flag_n (m : Mmu) (bv : Bool) : (m.set_flag_n bv).oam = m.oam := by
  unfold Mmu.set_flag_n; cases bv <;> rfl

/-- Flag setters only touch the flag register. -/
@[simp] lemma sram_set_flag_n (m : Mmu) (bv : Bool) : (m.set_flag_n bv).sram = m.sram := by
  unfold Mmu.set_flag_n; cases bv <;> rfl

/-- Flag setters only touch the flag register. -/
@[simp] lemma vram_set_flag_n (m : Mmu) (bv : Bool) : (m.set_flag_n bv).vram = m.vram := by
  unfold Mmu.set_flag_n; cases bv <;> rfl

/-- Flag setters only touch the flag register. -/
@[simp] lemma timer_set_flag_n (m : Mmu) (bv : Bool) : (m.set_flag_n bv).timer = m.timer := by
  unfold Mmu.set_flag_n; cases bv <;> rfl

/-- Flag setters only touch the flag register. -/
@[simp] lemma ppu_set_flag_n (m : Mmu) (bv : Bool) : (m.set_flag_n bv).ppu = m.ppu := by
  unfold Mmu.set_flag_n; cases bv <;> rfl

/-- Flag setters only touch the flag register. -/
@[simp] lemma apu_set_flag_n (m : Mmu) (bv : Bool) : (m.set_flag_n bv).apu = m.apu := by
  unfold Mmu.set_flag_n; cases bv <;> rfl

/-- Flag setters only touch the flag register. -/
@[simp] lemma cartridge_set_flag_n (m : Mmu) (bv : Bool) : (m.set_flag_n bv).cartridge = m.cartridge := by
  unfold Mmu.set_flag_n; cases bv <;> rfl

/-- Flag setters only touch the flag register. -/
@[simp] lemma bootloader_set_flag_n (m : Mmu) (bv : Bool) : (m.set_flag_n bv).bootloader = m.bootloader := by
  unfold Mmu.set_flag_n; cases bv <;> rfl

/-- Flag setters only touch the flag register. -/
@[simp] lemma gamepad_set_flag_n (m : Mmu) (bv : Bool) : (m.set_flag_n bv).gamepad = m.gamepad := by
  unfold Mmu.set_flag_n; cases bv <;> rfl

/-- Flag setters only touch the flag register. -/
@[simp] lemma a_set_flag_h (m : Mmu) (bv : Bool) : (m.set_flag_h bv).a = m.a := by
  unfold Mmu.set_flag_h; cases bv <;> rfl

/-- Flag setters only touch the flag register. -/
@[simp] lemma b_set_flag_h (m : Mmu) (bv : Bool) : (m.set_flag_h bv).b = m.b := by
  unfold Mmu.set_flag_h; cases bv <;> rfl

/-- Flag setters only touch the flag register. -/
@[simp] lemma c_set_flag_h (m : Mmu) (bv : Bool) : (m.set_flag_h bv).c = m.c := by
  unfold Mmu.set_flag_h; cases bv <;> rfl

/-- Flag setters only touch the flag register. -/
@[simp] lemma d_set_flag_h (m : Mmu) (bv : Bool) : (m.set_flag_h bv).d = m.d := by
  unfold Mmu.set_flag_h; cases bv <;> rfl

/-- Flag setters only touch the flag register. -/
@[simp] lemma e_set_flag_h (m : Mmu) (bv : Bool) : (m.set_flag_h bv).e = m.e := by
  unfold Mmu.set_flag_h; cases bv <;> rfl

/-- Flag setters only touch the flag register. -/
@[simp] lemma h_set_flag_h (m : Mmu) (bv : Bool) : (m.set_flag_h bv).h = m.h := by
  unfold Mmu.set_flag_h; cases bv <;> rfl

/-- Flag setters only touch the flag register. -/
@[simp] lemma l_set_flag_h (m : Mmu) (bv : Bool) : (m.set_flag_h bv).l = m.l := by
  unfold Mmu.set_flag_h; cases bv <;> rfl

/-- Flag setters only touch the flag register. -/
@[simp] lemma pc_set_flag_h (m : Mmu) (bv : Bool) : (m.set_flag_h bv).pc = m.pc := by
  unfold Mmu.set_flag_h; cases bv <;> rfl

/-- Flag setters only touch the flag register. -/
@[simp] lemma sp_set_flag_h (m : Mmu) (bv : Bool) : (m.set_flag_h bv).sp = m.sp := by
  unfold Mmu.set_flag_h; cases bv <;> rfl

/-- Flag setters only touch the flag register. -/
@[simp] lemma interrupts_set_flag_h (m : Mmu) (bv : Bool) : (m.set_flag_h bv).interrupts = m.interrupts := by
  unfold Mmu.set_flag_h; cases bv <;> rfl

/-- Flag setters only touch the flag register. -/
@[simp] lemma hram_set_flag_h (m : Mmu) (bv : Bool) : (m.set_flag_h bv).hram = m.hram := by
  unfold Mmu.set_flag_h; cases bv <;> rfl

/-- Flag setters only touch the flag register. -/
@[simp] lemma oam_set_flag_h (m : Mmu) (bv : Bool) : (m.set_flag_h bv).oam = m.oam := by
  unfold Mmu.set_flag_h; cases bv <;> rfl

/-- Flag setters only touch the flag register. -/
@[simp] lemma sram_set_flag_h (m : Mmu) (bv : Bool) : (m.set_flag_h bv).sram = m.sram := by
  unfold Mmu.set_flag_h; cases bv <;> rfl

/-- Flag setters only touch the flag register. -/
@[simp] lemma vram_set_flag_h (m : Mmu) (bv : Bool) : (m.set_flag_h bv).vram = m.vram := by
  unfold Mmu.set_flag_h; cases bv <;> rfl

/-- Flag setters only touch the flag register. -/
@[simp] lemma timer_set_flag_h (m : Mmu) (bv : Bool) : (m.set_flag_h bv).timer = m.timer := by
  unfold Mmu.set_flag_h; cases bv <;> rfl

/-- Flag setters only touch the flag register. -/
@[simp] lemma ppu_set_flag_h (m : Mmu) (bv : Bool) : (m.set_flag_h bv).ppu = m.ppu := by
  unfold Mmu.set_flag_h; cases bv <;> rfl

/-- Flag setters only touch the flag register. -/
@[simp] lemma apu_set_flag_h (m : Mmu) (bv : Bool) : (m.set_flag_h bv).apu = m.apu := by
  unfold Mmu.set_flag_h; cases bv <;> rfl

/-- Flag setters only touch the flag register. -/
@[simp] lemma cartridge_set_flag_h (m : Mmu) (bv : Bool) : (m.set_flag_h bv).cartridge = m.cartridge := by
  unfold Mmu.set_flag_h; cases bv <;> rfl

/-- Flag setters only touch the flag register. -/
@[simp] lemma bootloader_set_flag_h (m : Mmu) (bv : Bool) : (m.set_flag_h bv).bootloader = m.bootloader := by
  unfold Mmu.set_flag_h; cases bv <;> rfl

/-- Flag setters only touch the flag register. -/
@[simp] lemma gamepad_set_flag_h (m : Mmu) (bv : Bool) : (m.set_flag_h bv).gamepad = m.gamepad := by
  unfold Mmu.set_flag_h; cases bv <;> rfl

/-- Flag setters only touch the flag register. -/
@[simp] lemma a_set_flag_c (m : Mmu) (bv : Bool) : (m.set_flag_c bv).a = m.a := by
  unfold Mmu.set_flag_c; cases bv <;> rfl

/-- Flag setters only touch the flag register. -/
@[simp] lemma b_set_flag_c (m : Mmu) (bv : Bool) : (m.set_flag_c bv).b = m.b := by
  unfold Mmu.set_flag_c; cases bv <;> rfl

/-- Flag setters only touch the flag register. -/
@[simp] lemma c_set_flag_c (m : Mmu) (bv : Bool) : (m.set_flag_c bv).c = m.c := by
  unfold Mmu.set_flag_c; cases bv <;> rfl

/-- Flag setters only touch the flag register. -/
@[simp] lemma d_set_flag_c (m : Mmu) (bv : Bool) : (m.set_flag_c bv).d = m.d := by
  unfold Mmu.set_flag_c; cases bv <;> rfl

/-- Flag setters only touch the flag register. -/
@[simp] lemma e_set_flag_c (m : Mmu) (bv : Bool) : (m.set_flag_c bv).e = m.e := by
  unfold Mmu.set_flag_c; cases bv <;> rfl

/-- Flag setters only touch the flag register. -/
@[simp] lemma h_set_flag_c (m : Mmu) (bv : Bool) : (m.set_flag_c bv).h = m.h := by
  unfold Mmu.set_flag_c; cases bv <;> rfl

/-- Flag setters only touch the flag register. -/
@[simp] lemma l_set_flag_c (m : Mmu) (bv : Bool) : (m.set_flag_c bv).l = m.l := by
  unfold Mmu.set_flag_c; cases bv <;> rfl

/-- Flag setters only touch the flag register. -/
@[simp] lemma pc_set_flag_c (m : Mmu) (bv : Bool) : (m.set_flag_c bv).pc = m.pc := by
  unfold Mmu.set_flag_c; cases bv <;> rfl

/-- Flag setters only touch the flag register. -/
@[simp] lemma sp_set_flag_c (m : Mmu) (bv : Bool) : (m.set_flag_c bv).sp = m.sp := by
  unfold Mmu.set_flag_c; cases bv <;> rfl

/-- Flag setters only touch the flag register. -/
@[simp] lemma interrupts_set_flag_c (m : Mmu) (bv : Bool) : (m.set_flag_c bv).interrupts = m.interrupts := by
  unfold Mmu.set_flag_c; cases bv <;> rfl

/-- Flag setters only touch the flag register. -/
@[simp] lemma hram_set_flag_c (m : Mmu) (bv : Bool) : (m.set_flag_c bv).hram = m.hram := by
  unfold Mmu.set_flag_c; cases bv <;> rfl

/-- Flag setters only touch the flag register. -/
@[simp] lemma oam_set_flag_c (m : Mmu) (bv : Bool) : (m.set_flag_c bv).oam = m.oam := by
  unfold Mmu.set_flag_c; cases bv <;> rfl

/-- Flag setters only touch the flag register. -/
@[simp] lemma sram_set_flag_c (m : Mmu) (bv : Bool) : (m.set_flag_c bv).sram = m.sram := by
  unfold Mmu.set_flag_c; cases bv <;> rfl

/-- Flag setters only touch the flag register. -/
@[simp] lemma vram_set_flag_c (m : Mmu) (bv : Bool) : (m.set_flag_c bv).vram = m.vram := by
  unfold Mmu.set_flag_c; cases bv <;> rfl

/-- Flag setters only touch the flag register. -/
@[simp] lemma timer_set_flag_c (m : Mmu) (bv : Bool) : (m.set_flag_c bv).timer = m.timer := by
  unfold Mmu.set_flag_c; cases bv <;> rfl

/-- Flag setters only touch the flag register. -/
@[simp] lemma ppu_set_flag_c (m : Mmu) (bv : Bool) : (m.set_flag_c bv).ppu = m.ppu := by
  unfold Mmu.set_flag_c; cases bv <;> rfl

/-- Flag setters only touch the flag register. -/
@[simp] lemma apu_set_flag_c (m : Mmu) (bv : Bool) : (m.set_flag_c bv).apu = m.apu := by
  unfold Mmu.set_flag_c; cases bv <;> rfl

/-- Flag setters only touch the flag register. -/
@[simp] lemma cartridge_set_flag_c (m : Mmu) (bv : Bool) : (m.set_flag_c bv).cartridge = m.cartridge := by
  unfold Mmu.set_flag_c; cases bv <;> rfl

/-- Flag setters only touch the flag register. -/
@[simp] lemma bootloader_set_flag_c (m : Mmu) (bv : Bool) : (m.set_flag_c bv).bootloader = m.bootloader := by
  unfold Mmu.set_flag_c; cases bv <;> rfl

/-- Flag setters only touch the flag register. -/
@[simp] lemma gamepad_set_flag_c (m : Mmu) (bv : Bool) : (m.set_flag_c bv).gamepad = m.gamepad := by
  unfold Mmu.set_flag_c; cases bv <;> rfl

/-- Pair setter `set_af` only touches `a` and `f`. -/
@[simp] lemma b_set_af (m : Mmu) (v : Nat) : (m.set_af v).b = m.b := rfl

/-- Pair setter `set_af` only touches `a` and `f`. -/
@[simp] lemma c_set_af (m : Mmu) (v : Nat) : (m.set_af v).c = m.c := rfl

/-- Pair setter `set_af` only touches `a` and `f`. -/
@[simp] lemma d_set_af (m : Mmu) (v : Nat) : (m.set_af v).d = m.d := rfl

/-- Pair setter `set_af` only touches `a` and `f`. -/
@[simp] lemma e_set_af (m : Mmu) (v : Nat) : (m.set_af v).e = m.e := rfl

/-- Pair setter `set_af` only touches `a` and `f`. -/
@[simp] lemma h_set_af (m : Mmu) (v : Nat) : (m.set_af v).h = m.h := rfl

/-- Pair setter `set_af` only touches `a` and `f`. -/
@[simp] lemma l_set_af (m : Mmu) (v : Nat) : (m.set_af v).l = m.l := rfl

/-- Pair setter `set_af` only touches `a` and `f`. -/
@[simp] lemma pc_set_af (m : Mmu) (v : Nat) : (m.set_af v).pc = m.pc := rfl

/-- Pair setter `set_af` only touches `a` and `f`. -/
@[simp] lemma sp_set_af (m : Mmu) (v : Nat) : (m.set_af v).sp = m.sp := rfl

/-- Pair setter `set_af` only touches `a` and `f`. -/
@[simp] lemma interrupts_set_af (m : Mmu) (v : Nat) : (m.set_af v).interrupts = m.interrupts := rfl

/-- Pair setter `set_af` only touches `a` and `f`. -/
@[simp] lemma hram_set_af (m : Mmu) (v : Nat) : (m.set_af v).hram = m.hram := rfl

/-- Pair setter `set_af` only touches `a` and `f`. -/
@[simp] lemma oam_set_af (m : Mmu) (v : Nat) : (m.set_af v).oam = m.oam := rfl

/-- Pair setter `set_af` only touches `a` and `f`. -/
@[simp] lemma sram_set_af (m : Mmu) (v : Nat) : (m.set_af v).sram = m.sram := rfl

/-- Pair setter `set_af` only touches `a` and `f`. -/
@[simp] lemma vram_set_af (m : Mmu) (v : Nat) : (m.set_af v).vram = m.vram := rfl

/-- Pair setter `set_af` only touches `a` and `f`. -/
@[simp] lemma timer_set_af (m : Mmu) (v : Nat) : (m.set_af v).timer = m.timer := rfl

/-- Pair setter `set_af` only touches `a` and `f`. -/
@[simp] lemma ppu_set_af (m : Mmu) (v : Nat) : (m.set_af v).ppu = m.ppu := rfl

/-- Pair setter `set_af` only touches `a` and `f`. -/
@[simp] lemma apu_set_af (m : Mmu) (v : Nat) : (m.set_af v).apu = m.apu := rfl

/-- Pair setter `set_af` only touches `a` and `f`. -/
@[simp] lemma cartridge_set_af (m : Mmu) (v : Nat) : (m.set_af v).cartridge = m.cartridge := rfl

/-- Pair setter `set_af` only touches `a` and `f`. -/
@[simp] lemma bootloader_set_af (m : Mmu) (v : Nat) : (m.set_af v).bootloader = m.bootloader := rfl

/-- Pair setter `set_af` only touches `a` and `f`. -/
@[simp] lemma gamepad_set_af (m : Mmu) (v : Nat) : (m.set_af v).gamepad = m.gamepad := rfl

/-- Pair setter `set_bc` only touches `b` and `c`. -/
@[simp] lemma a_set_bc (m : Mmu) (v : Nat) : (m.set_bc v).a = m.a := rfl

/-- Pair setter `set_bc` only touches `b` and `c`. -/
@[simp] lemma d_set_bc (m : Mmu) (v : Nat) : (m.set_bc v).d = m.d := rfl

/-- Pair setter `set_bc` only touches `b` and `c`. -/
@[simp] lemma e_set_bc (m : Mmu) (v : Nat) : (m.set_bc v).e = m.e := rfl

/-- Pair setter `set_bc` only touches `b` and `c`. -/
@[simp] lemma h_set_bc (m : Mmu) (v : Nat) : (m.set_bc v).h = m.h := rfl

/-- Pair setter `set_bc` only touches `b` and `c`. -/
@[simp] lemma l_set_bc (m : Mmu) (v : Nat) : (m.set_bc v).l = m.l := rfl

/-- Pair setter `set_bc` only touches `b` and `c`. -/
@[simp] lemma pc_set_bc (m : Mmu) (v : Nat) : (m.set_bc v).pc = m.pc := rfl

/-- Pair setter `set_bc` only touches `b` and `c`. -/
@[simp] lemma sp_set_bc (m : Mmu) (v : Nat) : (m.set_bc v).sp = m.sp := rfl

/-- Pair setter `set_bc` only touches `b` and `c`. -/
@[simp] lemma interrupts_set_bc (m : Mmu) (v : Nat) : (m.set_bc v).interrupts = m.interrupts := rfl

/-- Pair setter `set_bc` only touches `b` and `c`. -/
@[simp] lemma hram_set_bc (m : Mmu) (v : Nat) : (m.set_bc v).hram = m.hram := rfl

/-- Pair setter `set_bc` only touches `b` and `c`. -/
@[simp] lemma oam_set_bc (m : Mmu) (v : Nat) : (m.set_bc v).oam = m.oam := rfl

/-- Pair setter `set_bc` only touches `b` and `c`. -/
@[simp] lemma sram_set_bc (m : Mmu) (v : Nat) : (m.set_bc v).sram = m.sram := rfl

/-- Pair setter `set_bc` only touches `b` and `c`. -/
@[simp] lemma vram_set_bc (m : Mmu) (v : Nat) : (m.set_bc v).vram = m.vram := rfl

/-- Pair setter `set_bc` only touches `b` and `c`. -/
@[simp] lemma timer_set_bc (m : Mmu) (v : Nat) : (m.set_bc v).timer = m.timer := rfl

/-- Pair setter `set_bc` only touches `b` and `c`. -/
@[simp] lemma ppu_set_bc (m : Mmu) (v : Nat) : (m.set_bc v).ppu = m.ppu := rfl

/-- Pair setter `set_bc` only touches `b` and `c`. -/
@[simp] lemma apu_set_bc (m : Mmu) (v : Nat) : (m.set_bc v).apu = m.apu := rfl

/-- Pair setter `set_bc` only touches `b` and `c`. -/
@[simp] lemma cartridge_set_bc (m : Mmu) (v : Nat) : (m.set_bc v).cartridge = m.cartridge := rfl

/-- Pair setter `set_bc` only touches `b` and `c`. -/
@[simp] lemma bootloader_set_bc (m : Mmu) (v : Nat) : (m.set_bc v).bootloader = m.bootloader := rfl

/-- Pair setter `set_bc` only touches `b` and `c`. -/
@[simp] lemma gamepad_set_bc (m : Mmu) (v : Nat) : (m.set_bc v).gamepad = m.gamepad := rfl

/-- Pair setter `set_bc` only touches `b` and `c`. -/
@[simp] lemma f_set_bc (m : Mmu) (v : Nat) : (m.set_bc v).f = m.f := rfl

/-- Pair setter `set_de` only touches `d` and `e`. -/
@[simp] lemma a_set_de (m : Mmu) (v : Nat) : (m.set_de v).a = m.a := rfl

/-- Pair setter `set_de` only touches `d` and `e`. -/
@[simp] lemma b_set_de (m : Mmu) (v : Nat) : (m.set_de v).b = m.b := rfl

/-- Pair setter `set_de` only touches `d` and `e`. -/
@[simp] lemma c_set_de (m : Mmu) (v : Nat) : (m.set_de v).c = m.c := rfl

/-- Pair setter `set_de` only touches `d` and `e`. -/
@[simp] lemma h_set_de (m : Mmu) (v : Nat) : (m.set_de v).h = m.h := rfl

/-- Pair setter `set_de` only touches `d` and `e`. -/
@[simp] lemma l_set_de (m : Mmu) (v : Nat) : (m.set_de v).l = m.l := rfl

/-- Pair setter `set_de` only touches `d` and `e`. -/
@[simp] lemma pc_set_de (m : Mmu) (v : Nat) : (m.set_de v).pc = m.pc := rfl

/-- Pair setter `set_de` only touches `d` and `e`. -/
@[simp] lemma sp_set_de (m : Mmu) (v : Nat) : (m.set_de v).sp = m.sp := rfl

/-- Pair setter `set_de` only touches `d` and `e`. -/
@[simp] lemma interrupts_set_de (m : Mmu) (v : Nat) : (m.set_de v).interrupts = m.interrupts := rfl

/-- Pair setter `set_de` only touches `d` and `e`. -/
@[simp] lemma hram_set_de (m : Mmu) (v : Nat) : (m.set_de v).hram = m.hram := rfl

/-- Pair setter `set_de` only touches `d` and `e`. -/
@[simp] lemma oam_set_de (m : Mmu) (v : Nat) : (m.set_de v).oam = m.oam := rfl

/-- Pair setter `set_de` only touches `d` and `e`. -/
@[simp] lemma sram_set_de (m : Mmu) (v : Nat) : (m.set_de v).sram = m.sram := rfl

/-- Pair setter `set_de` only touches `d` and `e`. -/
@[simp] lemma vram_set_de (m : Mmu) (v : Nat) : (m.set_de v).vram = m.vram := rfl

/-- Pair setter `set_de` only touches `d` and `e`. -/
@[simp] lemma timer_set_de (m : Mmu) (v : Nat) : (m.set_de v).timer = m.timer := rfl

/-- Pair setter `set_de` only touches `d` and `e`. -/
@[simp] lemma ppu_set_de (m : Mmu) (v : Nat) : (m.set_de v).ppu = m.ppu := rfl

/-- Pair setter `set_de` only touches `d` and `e`. -/
@[simp] lemma apu_set_de (m : Mmu) (v : Nat) : (m.set_de v).apu = m.apu := rfl

/-- Pair setter `set_de` only touches `d` and `e`. -/
@[simp] lemma cartridge_set_de (m : Mmu) (v : Nat) : (m.set_de v).cartridge = m.cartridge := rfl

/-- Pair setter `set_de` only touches `d` and `e`. -/
@[simp] lemma bootloader_set_de (m : Mmu) (v : Nat) : (m.set_de v).bootloader = m.bootloader := rfl

/-- Pair setter `set_de` only touches `d` and `e`. -/
@[simp] lemma gamepad_set_de (m : Mmu) (v : Nat) : (m.set_de v).gamepad = m.gamepad := rfl

/-- Pair setter `set_de` only touches `d` and `e`. -/
@[simp] lemma f_set_de (m : Mmu) (v : Nat) : (m.set_de v).f = m.f := rfl

/-- Pair setter `set_hl` only touches `h` and `l`. -/
@[simp] lemma a_set_hl (m : Mmu) (v : Nat) : (m.set_hl v).a = m.a := rfl

/-- Pair setter `set_hl` only touches `h` and `l`. -/
@[simp] lemma b_set_hl (m : Mmu) (v : Nat) : (m.set_hl v).b = m.b := rfl

/-- Pair setter `set_hl` only touches `h` and `l`. -/
@[simp] lemma c_set_hl (m : Mmu) (v : Nat) : (m.set_hl v).c = m.c := rfl

/-- Pair setter `set_hl` only touches `h` and `l`. -/
@[simp] lemma d_set_hl (m : Mmu) (v : Nat) : (m.set_hl v).d = m.d := rfl

/-- Pair setter `set_hl` only touches `h` and `l`. -/
@[simp] lemma e_set_hl (m : Mmu) (v : Nat) : (m.set_hl v).e = m.e := rfl

/-- Pair setter `set_hl` only touches `h` and `l`. -/
@[simp] lemma pc_set_hl (m : Mmu) (v : Nat) : (m.set_hl v).pc = m.pc := rfl

/-- Pair setter `set_hl` only touches `h` and `l`. -/
@[simp] lemma sp_set_hl (m : Mmu) (v : Nat) : (m.set_hl v).sp = m.sp := rfl

/-- Pair setter `set_hl` only touches `h` and `l`. -/
@[simp] lemma interrupts_set_hl (m : Mmu) (v : Nat) : (m.set_hl v).interrupts = m.interrupts := rfl

/-- Pair setter `set_hl` only touches `h` and `l`. -/
@[simp] lemma hram_set_hl (m : Mmu) (v : Nat) : (m.set_hl v).hram = m.hram := rfl

/-- Pair setter `set_hl` only touches `h` and `l`. -/
@[simp] lemma oam_set_hl (m : Mmu) (v : Nat) : (m.set_hl v).oam = m.oam := rfl

/-- Pair setter `set_hl` only touches `h` and `l`. -/
@[simp] lemma sram_set_hl (m : Mmu) (v : Nat) : (m.set_hl v).sram = m.sram := rfl

/-- Pair setter `set_hl` only touches `h` and `l`. -/
@[simp] lemma vram_set_hl (m : Mmu) (v : Nat) : (m.set_hl v).vram = m.vram := rfl

/-- Pair setter `set_hl` only touches `h` and `l`. -/
@[simp] lemma timer_set_hl (m : Mmu) (v : Nat) : (m.set_hl v).timer = m.timer := rfl

/-- Pair setter `set_hl` only touches `h` and `l`. -/
@[simp] lemma ppu_set_hl (m : Mmu) (v : Nat) : (m.set_hl v).ppu = m.ppu := rfl

/-- Pair setter `set_hl` only touches `h` and `l`. -/
@[simp] lemma apu_set_hl (m : Mmu) (v : Nat) : (m.set_hl v).apu = m.apu := rfl

/-- Pair setter `set_hl` only touches `h` and `l`. -/
@[simp] lemma cartridge_set_hl (m : Mmu) (v : Nat) : (m.set_hl v).cartridge = m.cartridge := rfl

/-- Pair setter `set_hl` only touches `h` and `l`. -/
@[simp] lemma bootloader_set_hl (m : Mmu) (v : Nat) : (m.set_hl v).bootloader = m.bootloader := rfl

/-- Pair setter `set_hl` only touches `h` and `l`. -/
@[simp] lemma gamepad_set_hl (m : Mmu) (v : Nat) : (m.set_hl v).gamepad = m.gamepad := rfl

/-- Pair setter `set_hl` only touches `h` and `l`. -/
@[simp] lemma f_set_hl (m : Mmu) (v : Nat) : (m.set_hl v).f = m.f := rfl

/-- ALU operations never touch the interrupt controller. -/
@[simp] lemma alu_xor_interrupts (m : Mmu) (v : Nat) : (alu.xor m v).interrupts = m.interrupts := by
  simp [alu.xor]

/-- ALU operations never touch the interrupt controller. -/
@[simp] lemma alu_or_interrupts (m : Mmu) (v : Nat) : (alu.or m v).interrupts = m.interrupts := by
  simp [alu.or]

/-- ALU operations never touch the interrupt controller. -/
@[simp] lemma alu_and_interrupts (m : Mmu) (v : Nat) : (alu.and m v).interrupts = m.interrupts := by
  simp [alu.and]

/-- ALU operations never touch the interrupt controller. -/
@[simp] lemma alu_add_interrupts (m : Mmu) (v : Nat) : (alu.add m v).interrupts = m.interrupts := by
  simp [alu.add]

/-- ALU operations never touch the interrupt controller. -/
@[simp] lemma alu_add_16_interrupts (m : Mmu) (v : Nat) : (alu.add_16 m v).interrupts = m.interrupts := by
  simp [alu.add_16]

/-- ALU operations never touch the interrupt controller. -/
@[simp] lemma alu_sub_interrupts (m : Mmu) (v : Nat) : (alu.sub m v).interrupts = m.interrupts := by
  simp [alu.sub]

/-- ALU operations never touch the interrupt controller. -/
@[simp] lemma alu_cp_interrupts (m : Mmu) (v : Nat) : (alu.cp m v).interrupts = m.interrupts := by
  simp [alu.cp]

/-- ALU operations never touch the interrupt controller. -/
@[simp] lemma alu_cpl_interrupts (m : Mmu) : (alu.cpl m).interrupts = m.interrupts := by
  simp [alu.cpl]

/-- ALU operations never touch the interrupt controller. -/
@[simp] lemma alu_adc_interrupts (m : Mmu) (v : Nat) : (alu.adc m v).interrupts = m.interrupts := by
  simp [alu.adc]

/-- ALU operations never touch the interrupt controller. -/
@[simp] lemma alu_sbc_interrupts (m : Mmu) (v : Nat) : (alu.sbc m v).interrupts = m.interrupts := by
  simp [alu.sbc]

/-- ALU operations never touch the interrupt controller. -/
@[simp] lemma alu_daa_interrupts (m : Mmu) : (alu.daa m).interrupts = m.interrupts := by
  simp only [alu.daa]
  split_ifs <;> simp

/-- ALU operations never touch the interrupt controller. -/
@[simp] lemma alu_inc_interrupts (m : Mmu) (v : Nat) : (alu.inc m v).1.interrupts = m.interrupts := by
  simp [alu.inc]

/-- ALU operations never touch the interrupt controller. -/
@[simp] lemma alu_dec_interrupts (m : Mmu) (v : Nat) : (alu.dec m v).1.interrupts = m.interrupts := by
  simp [alu.dec]

/-- ALU operations never touch the interrupt controller. -/
@[simp] lemma alu_rl_interrupts (m : Mmu) (v : Nat) : (alu.rl m v).1.interrupts = m.interrupts := by
  simp [alu.rl]

/-- ALU operations never touch the interrupt controller. -/
@[simp] lemma alu_rlc_interrupts (m : Mmu) (v : Nat) : (alu.rlc m v).1.interrupts = m.interrupts := by
  simp [alu.rlc]

/-- ALU operations never touch the interrupt controller. -/
@[simp] lemma alu_rr_interrupts (m : Mmu) (v : Nat) : (alu.rr m v).1.interrupts = m.interrupts := by
  simp [alu.rr]

/-- ALU operations never touch the interrupt controller. -/
@[simp] lemma alu_rrc_interrupts (m : Mmu) (v : Nat) : (alu.rrc m v).1.interrupts = m.interrupts := by
  simp [alu.rrc]

/-- ALU operations never touch the interrupt controller. -/
@[simp] lemma alu_swap_interrupts (m : Mmu) (v : Nat) : (alu.swap m v).1.interrupts = m.interrupts := by
  simp [alu.swap]

/-- ALU operations never touch the interrupt controller. -/
@[simp] lemma alu_sla_interrupts (m : Mmu) (v : Nat) : (alu.sla m v).1.interrupts = m.interrupts := by
  simp [alu.sla]

/-- ALU operations never touch the interrupt controller. -/
@[simp] lemma alu_sra_interrupts (m : Mmu) (v : Nat) : (alu.sra m v).1.interrupts = m.interrupts := by
  simp [alu.sra]

/-- ALU operations never touch the interrupt controller. -/
@[simp] lemma alu_srl_interrupts (m : Mmu) (v : Nat) : (alu.srl m v).1.interrupts = m.interrupts := by
  simp [alu.srl]

/-- ALU operations never touch the interrupt controller. -/
@[simp] lemma alu_bit_interrupts (m : Mmu) (i v : Nat) : (alu.bit m i v).interrupts = m.interrupts := by
  simp [alu.bit]

/-- Characterisation of a successful `get_next_byte`. -/
lemma get_next_byte_eq_some (m : Mmu) (b : Nat) (m' : Mmu) :
    m.get_next_byte = some (b, m') ↔
      (m.rb m.pc = some b ∧ m' = { m with pc := (m.pc + 1) % 65536 }) := by
  unfold Mmu.get_next_byte
  cases h : m.rb m.pc <;> simp [h, eq_comm]

/-- Characterisation of a successful `get_next_word`. -/
lemma get_next_word_eq_some (m : Mmu) (w : Nat) (m' : Mmu) :
    m.get_next_word = some (w, m') ↔
      (m.rw m.pc = some w ∧ m' = { m with pc := (m.pc + 2) % 65536 }) := by
  unfold Mmu.get_next_word
  cases h : m.rw m.pc <;> simp [h, eq_comm]

/-- Characterisation of a successful `pop_stack`. -/
lemma pop_stack_eq_some (m : Mmu) (w : Nat) (m' : Mmu) :
    m.pop_stack = some (w, m') ↔
      (m.rw m.sp = some w ∧ m' = { m with sp := (m.sp + 2) % 65536 }) := by
  unfold Mmu.pop_stack
  cases h : m.rw m.sp <;> simp [h, eq_comm]

/-- An `Option`-valued fold preserves any invariant its body preserves. -/
lemma foldlM_preserve {α β : Type} {p : β → α → Option β} {P : β → Prop}
    (hstep : ∀ b x b', P b → p b x = some b' → P b') :
    ∀ (l : List α) (b b' : β), P b → l.foldlM p b = some b' → P b' := by
  intro l
  induction l with
  | nil =>
    intro b b' hP h
    simp [List.foldlM] at h
    exact h ▸ hP
  | cons x xs ih =>
    intro b b' hP h
    rw [List.foldlM_cons] at h
    cases hp : p b x with
    | none => rw [hp] at h; simp at h
    | some b1 =>
      rw [hp] at h
      simp at h
      exact ih b1 b' (hstep b x b1 hP hp) h

/-- The sprite-table DMA copy only writes the sprite table. -/
lemma oam_dma_interrupts (m : Mmu) (v : Nat) (m' : Mmu)
    (h : m.oam_dma v = some m') : m'.interrupts = m.interrupts := by
  unfold Mmu.oam_dma at h
  refine foldlM_preserve (P := fun x => x.interrupts = m.interrupts) ?_ _ m m' rfl h
  intro b x b' hb hstep
  split at hstep
  · simp at hstep
  · simp at hstep
    subst hstep
    exact hb

/-- `ime_frame` is reflexive. -/
lemma ime_frame_rfl (x : Interrupts) : ime_frame x x := ⟨rfl, rfl, rfl⟩

/-- `ime_frame` is transitive. -/
lemma ime_frame_trans {x y z : Interrupts} (h1 : ime_frame x y) (h2 : ime_frame y z) :
    ime_frame x z :=
  ⟨h1.1.trans h2.1, h1.2.1.trans h2.2.1, h1.2.2.trans h2.2.2⟩

/-- Dispatch arm of `MMU::rb` for this address range. -/
lemma rb_boot_arm (m : Mmu) (a : Nat) (h0 : a ≤ 0xFF) :
    m.rb a = (if m.bootloader.is_enabled then some (m.bootloader.rb a) else m.cartridge.rb a) := by
  unfold Mmu.rb
  rw [if_pos (by omega)]

/-- Dispatch arm of `MMU::rb` for this address range. -/
lemma rb_cart_arm (m : Mmu) (a : Nat) (h0 : 0x100 ≤ a) (h1 : a ≤ 0x7FFF) :
    m.rb a = m.cartridge.rb a := by
  unfold Mmu.rb
  repeat rw [if_neg (by omega)]
  rw [if_pos (by omega)]

/-- Dispatch arm of `MMU::rb` for this address range. -/
lemma rb_vram_arm (m : Mmu) (a : Nat) (h0 : 0x8000 ≤ a) (h1 : a ≤ 0x9FFF) :
    m.rb a = some (m.vram (a - 0x8000)) := by
  unfold Mmu.rb
  repeat rw [if_neg (by omega)]
  rw [if_pos (by omega)]

/-- Dispatch arm of `MMU::rb` for this address range. -/
lemma rb_sram_arm (m : Mmu) (a : Nat) (h0 : 0xC000 ≤ a) (h1 : a ≤ 0xDFFF) :
    m.rb a = some (m.sram (a - 0xC000)) := by
  unfold Mmu.rb
  repeat rw [if_neg (by omega)]
  rw [if_pos (by omega)]

/-- Dispatch arm of `MMU::rb` for this address range. -/
lemma rb_echo_arm (m : Mmu) (a : Nat) (h0 : 0xE000 ≤ a) (h1 : a ≤ 0xFDFF) :
    m.rb a = some (m.sram (a - 0xC000 - 0x2000)) := by
  unfold Mmu.rb
  repeat rw [if_neg (by omega)]
  rw [if_pos (by omega)]

/-- Dispatch arm of `MMU::rb` for this address range. -/
lemma rb_oam_arm (m : Mmu) (a : Nat) (h0 : 0xFE00 ≤ a) (h1 : a ≤ 0xFE9F) :
    m.rb a = some (m.oam (a - 0xFE00)) := by
  unfold Mmu.rb
  repeat rw [if_neg (by omega)]
  rw [if_pos (by omega)]

/-- Dispatch arm of `MMU::rb` for this address range. -/
lemma rb_unusable_arm (m : Mmu) (a : Nat) (h0 : 0xFEA0 ≤ a) (h1 : a ≤ 0xFEFF) :
    m.rb a = some 0xFF := by
  unfold Mmu.rb
  repeat rw [if_neg (by omega)]
  rw [if_pos (by omega)]

/-- Dispatch arm of `MMU::rb` for this address range. -/
lemma rb_gamepad_arm (m : Mmu) (a : Nat) (h0 : a = 0xFF00) :
    m.rb a = some m.gamepad := by
  unfold Mmu.rb
  repeat rw [if_neg (by omega)]
  rw [if_pos (by omega)]

/-- Dispatch arm of `MMU::rb` for this address range. -/
lemma rb_intf_arm (m : Mmu) (a : Nat) (h0 : a = 0xFF0F) :
    m.rb a = some m.interrupts.intf := by
  unfold Mmu.rb
  repeat rw [if_neg (by omega)]
  rw [if_pos (by omega)]

/-- Dispatch arm of `MMU::rb` for this address range. -/
lemma rb_timer_arm (m : Mmu) (a : Nat) (h0 : 0xFF04 ≤ a) (h1 : a ≤ 0xFF07) :
    m.rb a = m.timer.rb a := by
  unfold Mmu.rb
  repeat rw [if_neg (by omega)]
  rw [if_pos (by omega)]

/-- Dispatch arm of `MMU::rb` for this address range. -/
lemma rb_apu_arm (m : Mmu) (a : Nat) (h0 : 0xFF10 ≤ a) (h1 : a ≤ 0xFF3F) :
    m.rb a = m.apu.rb a := by
  unfold Mmu.rb
  repeat rw [if_neg (by omega)]
  rw [if_pos (by omega)]

/-- Dispatch arm of `MMU::rb` for this address range. -/
lemma rb_ff46_arm (m : Mmu) (a : Nat) (h0 : a = 0xFF46) :
    m.rb a = none := by
  unfold Mmu.rb
  repeat rw [if_neg (by omega)]
  rw [if_pos (by omega)]

/-- Dispatch arm of `MMU::rb` for this address range. -/
lemma rb_ppu_arm (m : Mmu) (a : Nat) (h0 : 0xFF40 ≤ a) (h1 : a ≤ 0xFF4B) (h2 : a ≠ 0xFF46) :
    m.rb a = m.ppu.rb a := by
  unfold Mmu.rb
  repeat rw [if_neg (by omega)]
  rw [if_pos (by omega)]

/-- Dispatch arm of `MMU::rb` for this address range. -/
lemma rb_hram_arm (m : Mmu) (a : Nat) (h0 : 0xFF80 ≤ a) (h1 : a ≤ 0xFFFE) :
    m.rb a = some (m.hram (a - 0xFF80)) := by
  unfold Mmu.rb
  repeat rw [if_neg (by omega)]
  rw [if_pos (by omega)]

/-- Dispatch arm of `MMU::rb` for this address range. -/
lemma rb_inte_arm (m : Mmu) (a : Nat) (h0 : a = 0xFFFF) :
    m.rb a = some m.interrupts.inte := by
  unfold Mmu.rb
  repeat rw [if_neg (by omega)]
  rw [if_pos (by omega)]

/-- Dispatch arm of `MMU::wb` for this address range. -/
lemma wb_cart_low_arm (m : Mmu) (a v : Nat) (h0 : a ≤ 0x7FFF) :
    m.wb a v = (match m.cartridge.wb a v with
      | none => none
      | some cart => some { m with cartridge := cart }) := by
  unfold Mmu.wb
  rw [if_pos (by omega)]

/-- Dispatch arm of `MMU::wb` for this address range. -/
lemma wb_vram_arm (m : Mmu) (a v : Nat) (h0 : 0x8000 ≤ a) (h1 : a ≤ 0x9FFF) :
    m.wb a v = some { m with vram := fun i => if i = a - 0x8000 then v else m.vram i } := by
  unfold Mmu.wb
  repeat rw [if_neg (by omega)]
  rw [if_pos (by omega)]

/-- Dispatch arm of `MMU::wb` for this address range. -/
lemma wb_cart_ram_arm (m : Mmu) (a v : Nat) (h0 : 0xA000 ≤ a) (h1 : a ≤ 0xBFFF) :
    m.wb a v = (match m.cartridge.wb a v with
      | none => none
      | some cart => some { m with cartridge := cart }) := by
  unfold Mmu.wb
  repeat rw [if_neg (by omega)]
  rw [if_pos (by omega)]

/-- Dispatch arm of `MMU::wb` for this address range. -/
lemma wb_sram_arm (m : Mmu) (a v : Nat) (h0 : 0xC000 ≤ a) (h1 : a ≤ 0xDFFF) :
    m.wb a v = some { m with sram := fun i => if i = a - 0xC000 then v else m.sram i } := by
  unfold Mmu.wb
  repeat rw [if_neg (by omega)]
  rw [if_pos (by omega)]

/-- Dispatch arm of `MMU::wb` for this address range. -/
lemma wb_echo_arm_none (m : Mmu) (a v : Nat) (h0 : 0xE000 ≤ a) (h1 : a ≤ 0xFDFF) :
    m.wb a v = none := by
  unfold Mmu.wb
  repeat rw [if_neg (by omega)]

/-- Dispatch arm of `MMU::wb` for this address range. -/
lemma wb_oam_arm (m : Mmu) (a v : Nat) (h0 : 0xFE00 ≤ a) (h1 : a ≤ 0xFE9F) :
    m.wb a v = some { m with oam := fun i => if i = a - 0xFE00 then v else m.oam i } := by
  unfold Mmu.wb
  repeat rw [if_neg (by omega)]
  rw [if_pos (by omega)]

/-- Dispatch arm of `MMU::wb` for this address range. -/
lemma wb_unusable_arm (m : Mmu) (a v : Nat) (h0 : 0xFEA0 ≤ a) (h1 : a ≤ 0xFEFF) :
    m.wb a v = some m := by
  unfold Mmu.wb
  repeat rw [if_neg (by omega)]
  rw [if_pos (by omega)]

/-- Dispatch arm of `MMU::wb` for this address range. -/
lemma wb_gamepad_arm (m : Mmu) (a v : Nat) (h0 : a = 0xFF00) :
    m.wb a v = some { m with gamepad := v } := by
  unfold Mmu.wb
  repeat rw [if_neg (by omega)]
  rw [if_pos (by omega)]

/-- Dispatch arm of `MMU::wb` for this address range. -/
lemma wb_timer_arm (m : Mmu) (a v : Nat) (h0 : 0xFF04 ≤ a) (h1 : a ≤ 0xFF07) :
    m.wb a v = (match m.timer.wb a v with
      | none => none
      | some t => some { m with timer := t }) := by
  unfold Mmu.wb
  repeat rw [if_neg (by omega)]
  rw [if_pos (by omega)]

/-- Dispatch arm of `MMU::wb` for this address range. -/
lemma wb_intf_arm (m : Mmu) (a v : Nat) (h0 : a = 0xFF0F) :
    m.wb a v = some { m with interrupts := { m.interrupts with intf := v } } := by
  unfold Mmu.wb
  repeat rw [if_neg (by omega)]
  rw [if_pos (by omega)]

/-- Dispatch arm of `MMU::wb` for this address range. -/
lemma wb_ff46_arm (m : Mmu) (a v : Nat) (h0 : a = 0xFF46) :
    m.wb a v = m.oam_dma v := by
  unfold Mmu.wb
  repeat rw [if_neg (by omega)]
  rw [if_pos (by omega)]

/-- Dispatch arm of `MMU::wb` for this address range. -/
lemma wb_ppu_arm (m : Mmu) (a v : Nat) (h0 : 0xFF40 ≤ a) (h1 : a ≤ 0xFF4B) (h2 : a ≠ 0xFF46) :
    m.wb a v = (match m.ppu.wb a v with
      | none => none
      | some p => some { m with ppu := p }) := by
  unfold Mmu.wb
  repeat rw [if_neg (by omega)]
  rw [if_pos (by omega)]

/-- Dispatch arm of `MMU::wb` for this address range. -/
lemma wb_hram_arm (m : Mmu) (a v : Nat) (h0 : 0xFF80 ≤ a) (h1 : a ≤ 0xFFFE) :
    m.wb a v = some { m with hram := fun i => if i = a - 0xFF80 then v else m.hram i } := by
  unfold Mmu.wb
  repeat rw [if_neg (by omega)]
  rw [if_pos (by omega)]

/-- Dispatch arm of `MMU::wb` for this address range. -/
lemma wb_inte_arm (m : Mmu) (a v : Nat) (h0 : a = 0xFFFF) :
    m.wb a v = some { m with interrupts := { m.interrupts with inte := v } } := by
  unfold Mmu.wb
  repeat rw [if_neg (by omega)]
  rw [if_pos (by omega)]

/-- A byte write can change the request and enable masks (0xFF0F, 0xFFFF) but
never the IME flag or its delay counters. -/
lemma wb_ime_frame (m : Mmu) (a v : Nat) (m' : Mmu) (h : m.wb a v = some m') :
    ime_frame m'.interrupts m.interrupts := by
  unfold Mmu.wb at h
  by_cases c0 : a ≤ 0x7FFF
  · rw [if_pos c0] at h
    cases hs : m.cartridge.wb a v with
    | none => rw [hs] at h; exact absurd h (by simp)
    | some cart =>
      rw [hs] at h
      injection h with h1
      subst h1
      exact ⟨rfl, rfl, rfl⟩
  rw [if_neg c0] at h
  by_cases c1 : a ≤ 0x9FFF
  · rw [if_pos c1] at h
    injection h with h1
    subst h1
    exact ⟨rfl, rfl, rfl⟩
  rw [if_neg c1] at h
  by_cases c2 : 0xA000 ≤ a ∧ a ≤ 0xBFFF
  · rw [if_pos c2] at h
    cases hs : m.cartridge.wb a v with
    | none => rw [hs] at h; exact absurd h (by simp)
    | some cart =>
      rw [hs] at h
      injection h with h1
      subst h1
      exact ⟨rfl, rfl, rfl⟩
  rw [if_neg c2] at h
  by_cases c3 : 0xC000 ≤ a ∧ a ≤ 0xDFFF
  · rw [if_pos c3] at h
    injection h with h1
    subst h1
    exact ⟨rfl, rfl, rfl⟩
  rw [if_neg c3] at h
  by_cases c4 : 0xFE00 ≤ a ∧ a ≤ 0xFE9F
  · rw [if_pos c4] at h
    injection h with h1
    subst h1
    exact ⟨rfl, rfl, rfl⟩
  rw [if_neg c4] at h
  by_cases c5 : 0xFEA0 ≤ a ∧ a ≤ 0xFEFF
  · rw [if_pos c5] at h
    injection h with h1
    subst h1
    exact ⟨rfl, rfl, rfl⟩
  rw [if_neg c5] at h
  by_cases c6 : a = 0xFF00
  · rw [if_pos c6] at h
    injection h with h1
    subst h1
    exact ⟨rfl, rfl, rfl⟩
  rw [if_neg c6] at h
  by_cases c7 : a = 0xFF01
  · rw [if_pos c7] at h
    injection h with h1
    subst h1
    exact ⟨rfl, rfl, rfl⟩
  rw [if_neg c7] at h
  by_cases c8 : a = 0xFF02
  · rw [if_pos c8] at h
    injection h with h1
    subst h1
    exact ⟨rfl, rfl, rfl⟩
  rw [if_neg c8] at h
  by_cases c9 : 0xFF04 ≤ a ∧ a ≤ 0xFF07
  · rw [if_pos c9] at h
    cases hs : m.timer.wb a v with
    | none => rw [hs] at h; exact absurd h (by simp)
    | some t =>
      rw [hs] at h
      injection h with h1
      subst h1
      exact ⟨rfl, rfl, rfl⟩
  rw [if_neg c9] at h
  by_cases c10 : a = 0xFF0F
  · rw [if_pos c10] at h
    injection h with h1
    subst h1
    exact ⟨rfl, rfl, rfl⟩
  rw [if_neg c10] at h
  by_cases c11 : 0xFF10 ≤ a ∧ a ≤ 0xFF3F
  · rw [if_pos c11] at h
    cases hs : m.apu.wb a v with
    | none => rw [hs] at h; exact absurd h (by simp)
    | some ap =>
      rw [hs] at h
      injection h with h1
      subst h1
      exact ⟨rfl, rfl, rfl⟩
  rw [if_neg c11] at h
  by_cases c12 : a = 0xFF46
  · rw [if_pos c12] at h
    exact (oam_dma_interrupts _ _ _ h) ▸ ime_frame_rfl _
  rw [if_neg c12] at h
  by_cases c13 : 0xFF40 ≤ a ∧ a ≤ 0xFF4B
  · rw [if_pos c13] at h
    cases hs : m.ppu.wb a v with
    | none => rw [hs] at h; exact absurd h (by simp)
    | some p =>
      rw [hs] at h
      injection h with h1
      subst h1
      exact ⟨rfl, rfl, rfl⟩
  rw [if_neg c13] at h
  by_cases c14 : a = 0xFF50
  · rw [if_pos c14] at h
    injection h with h1
    subst h1
    exact ⟨rfl, rfl, rfl⟩
  rw [if_neg c14] at h
  by_cases c15 : 0xFF80 ≤ a ∧ a ≤ 0xFFFE
  · rw [if_pos c15] at h
    injection h with h1
    subst h1
    exact ⟨rfl, rfl, rfl⟩
  rw [if_neg c15] at h
  by_cases c16 : a = 0xFF7F
  · rw [if_pos c16] at h
    injection h with h1
    subst h1
    exact ⟨rfl, rfl, rfl⟩
  rw [if_neg c16] at h
  by_cases c17 : a = 0xFFFF
  · rw [if_pos c17] at h
    injection h with h1
    subst h1
    exact ⟨rfl, rfl, rfl⟩
  rw [if_neg c17] at h
  exact absurd h (by simp)

/-- A word write preserves the IME flag and its delay counters. -/
lemma ww_ime_frame (m : Mmu) (a v : Nat) (m' : Mmu) (h : m.ww a v = some m') :
    ime_frame m'.interrupts m.interrupts := by
  unfold Mmu.ww at h
  cases h1 : m.wb a (v &&& 0xFF) with
  | none => rw [h1] at h; simp at h
  | some m1 =>
    rw [h1] at h
    exact ime_frame_trans (wb_ime_frame _ _ _ _ h) (wb_ime_frame _ _ _ _ h1)

/-- A stack push preserves the IME flag and its delay counters. -/
lemma push_stack_ime_frame (m : Mmu) (w : Nat) (m' : Mmu) (h : m.push_stack w = some m') :
    ime_frame m'.interrupts m.interrupts := by
  have h2 : ({ m with sp := (m.sp + 65534) % 65536 } : Mmu).ww ((m.sp + 65534) % 65536) w = some m' := h
  have h3 := ww_ime_frame _ _ _ _ h2
  exact h3

/-- Interrupt-state frame of opcode arms 0x00-0x3f. -/
lemma exec_opcode_q0_ime (op : Nat) (m : Mmu) (r : Mmu × Bool)
    (h : exec_opcode_q0 op m = some r) :
    r.1.interrupts.ime = m.interrupts.ime
      ∧ (op = 0xF3 ∨ r.1.interrupts.disable_ime_counter = m.interrupts.disable_ime_counter)
      ∧ (op = 0xD9
          ∨ r.1.interrupts.enable_ime_counter = m.interrupts.enable_ime_counter
          ∨ r.1.interrupts.enable_ime_counter = 2) := by
  unfold exec_opcode_q0 at h
  by_cases e0 : op = 0x00
  · rw [if_pos e0] at h
    simp only [Option.some.injEq] at h
    subst h
    first
    | exact ⟨rfl, Or.inr rfl, Or.inr (Or.inl rfl)⟩
    | (refine ⟨?_, Or.inr ?_, Or.inr (Or.inl ?_)⟩ <;> simp)
  rw [if_neg e0] at h
  by_cases e1 : op = 0x01
  · rw [if_pos e1] at h
    split at h
    · exact Option.noConfusion h
    · rename_i w m1 hf
      obtain ⟨-, rfl⟩ := (get_next_word_eq_some _ _ _).mp hf
      simp only [Option.some.injEq] at h
      subst h
      first
      | exact ⟨rfl, Or.inr rfl, Or.inr (Or.inl rfl)⟩
      | (refine ⟨?_, Or.inr ?_, Or.inr (Or.inl ?_)⟩ <;> simp)
  rw [if_neg e1] at h
  by_cases e2 : op = 0x03
  · rw [if_pos e2] at h
    simp only [Option.some.injEq] at h
    subst h
    first
    | exact ⟨rfl, Or.inr rfl, Or.inr (Or.inl rfl)⟩
    | (refine ⟨?_, Or.inr ?_, Or.inr (Or.inl ?_)⟩ <;> simp)
  rw [if_neg e2] at h
  by_cases e3 : op = 0x04
  · rw [if_pos e3] at h
    simp only [Option.some.injEq] at h
    subst h
    first
    | exact ⟨rfl, Or.inr rfl, Or.inr (Or.inl rfl)⟩
    | (refine ⟨?_, Or.inr ?_, Or.inr (Or.inl ?_)⟩ <;> simp)
  rw [if_neg e3] at h
  by_cases e4 : op = 0x05
  · rw [if_pos e4] at h
    simp only [Option.some.injEq] at h
    subst h
    first
    | exact ⟨rfl, Or.inr rfl, Or.inr (Or.inl rfl)⟩
    | (refine ⟨?_, Or.inr ?_, Or.inr (Or.inl ?_)⟩ <;> simp)
  rw [if_neg e4] at h
  by_cases e5 : op = 0x06
  · rw [if_pos e5] at h
    split at h
    · exact Option.noConfusion h
    · rename_i d8 m1 hf
      obtain ⟨-, rfl⟩ := (get_next_byte_eq_some _ _ _).mp hf
      simp only [Option.some.injEq] at h
      subst h
      first
      | exact ⟨rfl, Or.inr rfl, Or.inr (Or.inl rfl)⟩
      | (refine ⟨?_, Or.inr ?_, Or.inr (Or.inl ?_)⟩ <;> simp)
  rw [if_neg e5] at h
  by_cases e6 : op = 0x07
  · rw [if_pos e6] at h
    simp only [Option.some.injEq] at h
    subst h
    first
    | exact ⟨rfl, Or.inr rfl, Or.inr (Or.inl rfl)⟩
    | (refine ⟨?_, Or.inr ?_, Or.inr (Or.inl ?_)⟩ <;> simp)
  rw [if_neg e6] at h
  by_cases e7 : op = 0x09
  · rw [if_pos e7] at h
    simp only [Option.some.injEq] at h
    subst h
    first
    | exact ⟨rfl, Or.inr rfl, Or.inr (Or.inl rfl)⟩
    | (refine ⟨?_, Or.inr ?_, Or.inr (Or.inl ?_)⟩ <;> simp)
  rw [if_neg e7] at h
  by_cases e8 : op = 0x0a
  · rw [if_pos e8] at h
    split at h
    · exact Option.noConfusion h
    · rename_i byte hr
      simp only [Option.some.injEq] at h
      subst h
      first
      | exact ⟨rfl, Or.inr rfl, Or.inr (Or.inl rfl)⟩
      | (refine ⟨?_, Or.inr ?_, Or.inr (Or.inl ?_)⟩ <;> simp)
  rw [if_neg e8] at h
  by_cases e9 : op = 0x0b
  · rw [if_pos e9] at h
    simp only [Option.some.injEq] at h
    subst h
    first
    | exact ⟨rfl, Or.inr rfl, Or.inr (Or.inl rfl)⟩
    | (refine ⟨?_, Or.inr ?_, Or.inr (Or.inl ?_)⟩ <;> simp)
  rw [if_neg e9] at h
  by_cases e10 : op = 0x0c
  · rw [if_pos e10] at h
    simp only [Option.some.injEq] at h
    subst h
    first
    | exact ⟨rfl, Or.inr rfl, Or.inr (Or.inl rfl)⟩
    | (refine ⟨?_, Or.inr ?_, Or.inr (Or.inl ?_)⟩ <;> simp)
  rw [if_neg e10] at h
  by_cases e11 : op = 0x0d
  · rw [if_pos e11] at h
    simp only [Option.some.injEq] at h
    subst h
    first
    | exact ⟨rfl, Or.inr rfl, Or.inr (Or.inl rfl)⟩
    | (refine ⟨?_, Or.inr ?_, Or.inr (Or.inl ?_)⟩ <;> simp)
  rw [if_neg e11] at h
  by_cases e12 : op = 0x0e
  · rw [if_pos e12] at h
    split at h
    · exact Option.noConfusion h
    · rename_i d8 m1 hf
      obtain ⟨-, rfl⟩ := (get_next_byte_eq_some _ _ _).mp hf
      simp only [Option.some.injEq] at h
      subst h
      first
      | exact ⟨rfl, Or.inr rfl, Or.inr (Or.inl rfl)⟩
      | (refine ⟨?_, Or.inr ?_, Or.inr (Or.inl ?_)⟩ <;> simp)
  rw [if_neg e12] at h
  by_cases e13 : op = 0x11
  · rw [if_pos e13] at h
    split at h
    · exact Option.noConfusion h
    · rename_i w m1 hf
      obtain ⟨-, rfl⟩ := (get_next_word_eq_some _ _ _).mp hf
      simp only [Option.some.injEq] at h
      subst h
      first
      | exact ⟨rfl, Or.inr rfl, Or.inr (Or.inl rfl)⟩
      | (refine ⟨?_, Or.inr ?_, Or.inr (Or.inl ?_)⟩ <;> simp)
  rw [if_neg e13] at h
  by_cases e14 : op = 0x12
  · rw [if_pos e14] at h
    split at h
    · exact Option.noConfusion h
    · rename_i m1 hw
      obtain ⟨hime, hdis, hen⟩ := wb_ime_frame _ _ _ _ hw
      simp only [Option.some.injEq] at h
      subst h
      exact ⟨by simp [hime], Or.inr (by simp [hdis]), Or.inr (Or.inl (by simp [hen]))⟩
  rw [if_neg e14] at h
  by_cases e15 : op = 0x13
  · rw [if_pos e15] at h
    simp only [Option.some.injEq] at h
    subst h
    first
    | exact ⟨rfl, Or.inr rfl, Or.inr (Or.inl rfl)⟩
    | (refine ⟨?_, Or.inr ?_, Or.inr (Or.inl ?_)⟩ <;> simp)
  rw [if_neg e15] at h
  by_cases e16 : op = 0x15
  · rw [if_pos e16] at h
    simp only [Option.some.injEq] at h
    subst h
    first
    | exact ⟨rfl, Or.inr rfl, Or.inr (Or.inl rfl)⟩
    | (refine ⟨?_, Or.inr ?_, Or.inr (Or.inl ?_)⟩ <;> simp)
  rw [if_neg e16] at h
  by_cases e17 : op = 0x16
  · rw [if_pos e17] at h
    split at h
    · exact Option.noConfusion h
    · rename_i d8 m1 hf
      obtain ⟨-, rfl⟩ := (get_next_byte_eq_some _ _ _).mp hf
      simp only [Option.some.injEq] at h
      subst h
      first
      | exact ⟨rfl, Or.inr rfl, Or.inr (Or.inl rfl)⟩
      | (refine ⟨?_, Or.inr ?_, Or.inr (Or.inl ?_)⟩ <;> simp)
  rw [if_neg e17] at h
  by_cases e18 : op = 0x17
  · rw [if_pos e18] at h
    simp only [Option.some.injEq] at h
    subst h
    first
    | exact ⟨rfl, Or.inr rfl, Or.inr (Or.inl rfl)⟩
    | (refine ⟨?_, Or.inr ?_, Or.inr (Or.inl ?_)⟩ <;> simp)
  rw [if_neg e18] at h
  by_cases e19 : op = 0x18
  · rw [if_pos e19] at h
    split at h
    · exact Option.noConfusion h
    · rename_i d8 m1 hf
      obtain ⟨-, rfl⟩ := (get_next_byte_eq_some _ _ _).mp hf
      simp only [Option.some.injEq] at h
      subst h
      first
      | exact ⟨rfl, Or.inr rfl, Or.inr (Or.inl rfl)⟩
      | (refine ⟨?_, Or.inr ?_, Or.inr (Or.inl ?_)⟩ <;> simp)
  rw [if_neg e19] at h
  by_cases e20 : op = 0x19
  · rw [if_pos e20] at h
    simp only [Option.some.injEq] at h
    subst h
    first
    | exact ⟨rfl, Or.inr rfl, Or.inr (Or.inl rfl)⟩
    | (refine ⟨?_, Or.inr ?_, Or.inr (Or.inl ?_)⟩ <;> simp)
  rw [if_neg e20] at h
  by_cases e21 : op = 0x1a
  · rw [if_pos e21] at h
    split at h
    · exact Option.noConfusion h
    · rename_i byte hr
      simp only [Option.some.injEq] at h
      subst h
      first
      | exact ⟨rfl, Or.inr rfl, Or.inr (Or.inl rfl)⟩
      | (refine ⟨?_, Or.inr ?_, Or.inr (Or.inl ?_)⟩ <;> simp)
  rw [if_neg e21] at h
  by_cases e22 : op = 0x1b
  · rw [if_pos e22] at h
    simp only [Option.some.injEq] at h
    subst h
    first
    | exact ⟨rfl, Or.inr rfl, Or.inr (Or.inl rfl)⟩
    | (refine ⟨?_, Or.inr ?_, Or.inr (Or.inl ?_)⟩ <;> simp)
  rw [if_neg e22] at h
  by_cases e23 : op = 0x1c
  · rw [if_pos e23] at h
    simp only [Option.some.injEq] at h
    subst h
    first
    | exact ⟨rfl, Or.inr rfl, Or.inr (Or.inl rfl)⟩
    | (refine ⟨?_, Or.inr ?_, Or.inr (Or.inl ?_)⟩ <;> simp)
  rw [if_neg e23] at h
  by_cases e24 : op = 0x1d
  · rw [if_pos e24] at h
    simp only [Option.some.injEq] at h
    subst h
    first
    | exact ⟨rfl, Or.inr rfl, Or.inr (Or.inl rfl)⟩
    | (refine ⟨?_, Or.inr ?_, Or.inr (Or.inl ?_)⟩ <;> simp)
  rw [if_neg e24] at h
  by_cases e25 : op = 0x1e
  · rw [if_pos e25] at h
    split at h
    · exact Option.noConfusion h
    · rename_i d8 m1 hf
      obtain ⟨-, rfl⟩ := (get_next_byte_eq_some _ _ _).mp hf
      simp only [Option.some.injEq] at h
      subst h
      first
      | exact ⟨rfl, Or.inr rfl, Or.inr (Or.inl rfl)⟩
      | (refine ⟨?_, Or.inr ?_, Or.inr (Or.inl ?_)⟩ <;> simp)
  rw [if_neg e25] at h
  by_cases e26 : op = 0x20
  · rw [if_pos e26] at h
    split at h
    · exact Option.noConfusion h
    · rename_i d8 m1 hf
      obtain ⟨-, rfl⟩ := (get_next_byte_eq_some _ _ _).mp hf
      split at h <;>
        (simp only [Option.some.injEq] at h; subst h;
         first
         | exact ⟨rfl, Or.inr rfl, Or.inr (Or.inl rfl)⟩
         | (refine ⟨?_, Or.inr ?_, Or.inr (Or.inl ?_)⟩ <;> simp))
  rw [if_neg e26] at h
  by_cases e27 : op = 0x21
  · rw [if_pos e27] at h
    split at h
    · exact Option.noConfusion h
    · rename_i w m1 hf
      obtain ⟨-, rfl⟩ := (get_next_word_eq_some _ _ _).mp hf
      simp only [Option.some.injEq] at h
      subst h
      first
      | exact ⟨rfl, Or.inr rfl, Or.inr (Or.inl rfl)⟩
      | (refine ⟨?_, Or.inr ?_, Or.inr (Or.inl ?_)⟩ <;> simp)
  rw [if_neg e27] at h
  by_cases e28 : op = 0x22
  · rw [if_pos e28] at h
    split at h
    · exact Option.noConfusion h
    · rename_i m1 hw
      obtain ⟨hime, hdis, hen⟩ := wb_ime_frame _ _ _ _ hw
      simp only [Option.some.injEq] at h
      subst h
      exact ⟨by simp [hime], Or.inr (by simp [hdis]), Or.inr (Or.inl (by simp [hen]))⟩
  rw [if_neg e28] at h
  by_cases e29 : op = 0x23
  · rw [if_pos e29] at h
    simp only [Option.some.injEq] at h
    subst h
    first
    | exact ⟨rfl, Or.inr rfl, Or.inr (Or.inl rfl)⟩
    | (refine ⟨?_, Or.inr ?_, Or.inr (Or.inl ?_)⟩ <;> simp)
  rw [if_neg e29] at h
  by_cases e30 : op = 0x24
  · rw [if_pos e30] at h
    simp only [Option.some.injEq] at h
    subst h
    first
    | exact ⟨rfl, Or.inr rfl, Or.inr (Or.inl rfl)⟩
    | (refine ⟨?_, Or.inr ?_, Or.inr (Or.inl ?_)⟩ <;> simp)
  rw [if_neg e30] at h
  by_cases e31 : op = 0x25
  · rw [if_pos e31] at h
    simp only [Option.some.injEq] at h
    subst h
    first
    | exact ⟨rfl, Or.inr rfl, Or.inr (Or.inl rfl)⟩
    | (refine ⟨?_, Or.inr ?_, Or.inr (Or.inl ?_)⟩ <;> simp)
  rw [if_neg e31] at h
  by_cases e32 : op = 0x26
  · rw [if_pos e32] at h
    split at h
    · exact Option.noConfusion h
    · rename_i d8 m1 hf
      obtain ⟨-, rfl⟩ := (get_next_byte_eq_some _ _ _).mp hf
      simp only [Option.some.injEq] at h
      subst h
      first
      | exact ⟨rfl, Or.inr rfl, Or.inr (Or.inl rfl)⟩
      | (refine ⟨?_, Or.inr ?_, Or.inr (Or.inl ?_)⟩ <;> simp)
  rw [if_neg e32] at h
  by_cases e33 : op = 0x27
  · rw [if_pos e33] at h
    simp only [Option.some.injEq] at h
    subst h
    first
    | exact ⟨rfl, Or.inr rfl, Or.inr (Or.inl rfl)⟩
    | (refine ⟨?_, Or.inr ?_, Or.inr (Or.inl ?_)⟩ <;> simp)
  rw [if_neg e33] at h
  by_cases e34 : op = 0x28
  · rw [if_pos e34] at h
    split at h
    · exact Option.noConfusion h
    · rename_i d8 m1 hf
      obtain ⟨-, rfl⟩ := (get_next_byte_eq_some _ _ _).mp hf
      split at h <;>
        (simp only [Option.some.injEq] at h; subst h;
         first
         | exact ⟨rfl, Or.inr rfl, Or.inr (Or.inl rfl)⟩
         | (refine ⟨?_, Or.inr ?_, Or.inr (Or.inl ?_)⟩ <;> simp))
  rw [if_neg e34] at h
  by_cases e35 : op = 0x2a
  · rw [if_pos e35] at h
    split at h
    · exact Option.noConfusion h
    · rename_i byte hr
      simp only [Option.some.injEq] at h
      subst h
      first
      | exact ⟨rfl, Or.inr rfl, Or.inr (Or.inl rfl)⟩
      | (refine ⟨?_, Or.inr ?_, Or.inr (Or.inl ?_)⟩ <;> simp)
  rw [if_neg e35] at h
  by_cases e36 : op = 0x2b
  · rw [if_pos e36] at h
    simp only [Option.some.injEq] at h
    subst h
    first
    | exact ⟨rfl, Or.inr rfl, Or.inr (Or.inl rfl)⟩
    | (refine ⟨?_, Or.inr ?_, Or.inr (Or.inl ?_)⟩ <;> simp)
  rw [if_neg e36] at h
  by_cases e37 : op = 0x2c
  · rw [if_pos e37] at h
    simp only [Option.some.injEq] at h
    subst h
    first
    | exact ⟨rfl, Or.inr rfl, Or.inr (Or.inl rfl)⟩
    | (refine ⟨?_, Or.inr ?_, Or.inr (Or.inl ?_)⟩ <;> simp)
  rw [if_neg e37] at h
  by_cases e38 : op = 0x2d
  · rw [if_pos e38] at h
    simp only [Option.some.injEq] at h
    subst h
    first
    | exact ⟨rfl, Or.inr rfl, Or.inr (Or.inl rfl)⟩
    | (refine ⟨?_, Or.inr ?_, Or.inr (Or.inl ?_)⟩ <;> simp)
  rw [if_neg e38] at h
  by_cases e39 : op = 0x2e
  · rw [if_pos e39] at h
    split at h
    · exact Option.noConfusion h
    · rename_i d8 m1 hf
      obtain ⟨-, rfl⟩ := (get_next_byte_eq_some _ _ _).mp hf
      simp only [Option.some.injEq] at h
      subst h
      first
      | exact ⟨rfl, Or.inr rfl, Or.inr (Or.inl rfl)⟩
      | (refine ⟨?_, Or.inr ?_, Or.inr (Or.inl ?_)⟩ <;> simp)
  rw [if_neg e39] at h
  by_cases e40 : op = 0x2f
  · rw [if_pos e40] at h
    simp only [Option.some.injEq] at h
    subst h
    first
    | exact ⟨rfl, Or.inr rfl, Or.inr (Or.inl rfl)⟩
    | (refine ⟨?_, Or.inr ?_, Or.inr (Or.inl ?_)⟩ <;> simp)
  rw [if_neg e40] at h
  by_cases e41 : op = 0x30
  · rw [if_pos e41] at h
    split at h
    · exact Option.noConfusion h
    · rename_i d8 m1 hf
      obtain ⟨-, rfl⟩ := (get_next_byte_eq_some _ _ _).mp hf
      split at h <;>
        (simp only [Option.some.injEq] at h; subst h;
         first
         | exact ⟨rfl, Or.inr rfl, Or.inr (Or.inl rfl)⟩
         | (refine ⟨?_, Or.inr ?_, Or.inr (Or.inl ?_)⟩ <;> simp))
  rw [if_neg e41] at h
  by_cases e42 : op = 0x31
  · rw [if_pos e42] at h
    split at h
    · exact Option.noConfusion h
    · rename_i w m1 hf
      obtain ⟨-, rfl⟩ := (get_next_word_eq_some _ _ _).mp hf
      simp only [Option.some.injEq] at h
      subst h
      first
      | exact ⟨rfl, Or.inr rfl, Or.inr (Or.inl rfl)⟩
      | (refine ⟨?_, Or.inr ?_, Or.inr (Or.inl ?_)⟩ <;> simp)
  rw [if_neg e42] at h
  by_cases e43 : op = 0x32
  · rw [if_pos e43] at h
    split at h
    · exact Option.noConfusion h
    · rename_i m1 hw
      obtain ⟨hime, hdis, hen⟩ := wb_ime_frame _ _ _ _ hw
      simp only [Option.some.injEq] at h
      subst h
      exact ⟨by simp [hime], Or.inr (by simp [hdis]), Or.inr (Or.inl (by simp [hen]))⟩
  rw [if_neg e43] at h
  by_cases e44 : op = 0x34
  · rw [if_pos e44] at h
    split at h
    · exact Option.noConfusion h
    · rename_i byte hr
      split at h
      · exact Option.noConfusion h
      · rename_i m2 hw
        obtain ⟨hime, hdis, hen⟩ := wb_ime_frame _ _ _ _ hw
        simp only [Option.some.injEq] at h
        subst h
        exact ⟨by simp [hime], Or.inr (by simp [hdis]), Or.inr (Or.inl (by simp [hen]))⟩
  rw [if_neg e44] at h
  by_cases e45 : op = 0x35
  · rw [if_pos e45] at h
    split at h
    · exact Option.noConfusion h
    · rename_i byte hr
      split at h
      · exact Option.noConfusion h
      · rename_i m2 hw
        obtain ⟨hime, hdis, hen⟩ := wb_ime_frame _ _ _ _ hw
        simp only [Option.some.injEq] at h
        subst h
        exact ⟨by simp [hime], Or.inr (by simp [hdis]), Or.inr (Or.inl (by simp [hen]))⟩
  rw [if_neg e45] at h
  by_cases e46 : op = 0x36
  · rw [if_pos e46] at h
    split at h
    · exact Option.noConfusion h
    · rename_i d8 m1 hf
      split at h
      · exact Option.noConfusion h
      · rename_i m2 hw
        obtain ⟨hime, hdis, hen⟩ := wb_ime_frame _ _ _ _ hw
        obtain ⟨-, rfl⟩ := (get_next_byte_eq_some _ _ _).mp hf
        simp only [Option.some.injEq] at h
        subst h
        exact ⟨by simp [hime], Or.inr (by simp [hdis]), Or.inr (Or.inl (by simp [hen]))⟩
  rw [if_neg e46] at h
  by_cases e47 : op = 0x38
  · rw [if_pos e47] at h
    split at h
    · exact Option.noConfusion h
    · rename_i d8 m1 hf
      obtain ⟨-, rfl⟩ := (get_next_byte_eq_some _ _ _).mp hf
      split at h <;>
        (simp only [Option.some.injEq] at h; subst h;
         first
         | exact ⟨rfl, Or.inr rfl, Or.inr (Or.inl rfl)⟩
         | (refine ⟨?_, Or.inr ?_, Or.inr (Or.inl ?_)⟩ <;> simp))
  rw [if_neg e47] at h
  by_cases e48 : op = 0x3a
  · rw [if_pos e48] at h
    split at h
    · exact Option.noConfusion h
    · rename_i byte hr
      simp only [Option.some.injEq] at h
      subst h
      first
      | exact ⟨rfl, Or.inr rfl, Or.inr (Or.inl rfl)⟩
      | (refine ⟨?_, Or.inr ?_, Or.inr (Or.inl ?_)⟩ <;> simp)
  rw [if_neg e48] at h
  by_cases e49 : op = 0x3b
  · rw [if_pos e49] at h
    simp only [Option.some.injEq] at h
    subst h
    first
    | exact ⟨rfl, Or.inr rfl, Or.inr (Or.inl rfl)⟩
    | (refine ⟨?_, Or.inr ?_, Or.inr (Or.inl ?_)⟩ <;> simp)
  rw [if_neg e49] at h
  by_cases e50 : op = 0x3c
  · rw [if_pos e50] at h
    simp only [Option.some.injEq] at h
    subst h
    first
    | exact ⟨rfl, Or.inr rfl, Or.inr (Or.inl rfl)⟩
    | (refine ⟨?_, Or.inr ?_, Or.inr (Or.inl ?_)⟩ <;> simp)
  rw [if_neg e50] at h
  by_cases e51 : op = 0x3d
  · rw [if_pos e51] at h
    simp only [Option.some.injEq] at h
    subst h
    first
    | exact ⟨rfl, Or.inr rfl, Or.inr (Or.inl rfl)⟩
    | (refine ⟨?_, Or.inr ?_, Or.inr (Or.inl ?_)⟩ <;> simp)
  rw [if_neg e51] at h
  by_cases e52 : op = 0x3e
  · rw [if_pos e52] at h
    split at h
    · exact Option.noConfusion h
    · rename_i d8 m1 hf
      obtain ⟨-, rfl⟩ := (get_next_byte_eq_some _ _ _).mp hf
      simp only [Option.some.injEq] at h
      subst h
      first
      | exact ⟨rfl, Or.inr rfl, Or.inr (Or.inl rfl)⟩
      | (refine ⟨?_, Or.inr ?_, Or.inr (Or.inl ?_)⟩ <;> simp)
  rw [if_neg e52] at h
  exact absurd h (by simp)

/-- Interrupt-state frame of opcode arms 0x40-0x7f. -/
lemma exec_opcode_q1_ime (op : Nat) (m : Mmu) (r : Mmu × Bool)
    (h : exec_opcode_q1 op m = some r) :
    r.1.interrupts.ime = m.interrupts.ime
      ∧ (op = 0xF3 ∨ r.1.interrupts.disable_ime_counter = m.interrupts.disable_ime_counter)
      ∧ (op = 0xD9
          ∨ r.1.interrupts.enable_ime_counter = m.interrupts.enable_ime_counter
          ∨ r.1.interrupts.enable_ime_counter = 2) := by
  unfold exec_opcode_q1 at h
  by_cases e53 : op = 0x40
  · rw [if_pos e53] at h
    simp only [Option.some.injEq] at h
    subst h
    first
    | exact ⟨rfl, Or.inr rfl, Or.inr (Or.inl rfl)⟩
    | (refine ⟨?_, Or.inr ?_, Or.inr (Or.inl ?_)⟩ <;> simp)
  rw [if_neg e53] at h
  by_cases e54 : op = 0x4e
  · rw [if_pos e54] at h
    split at h
    · exact Option.noConfusion h
    · rename_i byte hr
      simp only [Option.some.injEq] at h
      subst h
      first
      | exact ⟨rfl, Or.inr rfl, Or.inr (Or.inl rfl)⟩
      | (refine ⟨?_, Or.inr ?_, Or.inr (Or.inl ?_)⟩ <;> simp)
  rw [if_neg e54] at h
  by_cases e55 : op = 0x46
  · rw [if_pos e55] at h
    split at h
    · exact Option.noConfusion h
    · rename_i byte hr
      simp only [Option.some.injEq] at h
      subst h
      first
      | exact ⟨rfl, Or.inr rfl, Or.inr (Or.inl rfl)⟩
      | (refine ⟨?_, Or.inr ?_, Or.inr (Or.inl ?_)⟩ <;> simp)
  rw [if_neg e55] at h
  by_cases e56 : op = 0x47
  · rw [if_pos e56] at h
    simp only [Option.some.injEq] at h
    subst h
    first
    | exact ⟨rfl, Or.inr rfl, Or.inr (Or.inl rfl)⟩
    | (refine ⟨?_, Or.inr ?_, Or.inr (Or.inl ?_)⟩ <;> simp)
  rw [if_neg e56] at h
  by_cases e57 : op = 0x49
  · rw [if_pos e57] at h
    simp only [Option.some.injEq] at h
    subst h
    first
    | exact ⟨rfl, Or.inr rfl, Or.inr (Or.inl rfl)⟩
    | (refine ⟨?_, Or.inr ?_, Or.inr (Or.inl ?_)⟩ <;> simp)
  rw [if_neg e57] at h
  by_cases e58 : op = 0x4f
  · rw [if_pos e58] at h
    simp only [Option.some.injEq] at h
    subst h
    first
    | exact ⟨rfl, Or.inr rfl, Or.inr (Or.inl rfl)⟩
    | (refine ⟨?_, Or.inr ?_, Or.inr (Or.inl ?_)⟩ <;> simp)
  rw [if_neg e58] at h
  by_cases e59 : op = 0x50
  · rw [if_pos e59] at h
    simp only [Option.some.injEq] at h
    subst h
    first
    | exact ⟨rfl, Or.inr rfl, Or.inr (Or.inl rfl)⟩
    | (refine ⟨?_, Or.inr ?_, Or.inr (Or.inl ?_)⟩ <;> simp)
  rw [if_neg e59] at h
  by_cases e60 : op = 0x51
  · rw [if_pos e60] at h
    simp only [Option.some.injEq] at h
    subst h
    first
    | exact ⟨rfl, Or.inr rfl, Or.inr (Or.inl rfl)⟩
    | (refine ⟨?_, Or.inr ?_, Or.inr (Or.inl ?_)⟩ <;> simp)
  rw [if_neg e60] at h
  by_cases e61 : op = 0x53
  · rw [if_pos e61] at h
    simp only [Option.some.injEq] at h
    subst h
    first
    | exact ⟨rfl, Or.inr rfl, Or.inr (Or.inl rfl)⟩
    | (refine ⟨?_, Or.inr ?_, Or.inr (Or.inl ?_)⟩ <;> simp)
  rw [if_neg e61] at h
  by_cases e62 : op = 0x54
  · rw [if_pos e62] at h
    simp only [Option.some.injEq] at h
    subst h
    first
    | exact ⟨rfl, Or.inr rfl, Or.inr (Or.inl rfl)⟩
    | (refine ⟨?_, Or.inr ?_, Or.inr (Or.inl ?_)⟩ <;> simp)
  rw [if_neg e62] at h
  by_cases e63 : op = 0x55
  · rw [if_pos e63] at h
    simp only [Option.some.injEq] at h
    subst h
    first
    | exact ⟨rfl, Or.inr rfl, Or.inr (Or.inl rfl)⟩
    | (refine ⟨?_, Or.inr ?_, Or.inr (Or.inl ?_)⟩ <;> simp)
  rw [if_neg e63] at h
  by_cases e64 : op = 0x57
  · rw [if_pos e64] at h
    simp only [Option.some.injEq] at h
    subst h
    first
    | exact ⟨rfl, Or.inr rfl, Or.inr (Or.inl rfl)⟩
    | (refine ⟨?_, Or.inr ?_, Or.inr (Or.inl ?_)⟩ <;> simp)
  rw [if_neg e64] at h
  by_cases e65 : op = 0x58
  · rw [if_pos e65] at h
    simp only [Option.some.injEq] at h
    subst h
    first
    | exact ⟨rfl, Or.inr rfl, Or.inr (Or.inl rfl)⟩
    | (refine ⟨?_, Or.inr ?_, Or.inr (Or.inl ?_)⟩ <;> simp)
  rw [if_neg e65] at h
  by_cases e66 : op = 0x59
  · rw [if_pos e66] at h
    simp only [Option.some.injEq] at h
    subst h
    first
    | exact ⟨rfl, Or.inr rfl, Or.inr (Or.inl rfl)⟩
    | (refine ⟨?_, Or.inr ?_, Or.inr (Or.inl ?_)⟩ <;> simp)
  rw [if_neg e66] at h
  by_cases e67 : op = 0x5a
  · rw [if_pos e67] at h
    simp only [Option.some.injEq] at h
    subst h
    first
    | exact ⟨rfl, Or.inr rfl, Or.inr (Or.inl rfl)⟩
    | (refine ⟨?_, Or.inr ?_, Or.inr (Or.inl ?_)⟩ <;> simp)
  rw [if_neg e67] at h
  by_cases e68 : op = 0x5b
  · rw [if_pos e68] at h
    simp only [Option.some.injEq] at h
    subst h
    first
    | exact ⟨rfl, Or.inr rfl, Or.inr (Or.inl rfl)⟩
    | (refine ⟨?_, Or.inr ?_, Or.inr (Or.inl ?_)⟩ <;> simp)
  rw [if_neg e68] at h
  by_cases e69 : op = 0x5c
  · rw [if_pos e69] at h
    simp only [Option.some.injEq] at h
    subst h
    first
    | exact ⟨rfl, Or.inr rfl, Or.inr (Or.inl rfl)⟩
    | (refine ⟨?_, Or.inr ?_, Or.inr (Or.inl ?_)⟩ <;> simp)
  rw [if_neg e69] at h
  by_cases e70 : op = 0x5d
  · rw [if_pos e70] at h
    simp only [Option.some.injEq] at h
    subst h
    first
    | exact ⟨rfl, Or.inr rfl, Or.inr (Or.inl rfl)⟩
    | (refine ⟨?_, Or.inr ?_, Or.inr (Or.inl ?_)⟩ <;> simp)
  rw [if_neg e70] at h
  by_cases e71 : op = 0x5f
  · rw [if_pos e71] at h
    simp only [Option.some.injEq] at h
    subst h
    first
    | exact ⟨rfl, Or.inr rfl, Or.inr (Or.inl rfl)⟩
    | (refine ⟨?_, Or.inr ?_, Or.inr (Or.inl ?_)⟩ <;> simp)
  rw [if_neg e71] at h
  by_cases e72 : op = 0x60
  · rw [if_pos e72] at h
    simp only [Option.some.injEq] at h
    subst h
    first
    | exact ⟨rfl, Or.inr rfl, Or.inr (Or.inl rfl)⟩
    | (refine ⟨?_, Or.inr ?_, Or.inr (Or.inl ?_)⟩ <;> simp)
  rw [if_neg e72] at h
  by_cases e73 : op = 0x61
  · rw [if_pos e73] at h
    simp only [Option.some.injEq] at h
    subst h
    first
    | exact ⟨rfl, Or.inr rfl, Or.inr (Or.inl rfl)⟩
    | (refine ⟨?_, Or.inr ?_, Or.inr (Or.inl ?_)⟩ <;> simp)
  rw [if_neg e73] at h
  by_cases e74 : op = 0x62
  · rw [if_pos e74] at h
    simp only [Option.some.injEq] at h
    subst h
    first
    | exact ⟨rfl, Or.inr rfl, Or.inr (Or.inl rfl)⟩
    | (refine ⟨?_, Or.inr ?_, Or.inr (Or.inl ?_)⟩ <;> simp)
  rw [if_neg e74] at h
  by_cases e75 : op = 0x63
  · rw [if_pos e75] at h
    simp only [Option.some.injEq] at h
    subst h
    first
    | exact ⟨rfl, Or.inr rfl, Or.inr (Or.inl rfl)⟩
    | (refine ⟨?_, Or.inr ?_, Or.inr (Or.inl ?_)⟩ <;> simp)
  rw [if_neg e75] at h
  by_cases e76 : op = 0x64
  · rw [if_pos e76] at h
    simp only [Option.some.injEq] at h
    subst h
    first
    | exact ⟨rfl, Or.inr rfl, Or.inr (Or.inl rfl)⟩
    | (refine ⟨?_, Or.inr ?_, Or.inr (Or.inl ?_)⟩ <;> simp)
  rw [if_neg e76] at h
  by_cases e77 : op = 0x65
  · rw [if_pos e77] at h
    simp only [Option.some.injEq] at h
    subst h
    first
    | exact ⟨rfl, Or.inr rfl, Or.inr (Or.inl rfl)⟩
    | (refine ⟨?_, Or.inr ?_, Or.inr (Or.inl ?_)⟩ <;> simp)
  rw [if_neg e77] at h
  by_cases e78 : op = 0x67
  · rw [if_pos e78] at h
    simp only [Option.some.injEq] at h
    subst h
    first
    | exact ⟨rfl, Or.inr rfl, Or.inr (Or.inl rfl)⟩
    | (refine ⟨?_, Or.inr ?_, Or.inr (Or.inl ?_)⟩ <;> simp)
  rw [if_neg e78] at h
  by_cases e79 : op = 0x68
  · rw [if_pos e79] at h
    simp only [Option.some.injEq] at h
    subst h
    first
    | exact ⟨rfl, Or.inr rfl, Or.inr (Or.inl rfl)⟩
    | (refine ⟨?_, Or.inr ?_, Or.inr (Or.inl ?_)⟩ <;> simp)
  rw [if_neg e79] at h
  by_cases e80 : op = 0x69
  · rw [if_pos e80] at h
    simp only [Option.some.injEq] at h
    subst h
    first
    | exact ⟨rfl, Or.inr rfl, Or.inr (Or.inl rfl)⟩
    | (refine ⟨?_, Or.inr ?_, Or.inr (Or.inl ?_)⟩ <;> simp)
  rw [if_neg e80] at h
  by_cases e81 : op = 0x6a
  · rw [if_pos e81] at h
    simp only [Option.some.injEq] at h
    subst h
    first
    | exact ⟨rfl, Or.inr rfl, Or.inr (Or.inl rfl)⟩
    | (refine ⟨?_, Or.inr ?_, Or.inr (Or.inl ?_)⟩ <;> simp)
  rw [if_neg e81] at h
  by_cases e82 : op = 0x6b
  · rw [if_pos e82] at h
    simp only [Option.some.injEq] at h
    subst h
    first
    | exact ⟨rfl, Or.inr rfl, Or.inr (Or.inl rfl)⟩
    | (refine ⟨?_, Or.inr ?_, Or.inr (Or.inl ?_)⟩ <;> simp)
  rw [if_neg e82] at h
  by_cases e83 : op = 0x6c
  · rw [if_pos e83] at h
    simp only [Option.some.injEq] at h
    subst h
    first
    | exact ⟨rfl, Or.inr rfl, Or.inr (Or.inl rfl)⟩
    | (refine ⟨?_, Or.inr ?_, Or.inr (Or.inl ?_)⟩ <;> simp)
  rw [if_neg e83] at h
  by_cases e84 : op = 0x6d
  · rw [if_pos e84] at h
    simp only [Option.some.injEq] at h
    subst h
    first
    | exact ⟨rfl, Or.inr rfl, Or.inr (Or.inl rfl)⟩
    | (refine ⟨?_, Or.inr ?_, Or.inr (Or.inl ?_)⟩ <;> simp)
  rw [if_neg e84] at h
  by_cases e85 : op = 0x6f
  · rw [if_pos e85] at h
    simp only [Option.some.injEq] at h
    subst h
    first
    | exact ⟨rfl, Or.inr rfl, Or.inr (Or.inl rfl)⟩
    | (refine ⟨?_, Or.inr ?_, Or.inr (Or.inl ?_)⟩ <;> simp)
  rw [if_neg e85] at h
  by_cases e86 : op = 0x78
  · rw [if_pos e86] at h
    simp only [Option.some.injEq] at h
    subst h
    first
    | exact ⟨rfl, Or.inr rfl, Or.inr (Or.inl rfl)⟩
    | (refine ⟨?_, Or.inr ?_, Or.inr (Or.inl ?_)⟩ <;> simp)
  rw [if_neg e86] at h
  by_cases e87 : op = 0x79
  · rw [if_pos e87] at h
    simp only [Option.some.injEq] at h
    subst h
    first
    | exact ⟨rfl, Or.inr rfl, Or.inr (Or.inl rfl)⟩
    | (refine ⟨?_, Or.inr ?_, Or.inr (Or.inl ?_)⟩ <;> simp)
  rw [if_neg e87] at h
  by_cases e88 : op = 0x7a
  · rw [if_pos e88] at h
    simp only [Option.some.injEq] at h
    subst h
    first
    | exact ⟨rfl, Or.inr rfl, Or.inr (Or.inl rfl)⟩
    | (refine ⟨?_, Or.inr ?_, Or.inr (Or.inl ?_)⟩ <;> simp)
  rw [if_neg e88] at h
  by_cases e89 : op = 0x7b
  · rw [if_pos e89] at h
    simp only [Option.some.injEq] at h
    subst h
    first
    | exact ⟨rfl, Or.inr rfl, Or.inr (Or.inl rfl)⟩
    | (refine ⟨?_, Or.inr ?_, Or.inr (Or.inl ?_)⟩ <;> simp)
  rw [if_neg e89] at h
  by_cases e90 : op = 0x7c
  · rw [if_pos e90] at h
    simp only [Option.some.injEq] at h
    subst h
    first
    | exact ⟨rfl, Or.inr rfl, Or.inr (Or.inl rfl)⟩
    | (refine ⟨?_, Or.inr ?_, Or.inr (Or.inl ?_)⟩ <;> simp)
  rw [if_neg e90] at h
  by_cases e91 : op = 0x7d
  · rw [if_pos e91] at h
    simp only [Option.some.injEq] at h
    subst h
    first
    | exact ⟨rfl, Or.inr rfl, Or.inr (Or.inl rfl)⟩
    | (refine ⟨?_, Or.inr ?_, Or.inr (Or.inl ?_)⟩ <;> simp)
  rw [if_neg e91] at h
  by_cases e92 : op = 0x52
  · rw [if_pos e92] at h
    simp only [Option.some.injEq] at h
    subst h
    first
    | exact ⟨rfl, Or.inr rfl, Or.inr (Or.inl rfl)⟩
    | (refine ⟨?_, Or.inr ?_, Or.inr (Or.inl ?_)⟩ <;> simp)
  rw [if_neg e92] at h
  by_cases e93 : op = 0x56
  · rw [if_pos e93] at h
    split at h
    · exact Option.noConfusion h
    · rename_i byte hr
      simp only [Option.some.injEq] at h
      subst h
      first
      | exact ⟨rfl, Or.inr rfl, Or.inr (Or.inl rfl)⟩
      | (refine ⟨?_, Or.inr ?_, Or.inr (Or.inl ?_)⟩ <;> simp)
  rw [if_neg e93] at h
  by_cases e94 : op = 0x5e
  · rw [if_pos e94] at h
    split at h
    · exact Option.noConfusion h
    · rename_i byte hr
      simp only [Option.some.injEq] at h
      subst h
      first
      | exact ⟨rfl, Or.inr rfl, Or.inr (Or.inl rfl)⟩
      | (refine ⟨?_, Or.inr ?_, Or.inr (Or.inl ?_)⟩ <;> simp)
  rw [if_neg e94] at h
  by_cases e95 : op = 0x70
  · rw [if_pos e95] at h
    split at h
    · exact Option.noConfusion h
    · rename_i m1 hw
      obtain ⟨hime, hdis, hen⟩ := wb_ime_frame _ _ _ _ hw
      simp only [Option.some.injEq] at h
      subst h
      exact ⟨by simp [hime], Or.inr (by simp [hdis]), Or.inr (Or.inl (by simp [hen]))⟩
  rw [if_neg e95] at h
  by_cases e96 : op = 0x71
  · rw [if_pos e96] at h
    split at h
    · exact Option.noConfusion h
    · rename_i m1 hw
      obtain ⟨hime, hdis, hen⟩ := wb_ime_frame _ _ _ _ hw
      simp only [Option.some.injEq] at h
      subst h
      exact ⟨by simp [hime], Or.inr (by simp [hdis]), Or.inr (Or.inl (by simp [hen]))⟩
  rw [if_neg e96] at h
  by_cases e97 : op = 0x72
  · rw [if_pos e97] at h
    split at h
    · exact Option.noConfusion h
    · rename_i m1 hw
      obtain ⟨hime, hdis, hen⟩ := wb_ime_frame _ _ _ _ hw
      simp only [Option.some.injEq] at h
      subst h
      exact ⟨by simp [hime], Or.inr (by simp [hdis]), Or.inr (Or.inl (by simp [hen]))⟩
  rw [if_neg e97] at h
  by_cases e98 : op = 0x73
  · rw [if_pos e98] at h
    split at h
    · exact Option.noConfusion h
    · rename_i m1 hw
      obtain ⟨hime, hdis, hen⟩ := wb_ime_frame _ _ _ _ hw
      simp only [Option.some.injEq] at h
      subst h
      exact ⟨by simp [hime], Or.inr (by simp [hdis]), Or.inr (Or.inl (by simp [hen]))⟩
  rw [if_neg e98] at h
  by_cases e99 : op = 0x74
  · rw [if_pos e99] at h
    split at h
    · exact Option.noConfusion h
    · rename_i m1 hw
      obtain ⟨hime, hdis, hen⟩ := wb_ime_frame _ _ _ _ hw
      simp only [Option.some.injEq] at h
      subst h
      exact ⟨by simp [hime], Or.inr (by simp [hdis]), Or.inr (Or.inl (by simp [hen]))⟩
  rw [if_neg e99] at h
  by_cases e100 : op = 0x75
  · rw [if_pos e100] at h
    split at h
    · exact Option.noConfusion h
    · rename_i m1 hw
      obtain ⟨hime, hdis, hen⟩ := wb_ime_frame _ _ _ _ hw
      simp only [Option.some.injEq] at h
      subst h
      exact ⟨by simp [hime], Or.inr (by simp [hdis]), Or.inr (Or.inl (by simp [hen]))⟩
  rw [if_neg e100] at h
  by_cases e101 : op = 0x77
  · rw [if_pos e101] at h
    split at h
    · exact Option.noConfusion h
    · rename_i m1 hw
      obtain ⟨hime, hdis, hen⟩ := wb_ime_frame _ _ _ _ hw
      simp only [Option.some.injEq] at h
      subst h
      exact ⟨by simp [hime], Or.inr (by simp [hdis]), Or.inr (Or.inl (by simp [hen]))⟩
  rw [if_neg e101] at h
  by_cases e102 : op = 0x7e
  · rw [if_pos e102] at h
    split at h
    · exact Option.noConfusion h
    · rename_i byte hr
      simp only [Option.some.injEq] at h
      subst h
      first
      | exact ⟨rfl, Or.inr rfl, Or.inr (Or.inl rfl)⟩
      | (refine ⟨?_, Or.inr ?_, Or.inr (Or.inl ?_)⟩ <;> simp)
  rw [if_neg e102] at h
  exact absurd h (by simp)

/-- Interrupt-state frame of opcode arms 0x80-0xbf. -/
lemma exec_opcode_q2_ime (op : Nat) (m : Mmu) (r : Mmu × Bool)
    (h : exec_opcode_q2 op m = some r) :
    r.1.interrupts.ime = m.interrupts.ime
      ∧ (op = 0xF3 ∨ r.1.interrupts.disable_ime_counter = m.interrupts.disable_ime_counter)
      ∧ (op = 0xD9
          ∨ r.1.interrupts.enable_ime_counter = m.interrupts.enable_ime_counter
          ∨ r.1.interrupts.enable_ime_counter = 2) := by
  unfold exec_opcode_q2 at h
  by_cases e103 : op = 0x80
  · rw [if_pos e103] at h
    simp only [Option.some.injEq] at h
    subst h
    first
    | exact ⟨rfl, Or.inr rfl, Or.inr (Or.inl rfl)⟩
    | (refine ⟨?_, Or.inr ?_, Or.inr (Or.inl ?_)⟩ <;> simp)
  rw [if_neg e103] at h
  by_cases e104 : op = 0x81
  · rw [if_pos e104] at h
    simp only [Option.some.injEq] at h
    subst h
    first
    | exact ⟨rfl, Or.inr rfl, Or.inr (Or.inl rfl)⟩
    | (refine ⟨?_, Or.inr ?_, Or.inr (Or.inl ?_)⟩ <;> simp)
  rw [if_neg e104] at h
  by_cases e105 : op = 0x82
  · rw [if_pos e105] at h
    simp only [Option.some.injEq] at h
    subst h
    first
    | exact ⟨rfl, Or.inr rfl, Or.inr (Or.inl rfl)⟩
    | (refine ⟨?_, Or.inr ?_, Or.inr (Or.inl ?_)⟩ <;> simp)
  rw [if_neg e105] at h
  by_cases e106 : op = 0x83
  · rw [if_pos e106] at h
    simp only [Option.some.injEq] at h
    subst h
    first
    | exact ⟨rfl, Or.inr rfl, Or.inr (Or.inl rfl)⟩
    | (refine ⟨?_, Or.inr ?_, Or.inr (Or.inl ?_)⟩ <;> simp)
  rw [if_neg e106] at h
  by_cases e107 : op = 0x84
  · rw [if_pos e107] at h
    simp only [Option.some.injEq] at h
    subst h
    first
    | exact ⟨rfl, Or.inr rfl, Or.inr (Or.inl rfl)⟩
    | (refine ⟨?_, Or.inr ?_, Or.inr (Or.inl ?_)⟩ <;> simp)
  rw [if_neg e107] at h
  by_cases e108 : op = 0x85
  · rw [if_pos e108] at h
    simp only [Option.some.injEq] at h
    subst h
    first
    | exact ⟨rfl, Or.inr rfl, Or.inr (Or.inl rfl)⟩
    | (refine ⟨?_, Or.inr ?_, Or.inr (Or.inl ?_)⟩ <;> simp)
  rw [if_neg e108] at h
  by_cases e109 : op = 0x86
  · rw [if_pos e109] at h
    split at h
    · exact Option.noConfusion h
    · rename_i byte hr
      simp only [Option.some.injEq] at h
      subst h
      first
      | exact ⟨rfl, Or.inr rfl, Or.inr (Or.inl rfl)⟩
      | (refine ⟨?_, Or.inr ?_, Or.inr (Or.inl ?_)⟩ <;> simp)
  rw [if_neg e109] at h
  by_cases e110 : op = 0x87
  · rw [if_pos e110] at h
    simp only [Option.some.injEq] at h
    subst h
    first
    | exact ⟨rfl, Or.inr rfl, Or.inr (Or.inl rfl)⟩
    | (refine ⟨?_, Or.inr ?_, Or.inr (Or.inl ?_)⟩ <;> simp)
  rw [if_neg e110] at h
  by_cases e111 : op = 0x88
  · rw [if_pos e111] at h
    simp only [Option.some.injEq] at h
    subst h
    first
    | exact ⟨rfl, Or.inr rfl, Or.inr (Or.inl rfl)⟩
    | (refine ⟨?_, Or.inr ?_, Or.inr (Or.inl ?_)⟩ <;> simp)
  rw [if_neg e111] at h
  by_cases e112 : op = 0x89
  · rw [if_pos e112] at h
    simp only [Option.some.injEq] at h
    subst h
    first
    | exact ⟨rfl, Or.inr rfl, Or.inr (Or.inl rfl)⟩
    | (refine ⟨?_, Or.inr ?_, Or.inr (Or.inl ?_)⟩ <;> simp)
  rw [if_neg e112] at h
  by_cases e113 : op = 0x8a
  · rw [if_pos e113] at h
    simp only [Option.some.injEq] at h
    subst h
    first
    | exact ⟨rfl, Or.inr rfl, Or.inr (Or.inl rfl)⟩
    | (refine ⟨?_, Or.inr ?_, Or.inr (Or.inl ?_)⟩ <;> simp)
  rw [if_neg e113] at h
  by_cases e114 : op = 0x8b
  · rw [if_pos e114] at h
    simp only [Option.some.injEq] at h
    subst h
    first
    | exact ⟨rfl, Or.inr rfl, Or.inr (Or.inl rfl)⟩
    | (refine ⟨?_, Or.inr ?_, Or.inr (Or.inl ?_)⟩ <;> simp)
  rw [if_neg e114] at h
  by_cases e115 : op = 0x8c
  · rw [if_pos e115] at h
    simp only [Option.some.injEq] at h
    subst h
    first
    | exact ⟨rfl, Or.inr rfl, Or.inr (Or.inl rfl)⟩
    | (refine ⟨?_, Or.inr ?_, Or.inr (Or.inl ?_)⟩ <;> simp)
  rw [if_neg e115] at h
  by_cases e116 : op = 0x8d
  · rw [if_pos e116] at h
    simp only [Option.some.injEq] at h
    subst h
    first
    | exact ⟨rfl, Or.inr rfl, Or.inr (Or.inl rfl)⟩
    | (refine ⟨?_, Or.inr ?_, Or.inr (Or.inl ?_)⟩ <;> simp)
  rw [if_neg e116] at h
  by_cases e117 : op = 0x8e
  · rw [if_pos e117] at h
    split at h
    · exact Option.noConfusion h
    · rename_i byte hr
      simp only [Option.some.injEq] at h
      subst h
      first
      | exact ⟨rfl, Or.inr rfl, Or.inr (Or.inl rfl)⟩
      | (refine ⟨?_, Or.inr ?_, Or.inr (Or.inl ?_)⟩ <;> simp)
  rw [if_neg e117] at h
  by_cases e118 : op = 0x8f
  · rw [if_pos e118] at h
    simp only [Option.some.injEq] at h
    subst h
    first
    | exact ⟨rfl, Or.inr rfl, Or.inr (Or.inl rfl)⟩
    | (refine ⟨?_, Or.inr ?_, Or.inr (Or.inl ?_)⟩ <;> simp)
  rw [if_neg e118] at h
  by_cases e119 : op = 0x90
  · rw [if_pos e119] at h
    simp only [Option.some.injEq] at h
    subst h
    first
    | exact ⟨rfl, Or.inr rfl, Or.inr (Or.inl rfl)⟩
    | (refine ⟨?_, Or.inr ?_, Or.inr (Or.inl ?_)⟩ <;> simp)
  rw [if_neg e119] at h
  by_cases e120 : op = 0x91
  · rw [if_pos e120] at h
    simp only [Option.some.injEq] at h
    subst h
    first
    | exact ⟨rfl, Or.inr rfl, Or.inr (Or.inl rfl)⟩
    | (refine ⟨?_, Or.inr ?_, Or.inr (Or.inl ?_)⟩ <;> simp)
  rw [if_neg e120] at h
  by_cases e121 : op = 0x92
  · rw [if_pos e121] at h
    simp only [Option.some.injEq] at h
    subst h
    first
    | exact ⟨rfl, Or.inr rfl, Or.inr (Or.inl rfl)⟩
    | (refine ⟨?_, Or.inr ?_, Or.inr (Or.inl ?_)⟩ <;> simp)
  rw [if_neg e121] at h
  by_cases e122 : op = 0x93
  · rw [if_pos e122] at h
    simp only [Option.some.injEq] at h
    subst h
    first
    | exact ⟨rfl, Or.inr rfl, Or.inr (Or.inl rfl)⟩
    | (refine ⟨?_, Or.inr ?_, Or.inr (Or.inl ?_)⟩ <;> simp)
  rw [if_neg e122] at h
  by_cases e123 : op = 0x94
  · rw [if_pos e123] at h
    simp only [Option.some.injEq] at h
    subst h
    first
    | exact ⟨rfl, Or.inr rfl, Or.inr (Or.inl rfl)⟩
    | (refine ⟨?_, Or.inr ?_, Or.inr (Or.inl ?_)⟩ <;> simp)
  rw [if_neg e123] at h
  by_cases e124 : op = 0x95
  · rw [if_pos e124] at h
    simp only [Option.some.injEq] at h
    subst h
    first
    | exact ⟨rfl, Or.inr rfl, Or.inr (Or.inl rfl)⟩
    | (refine ⟨?_, Or.inr ?_, Or.inr (Or.inl ?_)⟩ <;> simp)
  rw [if_neg e124] at h
  by_cases e125 : op = 0x96
  · rw [if_pos e125] at h
    split at h
    · exact Option.noConfusion h
    · rename_i byte hr
      simp only [Option.some.injEq] at h
      subst h
      first
      | exact ⟨rfl, Or.inr rfl, Or.inr (Or.inl rfl)⟩
      | (refine ⟨?_, Or.inr ?_, Or.inr (Or.inl ?_)⟩ <;> simp)
  rw [if_neg e125] at h
  by_cases e126 : op = 0x97
  · rw [if_pos e126] at h
    simp only [Option.some.injEq] at h
    subst h
    first
    | exact ⟨rfl, Or.inr rfl, Or.inr (Or.inl rfl)⟩
    | (refine ⟨?_, Or.inr ?_, Or.inr (Or.inl ?_)⟩ <;> simp)
  rw [if_neg e126] at h
  by_cases e127 : op = 0x98
  · rw [if_pos e127] at h
    simp only [Option.some.injEq] at h
    subst h
    first
    | exact ⟨rfl, Or.inr rfl, Or.inr (Or.inl rfl)⟩
    | (refine ⟨?_, Or.inr ?_, Or.inr (Or.inl ?_)⟩ <;> simp)
  rw [if_neg e127] at h
  by_cases e128 : op = 0x99
  · rw [if_pos e128] at h
    simp only [Option.some.injEq] at h
    subst h
    first
    | exact ⟨rfl, Or.inr rfl, Or.inr (Or.inl rfl)⟩
    | (refine ⟨?_, Or.inr ?_, Or.inr (Or.inl ?_)⟩ <;> simp)
  rw [if_neg e128] at h
  by_cases e129 : op = 0x9a
  · rw [if_pos e129] at h
    simp only [Option.some.injEq] at h
    subst h
    first
    | exact ⟨rfl, Or.inr rfl, Or.inr (Or.inl rfl)⟩
    | (refine ⟨?_, Or.inr ?_, Or.inr (Or.inl ?_)⟩ <;> simp)
  rw [if_neg e129] at h
  by_cases e130 : op = 0x9b
  · rw [if_pos e130] at h
    simp only [Option.some.injEq] at h
    subst h
    first
    | exact ⟨rfl, Or.inr rfl, Or.inr (Or.inl rfl)⟩
    | (refine ⟨?_, Or.inr ?_, Or.inr (Or.inl ?_)⟩ <;> simp)
  rw [if_neg e130] at h
  by_cases e131 : op = 0x9c
  · rw [if_pos e131] at h
    simp only [Option.some.injEq] at h
    subst h
    first
    | exact ⟨rfl, Or.inr rfl, Or.inr (Or.inl rfl)⟩
    | (refine ⟨?_, Or.inr ?_, Or.inr (Or.inl ?_)⟩ <;> simp)
  rw [if_neg e131] at h
  by_cases e132 : op = 0x9d
  · rw [if_pos e132] at h
    simp only [Option.some.injEq] at h
    subst h
    first
    | exact ⟨rfl, Or.inr rfl, Or.inr (Or.inl rfl)⟩
    | (refine ⟨?_, Or.inr ?_, Or.inr (Or.inl ?_)⟩ <;> simp)
  rw [if_neg e132] at h
  by_cases e133 : op = 0x9e
  · rw [if_pos e133] at h
    split at h
    · exact Option.noConfusion h
    · rename_i byte hr
      simp only [Option.some.injEq] at h
      subst h
      first
      | exact ⟨rfl, Or.inr rfl, Or.inr (Or.inl rfl)⟩
      | (refine ⟨?_, Or.inr ?_, Or.inr (Or.inl ?_)⟩ <;> simp)
  rw [if_neg e133] at h
  by_cases e134 : op = 0x9f
  · rw [if_pos e134] at h
    simp only [Option.some.injEq] at h
    subst h
    first
    | exact ⟨rfl, Or.inr rfl, Or.inr (Or.inl rfl)⟩
    | (refine ⟨?_, Or.inr ?_, Or.inr (Or.inl ?_)⟩ <;> simp)
  rw [if_neg e134] at h
  by_cases e135 : op = 0xa1
  · rw [if_pos e135] at h
    simp only [Option.some.injEq] at h
    subst h
    first
    | exact ⟨rfl, Or.inr rfl, Or.inr (Or.inl rfl)⟩
    | (refine ⟨?_, Or.inr ?_, Or.inr (Or.inl ?_)⟩ <;> simp)
  rw [if_neg e135] at h
  by_cases e136 : op = 0xa7
  · rw [if_pos e136] at h
    simp only [Option.some.injEq] at h
    subst h
    first
    | exact ⟨rfl, Or.inr rfl, Or.inr (Or.inl rfl)⟩
    | (refine ⟨?_, Or.inr ?_, Or.inr (Or.inl ?_)⟩ <;> simp)
  rw [if_neg e136] at h
  by_cases e137 : op = 0xa8
  · rw [if_pos e137] at h
    simp only [Option.some.injEq] at h
    subst h
    first
    | exact ⟨rfl, Or.inr rfl, Or.inr (Or.inl rfl)⟩
    | (refine ⟨?_, Or.inr ?_, Or.inr (Or.inl ?_)⟩ <;> simp)
  rw [if_neg e137] at h
  by_cases e138 : op = 0xa9
  · rw [if_pos e138] at h
    simp only [Option.some.injEq] at h
    subst h
    first
    | exact ⟨rfl, Or.inr rfl, Or.inr (Or.inl rfl)⟩
    | (refine ⟨?_, Or.inr ?_, Or.inr (Or.inl ?_)⟩ <;> simp)
  rw [if_neg e138] at h
  by_cases e139 : op = 0xaa
  · rw [if_pos e139] at h
    simp only [Option.some.injEq] at h
    subst h
    first
    | exact ⟨rfl, Or.inr rfl, Or.inr (Or.inl rfl)⟩
    | (refine ⟨?_, Or.inr ?_, Or.inr (Or.inl ?_)⟩ <;> simp)
  rw [if_neg e139] at h
  by_cases e140 : op = 0xab
  · rw [if_pos e140] at h
    simp only [Option.some.injEq] at h
    subst h
    first
    | exact ⟨rfl, Or.inr rfl, Or.inr (Or.inl rfl)⟩
    | (refine ⟨?_, Or.inr ?_, Or.inr (Or.inl ?_)⟩ <;> simp)
  rw [if_neg e140] at h
  by_cases e141 : op = 0xac
  · rw [if_pos e141] at h
    simp only [Option.some.injEq] at h
    subst h
    first
    | exact ⟨rfl, Or.inr rfl, Or.inr (Or.inl rfl)⟩
    | (refine ⟨?_, Or.inr ?_, Or.inr (Or.inl ?_)⟩ <;> simp)
  rw [if_neg e141] at h
  by_cases e142 : op = 0xad
  · rw [if_pos e142] at h
    simp only [Option.some.injEq] at h
    subst h
    first
    | exact ⟨rfl, Or.inr rfl, Or.inr (Or.inl rfl)⟩
    | (refine ⟨?_, Or.inr ?_, Or.inr (Or.inl ?_)⟩ <;> simp)
  rw [if_neg e142] at h
  by_cases e143 : op = 0xae
  · rw [if_pos e143] at h
    split at h
    · exact Option.noConfusion h
    · rename_i byte hr
      simp only [Option.some.injEq] at h
      subst h
      first
      | exact ⟨rfl, Or.inr rfl, Or.inr (Or.inl rfl)⟩
      | (refine ⟨?_, Or.inr ?_, Or.inr (Or.inl ?_)⟩ <;> simp)
  rw [if_neg e143] at h
  by_cases e144 : op = 0xaf
  · rw [if_pos e144] at h
    simp only [Option.some.injEq] at h
    subst h
    first
    | exact ⟨rfl, Or.inr rfl, Or.inr (Or.inl rfl)⟩
    | (refine ⟨?_, Or.inr ?_, Or.inr (Or.inl ?_)⟩ <;> simp)
  rw [if_neg e144] at h
  by_cases e145 : op = 0xb0
  · rw [if_pos e145] at h
    simp only [Option.some.injEq] at h
    subst h
    first
    | exact ⟨rfl, Or.inr rfl, Or.inr (Or.inl rfl)⟩
    | (refine ⟨?_, Or.inr ?_, Or.inr (Or.inl ?_)⟩ <;> simp)
  rw [if_neg e145] at h
  by_cases e146 : op = 0xb1
  · rw [if_pos e146] at h
    simp only [Option.some.injEq] at h
    subst h
    first
    | exact ⟨rfl, Or.inr rfl, Or.inr (Or.inl rfl)⟩
    | (refine ⟨?_, Or.inr ?_, Or.inr (Or.inl ?_)⟩ <;> simp)
  rw [if_neg e146] at h
  by_cases e147 : op = 0xb2
  · rw [if_pos e147] at h
    simp only [Option.some.injEq] at h
    subst h
    first
    | exact ⟨rfl, Or.inr rfl, Or.inr (Or.inl rfl)⟩
    | (refine ⟨?_, Or.inr ?_, Or.inr (Or.inl ?_)⟩ <;> simp)
  rw [if_neg e147] at h
  by_cases e148 : op = 0xb3
  · rw [if_pos e148] at h
    simp only [Option.some.injEq] at h
    subst h
    first
    | exact ⟨rfl, Or.inr rfl, Or.inr (Or.inl rfl)⟩
    | (refine ⟨?_, Or.inr ?_, Or.inr (Or.inl ?_)⟩ <;> simp)
  rw [if_neg e148] at h
  by_cases e149 : op = 0xb4
  · rw [if_pos e149] at h
    simp only [Option.some.injEq] at h
    subst h
    first
    | exact ⟨rfl, Or.inr rfl, Or.inr (Or.inl rfl)⟩
    | (refine ⟨?_, Or.inr ?_, Or.inr (Or.inl ?_)⟩ <;> simp)
  rw [if_neg e149] at h
  by_cases e150 : op = 0xb5
  · rw [if_pos e150] at h
    simp only [Option.some.injEq] at h
    subst h
    first
    | exact ⟨rfl, Or.inr rfl, Or.inr (Or.inl rfl)⟩
    | (refine ⟨?_, Or.inr ?_, Or.inr (Or.inl ?_)⟩ <;> simp)
  rw [if_neg e150] at h
  by_cases e151 : op = 0xb6
  · rw [if_pos e151] at h
    split at h
    · exact Option.noConfusion h
    · rename_i byte hr
      simp only [Option.some.injEq] at h
      subst h
      first
      | exact ⟨rfl, Or.inr rfl, Or.inr (Or.inl rfl)⟩
      | (refine ⟨?_, Or.inr ?_, Or.inr (Or.inl ?_)⟩ <;> simp)
  rw [if_neg e151] at h
  by_cases e152 : op = 0xb7
  · rw [if_pos e152] at h
    simp only [Option.some.injEq] at h
    subst h
    first
    | exact ⟨rfl, Or.inr rfl, Or.inr (Or.inl rfl)⟩
    | (refine ⟨?_, Or.inr ?_, Or.inr (Or.inl ?_)⟩ <;> simp)
  rw [if_neg e152] at h
  by_cases e153 : op = 0xb8
  · rw [if_pos e153] at h
    simp only [Option.some.injEq] at h
    subst h
    first
    | exact ⟨rfl, Or.inr rfl, Or.inr (Or.inl rfl)⟩
    | (refine ⟨?_, Or.inr ?_, Or.inr (Or.inl ?_)⟩ <;> simp)
  rw [if_neg e153] at h
  by_cases e154 : op = 0xb9
  · rw [if_pos e154] at h
    simp only [Option.some.injEq] at h
    subst h
    first
    | exact ⟨rfl, Or.inr rfl, Or.inr (Or.inl rfl)⟩
    | (refine ⟨?_, Or.inr ?_, Or.inr (Or.inl ?_)⟩ <;> simp)
  rw [if_neg e154] at h
  by_cases e155 : op = 0xba
  · rw [if_pos e155] at h
    simp only [Option.some.injEq] at h
    subst h
    first
    | exact ⟨rfl, Or.inr rfl, Or.inr (Or.inl rfl)⟩
    | (refine ⟨?_, Or.inr ?_, Or.inr (Or.inl ?_)⟩ <;> simp)
  rw [if_neg e155] at h
  by_cases e156 : op = 0xbb
  · rw [if_pos e156] at h
    simp only [Option.some.injEq] at h
    subst h
    first
    | exact ⟨rfl, Or.inr rfl, Or.inr (Or.inl rfl)⟩
    | (refine ⟨?_, Or.inr ?_, Or.inr (Or.inl ?_)⟩ <;> simp)
  rw [if_neg e156] at h
  by_cases e157 : op = 0xbc
  · rw [if_pos e157] at h
    simp only [Option.some.injEq] at h
    subst h
    first
    | exact ⟨rfl, Or.inr rfl, Or.inr (Or.inl rfl)⟩
    | (refine ⟨?_, Or.inr ?_, Or.inr (Or.inl ?_)⟩ <;> simp)
  rw [if_neg e157] at h
  by_cases e158 : op = 0xbd
  · rw [if_pos e158] at h
    simp only [Option.some.injEq] at h
    subst h
    first
    | exact ⟨rfl, Or.inr rfl, Or.inr (Or.inl rfl)⟩
    | (refine ⟨?_, Or.inr ?_, Or.inr (Or.inl ?_)⟩ <;> simp)
  rw [if_neg e158] at h
  by_cases e159 : op = 0xbe
  · rw [if_pos e159] at h
    split at h
    · exact Option.noConfusion h
    · rename_i byte hr
      simp only [Option.some.injEq] at h
      subst h
      first
      | exact ⟨rfl, Or.inr rfl, Or.inr (Or.inl rfl)⟩
      | (refine ⟨?_, Or.inr ?_, Or.inr (Or.inl ?_)⟩ <;> simp)
  rw [if_neg e159] at h
  by_cases e160 : op = 0xbf
  · rw [if_pos e160] at h
    simp only [Option.some.injEq] at h
    subst h
    first
    | exact ⟨rfl, Or.inr rfl, Or.inr (Or.inl rfl)⟩
    | (refine ⟨?_, Or.inr ?_, Or.inr (Or.inl ?_)⟩ <;> simp)
  rw [if_neg e160] at h
  exact absurd h (by simp)

/-- Interrupt-state frame of opcode arms 0xc0-0xff. -/
lemma exec_opcode_q3_ime (op : Nat) (m : Mmu) (r : Mmu × Bool)
    (h : exec_opcode_q3 op m = some r) :
    r.1.interrupts.ime = m.interrupts.ime
      ∧ (op = 0xF3 ∨ r.1.interrupts.disable_ime_counter = m.interrupts.disable_ime_counter)
      ∧ (op = 0xD9
          ∨ r.1.interrupts.enable_ime_counter = m.interrupts.enable_ime_counter
          ∨ r.1.interrupts.enable_ime_counter = 2) := by
  unfold exec_opcode_q3 at h
  by_cases e161 : op = 0xc0
  · rw [if_pos e161] at h
    split at h
    · split at h
      · exact Option.noConfusion h
      · rename_i w m1 hp
        obtain ⟨-, rfl⟩ := (pop_stack_eq_some _ _ _).mp hp
        simp only [Option.some.injEq] at h
        subst h
        exact ⟨rfl, Or.inr rfl, Or.inr (Or.inl rfl)⟩
    · simp only [Option.some.injEq] at h
      subst h
      exact ⟨rfl, Or.inr rfl, Or.inr (Or.inl rfl)⟩
  rw [if_neg e161] at h
  by_cases e162 : op = 0xc1
  · rw [if_pos e162] at h
    split at h
    · exact Option.noConfusion h
    · rename_i w m1 hp
      obtain ⟨-, rfl⟩ := (pop_stack_eq_some _ _ _).mp hp
      simp only [Option.some.injEq] at h
      subst h
      first
      | exact ⟨rfl, Or.inr rfl, Or.inr (Or.inl rfl)⟩
      | (refine ⟨?_, Or.inr ?_, Or.inr (Or.inl ?_)⟩ <;> simp)
  rw [if_neg e162] at h
  by_cases e163 : op = 0xc2
  · rw [if_pos e163] at h
    split at h
    · exact Option.noConfusion h
    · rename_i w m1 hf
      obtain ⟨-, rfl⟩ := (get_next_word_eq_some _ _ _).mp hf
      split at h <;>
        (simp only [Option.some.injEq] at h; subst h;
         first
         | exact ⟨rfl, Or.inr rfl, Or.inr (Or.inl rfl)⟩
         | (refine ⟨?_, Or.inr ?_, Or.inr (Or.inl ?_)⟩ <;> simp))
  rw [if_neg e163] at h
  by_cases e164 : op = 0xc3
  · rw [if_pos e164] at h
    split at h
    · exact Option.noConfusion h
    · rename_i w m1 hf
      obtain ⟨-, rfl⟩ := (get_next_word_eq_some _ _ _).mp hf
      simp only [Option.some.injEq] at h
      subst h
      first
      | exact ⟨rfl, Or.inr rfl, Or.inr (Or.inl rfl)⟩
      | (refine ⟨?_, Or.inr ?_, Or.inr (Or.inl ?_)⟩ <;> simp)
  rw [if_neg e164] at h
  by_cases e165 : op = 0xc5
  · rw [if_pos e165] at h
    split at h
    · exact Option.noConfusion h
    · rename_i m1 hw
      obtain ⟨hime, hdis, hen⟩ := push_stack_ime_frame _ _ _ hw
      simp only [Option.some.injEq] at h
      subst h
      exact ⟨by simp [hime], Or.inr (by simp [hdis]), Or.inr (Or.inl (by simp [hen]))⟩
  rw [if_neg e165] at h
  by_cases e166 : op = 0xc6
  · rw [if_pos e166] at h
    split at h
    · exact Option.noConfusion h
    · rename_i d8 m1 hf
      obtain ⟨-, rfl⟩ := (get_next_byte_eq_some _ _ _).mp hf
      simp only [Option.some.injEq] at h
      subst h
      first
      | exact ⟨rfl, Or.inr rfl, Or.inr (Or.inl rfl)⟩
      | (refine ⟨?_, Or.inr ?_, Or.inr (Or.inl ?_)⟩ <;> simp)
  rw [if_neg e166] at h
  by_cases e167 : op = 0xc8
  · rw [if_pos e167] at h
    split at h
    · split at h
      · exact Option.noConfusion h
      · rename_i w m1 hp
        obtain ⟨-, rfl⟩ := (pop_stack_eq_some _ _ _).mp hp
        simp only [Option.some.injEq] at h
        subst h
        exact ⟨rfl, Or.inr rfl, Or.inr (Or.inl rfl)⟩
    · simp only [Option.some.injEq] at h
      subst h
      exact ⟨rfl, Or.inr rfl, Or.inr (Or.inl rfl)⟩
  rw [if_neg e167] at h
  by_cases e168 : op = 0xc9
  · rw [if_pos e168] at h
    split at h
    · exact Option.noConfusion h
    · rename_i w m1 hp
      obtain ⟨-, rfl⟩ := (pop_stack_eq_some _ _ _).mp hp
      simp only [Option.some.injEq] at h
      subst h
      first
      | exact ⟨rfl, Or.inr rfl, Or.inr (Or.inl rfl)⟩
      | (refine ⟨?_, Or.inr ?_, Or.inr (Or.inl ?_)⟩ <;> simp)
  rw [if_neg e168] at h
  by_cases e169 : op = 0xca
  · rw [if_pos e169] at h
    split at h
    · exact Option.noConfusion h
    · rename_i w m1 hf
      obtain ⟨-, rfl⟩ := (get_next_word_eq_some _ _ _).mp hf
      split at h <;>
        (simp only [Option.some.injEq] at h; subst h;
         first
         | exact ⟨rfl, Or.inr rfl, Or.inr (Or.inl rfl)⟩
         | (refine ⟨?_, Or.inr ?_, Or.inr (Or.inl ?_)⟩ <;> simp))
  rw [if_neg e169] at h
  by_cases e170 : op = 0xcd
  · rw [if_pos e170] at h
    split at h
    · exact Option.noConfusion h
    · rename_i w m1 hf
      split at h
      · exact Option.noConfusion h
      · rename_i m2 hw
        obtain ⟨hime, hdis, hen⟩ := push_stack_ime_frame _ _ _ hw
        obtain ⟨-, rfl⟩ := (get_next_word_eq_some _ _ _).mp hf
        simp only [Option.some.injEq] at h
        subst h
        exact ⟨by simp [hime], Or.inr (by simp [hdis]), Or.inr (Or.inl (by simp [hen]))⟩
  rw [if_neg e170] at h
  by_cases e171 : op = 0xce
  · rw [if_pos e171] at h
    split at h
    · exact Option.noConfusion h
    · rename_i d8 m1 hf
      obtain ⟨-, rfl⟩ := (get_next_byte_eq_some _ _ _).mp hf
      simp only [Option.some.injEq] at h
      subst h
      first
      | exact ⟨rfl, Or.inr rfl, Or.inr (Or.inl rfl)⟩
      | (refine ⟨?_, Or.inr ?_, Or.inr (Or.inl ?_)⟩ <;> simp)
  rw [if_neg e171] at h
  by_cases e172 : op = 0xd0
  · rw [if_pos e172] at h
    split at h
    · split at h
      · exact Option.noConfusion h
      · rename_i w m1 hp
        obtain ⟨-, rfl⟩ := (pop_stack_eq_some _ _ _).mp hp
        simp only [Option.some.injEq] at h
        subst h
        exact ⟨rfl, Or.inr rfl, Or.inr (Or.inl rfl)⟩
    · simp only [Option.some.injEq] at h
      subst h
      exact ⟨rfl, Or.inr rfl, Or.inr (Or.inl rfl)⟩
  rw [if_neg e172] at h
  by_cases e173 : op = 0xd1
  · rw [if_pos e173] at h
    split at h
    · exact Option.noConfusion h
    · rename_i w m1 hp
      obtain ⟨-, rfl⟩ := (pop_stack_eq_some _ _ _).mp hp
      simp only [Option.some.injEq] at h
      subst h
      first
      | exact ⟨rfl, Or.inr rfl, Or.inr (Or.inl rfl)⟩
      | (refine ⟨?_, Or.inr ?_, Or.inr (Or.inl ?_)⟩ <;> simp)
  rw [if_neg e173] at h
  by_cases e174 : op = 0xd5
  · rw [if_pos e174] at h
    split at h
    · exact Option.noConfusion h
    · rename_i m1 hw
      obtain ⟨hime, hdis, hen⟩ := push_stack_ime_frame _ _ _ hw
      simp only [Option.some.injEq] at h
      subst h
      exact ⟨by simp [hime], Or.inr (by simp [hdis]), Or.inr (Or.inl (by simp [hen]))⟩
  rw [if_neg e174] at h
  by_cases e175 : op = 0xd6
  · rw [if_pos e175] at h
    split at h
    · exact Option.noConfusion h
    · rename_i d8 m1 hf
      obtain ⟨-, rfl⟩ := (get_next_byte_eq_some _ _ _).mp hf
      simp only [Option.some.injEq] at h
      subst h
      first
      | exact ⟨rfl, Or.inr rfl, Or.inr (Or.inl rfl)⟩
      | (refine ⟨?_, Or.inr ?_, Or.inr (Or.inl ?_)⟩ <;> simp)
  rw [if_neg e175] at h
  by_cases e176 : op = 0xd8
  · rw [if_pos e176] at h
    split at h
    · split at h
      · exact Option.noConfusion h
      · rename_i w m1 hp
        obtain ⟨-, rfl⟩ := (pop_stack_eq_some _ _ _).mp hp
        simp only [Option.some.injEq] at h
        subst h
        exact ⟨rfl, Or.inr rfl, Or.inr (Or.inl rfl)⟩
    · simp only [Option.some.injEq] at h
      subst h
      exact ⟨rfl, Or.inr rfl, Or.inr (Or.inl rfl)⟩
  rw [if_neg e176] at h
  by_cases e177 : op = 0xd9
  · rw [if_pos e177] at h
    split at h
    · exact Option.noConfusion h
    · rename_i w m1 hp
      obtain ⟨-, rfl⟩ := (pop_stack_eq_some _ _ _).mp hp
      simp only [Option.some.injEq] at h
      subst h
      exact ⟨by simp [Interrupts.enable_ime], Or.inr (by simp [Interrupts.enable_ime]), Or.inl e177⟩
  rw [if_neg e177] at h
  by_cases e178 : op = 0xe0
  · rw [if_pos e178] at h
    split at h
    · exact Option.noConfusion h
    · rename_i d8 m1 hf
      split at h
      · exact Option.noConfusion h
      · rename_i m2 hw
        obtain ⟨hime, hdis, hen⟩ := wb_ime_frame _ _ _ _ hw
        obtain ⟨-, rfl⟩ := (get_next_byte_eq_some _ _ _).mp hf
        simp only [Option.some.injEq] at h
        subst h
        exact ⟨by simp [hime], Or.inr (by simp [hdis]), Or.inr (Or.inl (by simp [hen]))⟩
  rw [if_neg e178] at h
  by_cases e179 : op = 0xe1
  · rw [if_pos e179] at h
    split at h
    · exact Option.noConfusion h
    · rename_i w m1 hp
      obtain ⟨-, rfl⟩ := (pop_stack_eq_some _ _ _).mp hp
      simp only [Option.some.injEq] at h
      subst h
      first
      | exact ⟨rfl, Or.inr rfl, Or.inr (Or.inl rfl)⟩
      | (refine ⟨?_, Or.inr ?_, Or.inr (Or.inl ?_)⟩ <;> simp)
  rw [if_neg e179] at h
  by_cases e180 : op = 0xe2
  · rw [if_pos e180] at h
    split at h
    · exact Option.noConfusion h
    · rename_i m1 hw
      obtain ⟨hime, hdis, hen⟩ := wb_ime_frame _ _ _ _ hw
      simp only [Option.some.injEq] at h
      subst h
      exact ⟨by simp [hime], Or.inr (by simp [hdis]), Or.inr (Or.inl (by simp [hen]))⟩
  rw [if_neg e180] at h
  by_cases e181 : op = 0xe5
  · rw [if_pos e181] at h
    split at h
    · exact Option.noConfusion h
    · rename_i m1 hw
      obtain ⟨hime, hdis, hen⟩ := push_stack_ime_frame _ _ _ hw
      simp only [Option.some.injEq] at h
      subst h
      exact ⟨by simp [hime], Or.inr (by simp [hdis]), Or.inr (Or.inl (by simp [hen]))⟩
  rw [if_neg e181] at h
  by_cases e182 : op = 0xe6
  · rw [if_pos e182] at h
    split at h
    · exact Option.noConfusion h
    · rename_i d8 m1 hf
      obtain ⟨-, rfl⟩ := (get_next_byte_eq_some _ _ _).mp hf
      simp only [Option.some.injEq] at h
      subst h
      first
      | exact ⟨rfl, Or.inr rfl, Or.inr (Or.inl rfl)⟩
      | (refine ⟨?_, Or.inr ?_, Or.inr (Or.inl ?_)⟩ <;> simp)
  rw [if_neg e182] at h
  by_cases e183 : op = 0xe9
  · rw [if_pos e183] at h
    simp only [Option.some.injEq] at h
    subst h
    first
    | exact ⟨rfl, Or.inr rfl, Or.inr (Or.inl rfl)⟩
    | (refine ⟨?_, Or.inr ?_, Or.inr (Or.inl ?_)⟩ <;> simp)
  rw [if_neg e183] at h
  by_cases e184 : op = 0xea
  · rw [if_pos e184] at h
    split at h
    · exact Option.noConfusion h
    · rename_i w m1 hf
      split at h
      · exact Option.noConfusion h
      · rename_i m2 hw
        obtain ⟨hime, hdis, hen⟩ := wb_ime_frame _ _ _ _ hw
        obtain ⟨-, rfl⟩ := (get_next_word_eq_some _ _ _).mp hf
        simp only [Option.some.injEq] at h
        subst h
        exact ⟨by simp [hime], Or.inr (by simp [hdis]), Or.inr (Or.inl (by simp [hen]))⟩
  rw [if_neg e184] at h
  by_cases e185 : op = 0xee
  · rw [if_pos e185] at h
    split at h
    · exact Option.noConfusion h
    · rename_i d8 m1 hf
      obtain ⟨-, rfl⟩ := (get_next_byte_eq_some _ _ _).mp hf
      simp only [Option.some.injEq] at h
      subst h
      first
      | exact ⟨rfl, Or.inr rfl, Or.inr (Or.inl rfl)⟩
      | (refine ⟨?_, Or.inr ?_, Or.inr (Or.inl ?_)⟩ <;> simp)
  rw [if_neg e185] at h
  by_cases e186 : op = 0xef
  · rw [if_pos e186] at h
    split at h
    · exact Option.noConfusion h
    · rename_i m1 hw
      obtain ⟨hime, hdis, hen⟩ := push_stack_ime_frame _ _ _ hw
      simp only [Option.some.injEq] at h
      subst h
      exact ⟨by simp [hime], Or.inr (by simp [hdis]), Or.inr (Or.inl (by simp [hen]))⟩
  rw [if_neg e186] at h
  by_cases e187 : op = 0xf0
  · rw [if_pos e187] at h
    split at h
    · exact Option.noConfusion h
    · rename_i d8 m1 hf
      split at h
      · exact Option.noConfusion h
      · rename_i byte hr
        obtain ⟨-, rfl⟩ := (get_next_byte_eq_some _ _ _).mp hf
        simp only [Option.some.injEq] at h
        subst h
        first
        | exact ⟨rfl, Or.inr rfl, Or.inr (Or.inl rfl)⟩
        | (refine ⟨?_, Or.inr ?_, Or.inr (Or.inl ?_)⟩ <;> simp)
  rw [if_neg e187] at h
  by_cases e188 : op = 0xf1
  · rw [if_pos e188] at h
    split at h
    · exact Option.noConfusion h
    · rename_i w m1 hp
      obtain ⟨-, rfl⟩ := (pop_stack_eq_some _ _ _).mp hp
      simp only [Option.some.injEq] at h
      subst h
      first
      | exact ⟨rfl, Or.inr rfl, Or.inr (Or.inl rfl)⟩
      | (refine ⟨?_, Or.inr ?_, Or.inr (Or.inl ?_)⟩ <;> simp)
  rw [if_neg e188] at h
  by_cases e189 : op = 0xf3
  · rw [if_pos e189] at h
    simp only [Option.some.injEq] at h
    subst h
    exact ⟨by simp [Interrupts.disable_ime], Or.inl e189, Or.inr (Or.inl (by simp [Interrupts.disable_ime]))⟩
  rw [if_neg e189] at h
  by_cases e190 : op = 0xf5
  · rw [if_pos e190] at h
    split at h
    · exact Option.noConfusion h
    · rename_i m1 hw
      obtain ⟨hime, hdis, hen⟩ := push_stack_ime_frame _ _ _ hw
      simp only [Option.some.injEq] at h
      subst h
      exact ⟨by simp [hime], Or.inr (by simp [hdis]), Or.inr (Or.inl (by simp [hen]))⟩
  rw [if_neg e190] at h
  by_cases e191 : op = 0xf6
  · rw [if_pos e191] at h
    split at h
    · exact Option.noConfusion h
    · rename_i d8 m1 hf
      obtain ⟨-, rfl⟩ := (get_next_byte_eq_some _ _ _).mp hf
      simp only [Option.some.injEq] at h
      subst h
      first
      | exact ⟨rfl, Or.inr rfl, Or.inr (Or.inl rfl)⟩
      | (refine ⟨?_, Or.inr ?_, Or.inr (Or.inl ?_)⟩ <;> simp)
  rw [if_neg e191] at h
  by_cases e192 : op = 0xfa
  · rw [if_pos e192] at h
    split at h
    · exact Option.noConfusion h
    · rename_i w m1 hf
      split at h
      · exact Option.noConfusion h
      · rename_i byte hr
        obtain ⟨-, rfl⟩ := (get_next_word_eq_some _ _ _).mp hf
        simp only [Option.some.injEq] at h
        subst h
        first
        | exact ⟨rfl, Or.inr rfl, Or.inr (Or.inl rfl)⟩
        | (refine ⟨?_, Or.inr ?_, Or.inr (Or.inl ?_)⟩ <;> simp)
  rw [if_neg e192] at h
  by_cases e193 : op = 0xfb
  · rw [if_pos e193] at h
    simp only [Option.some.injEq] at h
    subst h
    exact ⟨by simp [Interrupts.enable_ime], Or.inr (by simp [Interrupts.enable_ime]), Or.inr (Or.inr (by simp [Interrupts.enable_ime]))⟩
  rw [if_neg e193] at h
  by_cases e194 : op = 0xfe
  · rw [if_pos e194] at h
    split at h
    · exact Option.noConfusion h
    · rename_i d8 m1 hf
      obtain ⟨-, rfl⟩ := (get_next_byte_eq_some _ _ _).mp hf
      simp only [Option.some.injEq] at h
      subst h
      first
      | exact ⟨rfl, Or.inr rfl, Or.inr (Or.inl rfl)⟩
      | (refine ⟨?_, Or.inr ?_, Or.inr (Or.inl ?_)⟩ <;> simp)
  rw [if_neg e194] at h
  exact absurd h (by simp)

/-- Interrupt-state frame of the non-prefixed dispatch: no arm changes the
IME flag; only DI (0xF3) arms the disable counter; only RETI (0xD9) and EI
(0xFB) change the enable counter, EI setting it to 2. -/
lemma exec_opcode_ime (op : Nat) (m : Mmu) (r : Mmu × Bool)
    (h : exec_opcode op m = some r) :
    r.1.interrupts.ime = m.interrupts.ime
      ∧ (op = 0xF3 ∨ r.1.interrupts.disable_ime_counter = m.interrupts.disable_ime_counter)
      ∧ (op = 0xD9
          ∨ r.1.interrupts.enable_ime_counter = m.interrupts.enable_ime_counter
          ∨ r.1.interrupts.enable_ime_counter = 2) := by
  unfold exec_opcode at h
  split_ifs at h
  · exact exec_opcode_q0_ime _ _ _ h
  · exact exec_opcode_q1_ime _ _ _ h
  · exact exec_opcode_q2_ime _ _ _ h
  · exact exec_opcode_q3_ime _ _ _ h
/-- Interrupt-state frame of CB arms 0x00-0x3f. -/
lemma exec_cb_q0_ime (op : Nat) (m : Mmu) (r : Mmu)
    (h : exec_cb_q0 op m = some r) :
    r.interrupts.ime = m.interrupts.ime
      ∧ r.interrupts.disable_ime_counter = m.interrupts.disable_ime_counter
      ∧ r.interrupts.enable_ime_counter = m.interrupts.enable_ime_counter := by
  unfold exec_cb_q0 at h
  by_cases e0 : op = 0x11
  · rw [if_pos e0] at h
    simp only [Option.some.injEq] at h
    subst h
    first
    | exact ⟨rfl, rfl, rfl⟩
    | (refine ⟨?_, ?_, ?_⟩ <;> simp)
  rw [if_neg e0] at h
  by_cases e1 : op = 0x27
  · rw [if_pos e1] at h
    simp only [Option.some.injEq] at h
    subst h
    first
    | exact ⟨rfl, rfl, rfl⟩
    | (refine ⟨?_, ?_, ?_⟩ <;> simp)
  rw [if_neg e1] at h
  by_cases e2 : op = 0x30
  · rw [if_pos e2] at h
    simp only [Option.some.injEq] at h
    subst h
    first
    | exact ⟨rfl, rfl, rfl⟩
    | (refine ⟨?_, ?_, ?_⟩ <;> simp)
  rw [if_neg e2] at h
  by_cases e3 : op = 0x31
  · rw [if_pos e3] at h
    simp only [Option.some.injEq] at h
    subst h
    first
    | exact ⟨rfl, rfl, rfl⟩
    | (refine ⟨?_, ?_, ?_⟩ <;> simp)
  rw [if_neg e3] at h
  by_cases e4 : op = 0x32
  · rw [if_pos e4] at h
    simp only [Option.some.injEq] at h
    subst h
    first
    | exact ⟨rfl, rfl, rfl⟩
    | (refine ⟨?_, ?_, ?_⟩ <;> simp)
  rw [if_neg e4] at h
  by_cases e5 : op = 0x33
  · rw [if_pos e5] at h
    simp only [Option.some.injEq] at h
    subst h
    first
    | exact ⟨rfl, rfl, rfl⟩
    | (refine ⟨?_, ?_, ?_⟩ <;> simp)
  rw [if_neg e5] at h
  by_cases e6 : op = 0x34
  · rw [if_pos e6] at h
    simp only [Option.some.injEq] at h
    subst h
    first
    | exact ⟨rfl, rfl, rfl⟩
    | (refine ⟨?_, ?_, ?_⟩ <;> simp)
  rw [if_neg e6] at h
  by_cases e7 : op = 0x35
  · rw [if_pos e7] at h
    simp only [Option.some.injEq] at h
    subst h
    first
    | exact ⟨rfl, rfl, rfl⟩
    | (refine ⟨?_, ?_, ?_⟩ <;> simp)
  rw [if_neg e7] at h
  by_cases e8 : op = 0x36
  · rw [if_pos e8] at h
    split at h
    · exact Option.noConfusion h
    · rename_i byte hr
      obtain ⟨hime, hdis, hen⟩ := wb_ime_frame _ _ _ _ h
      exact ⟨by simp [hime], by simp [hdis], by simp [hen]⟩
  rw [if_neg e8] at h
  by_cases e9 : op = 0x37
  · rw [if_pos e9] at h
    simp only [Option.some.injEq] at h
    subst h
    first
    | exact ⟨rfl, rfl, rfl⟩
    | (refine ⟨?_, ?_, ?_⟩ <;> simp)
  rw [if_neg e9] at h
  by_cases e10 : op = 0x3f
  · rw [if_pos e10] at h
    simp only [Option.some.injEq] at h
    subst h
    first
    | exact ⟨rfl, rfl, rfl⟩
    | (refine ⟨?_, ?_, ?_⟩ <;> simp)
  rw [if_neg e10] at h
  exact Option.noConfusion h

/-- Interrupt-state frame of CB arms 0x40-0x7f. -/
lemma exec_cb_q1_ime (op : Nat) (m : Mmu) (r : Mmu)
    (h : exec_cb_q1 op m = some r) :
    r.interrupts.ime = m.interrupts.ime
      ∧ r.interrupts.disable_ime_counter = m.interrupts.disable_ime_counter
      ∧ r.interrupts.enable_ime_counter = m.interrupts.enable_ime_counter := by
  unfold exec_cb_q1 at h
  by_cases e11 : op = 0x40
  · rw [if_pos e11] at h
    simp only [Option.some.injEq] at h
    subst h
    first
    | exact ⟨rfl, rfl, rfl⟩
    | (refine ⟨?_, ?_, ?_⟩ <;> simp)
  rw [if_neg e11] at h
  by_cases e12 : op = 0x41
  · rw [if_pos e12] at h
    simp only [Option.some.injEq] at h
    subst h
    first
    | exact ⟨rfl, rfl, rfl⟩
    | (refine ⟨?_, ?_, ?_⟩ <;> simp)
  rw [if_neg e12] at h
  by_cases e13 : op = 0x42
  · rw [if_pos e13] at h
    simp only [Option.some.injEq] at h
    subst h
    first
    | exact ⟨rfl, rfl, rfl⟩
    | (refine ⟨?_, ?_, ?_⟩ <;> simp)
  rw [if_neg e13] at h
  by_cases e14 : op = 0x43
  · rw [if_pos e14] at h
    simp only [Option.some.injEq] at h
    subst h
    first
    | exact ⟨rfl, rfl, rfl⟩
    | (refine ⟨?_, ?_, ?_⟩ <;> simp)
  rw [if_neg e14] at h
  by_cases e15 : op = 0x44
  · rw [if_pos e15] at h
    simp only [Option.some.injEq] at h
    subst h
    first
    | exact ⟨rfl, rfl, rfl⟩
    | (refine ⟨?_, ?_, ?_⟩ <;> simp)
  rw [if_neg e15] at h
  by_cases e16 : op = 0x45
  · rw [if_pos e16] at h
    simp only [Option.some.injEq] at h
    subst h
    first
    | exact ⟨rfl, rfl, rfl⟩
    | (refine ⟨?_, ?_, ?_⟩ <;> simp)
  rw [if_neg e16] at h
  by_cases e17 : op = 0x46
  · rw [if_pos e17] at h
    split at h
    · exact Option.noConfusion h
    · rename_i byte hr
      simp only [Option.some.injEq] at h
      subst h
      first
      | exact ⟨rfl, rfl, rfl⟩
      | (refine ⟨?_, ?_, ?_⟩ <;> simp)
  rw [if_neg e17] at h
  by_cases e18 : op = 0x47
  · rw [if_pos e18] at h
    simp only [Option.some.injEq] at h
    subst h
    first
    | exact ⟨rfl, rfl, rfl⟩
    | (refine ⟨?_, ?_, ?_⟩ <;> simp)
  rw [if_neg e18] at h
  by_cases e19 : op = 0x48
  · rw [if_pos e19] at h
    simp only [Option.some.injEq] at h
    subst h
    first
    | exact ⟨rfl, rfl, rfl⟩
    | (refine ⟨?_, ?_, ?_⟩ <;> simp)
  rw [if_neg e19] at h
  by_cases e20 : op = 0x49
  · rw [if_pos e20] at h
    simp only [Option.some.injEq] at h
    subst h
    first
    | exact ⟨rfl, rfl, rfl⟩
    | (refine ⟨?_, ?_, ?_⟩ <;> simp)
  rw [if_neg e20] at h
  by_cases e21 : op = 0x4a
  · rw [if_pos e21] at h
    simp only [Option.some.injEq] at h
    subst h
    first
    | exact ⟨rfl, rfl, rfl⟩
    | (refine ⟨?_, ?_, ?_⟩ <;> simp)
  rw [if_neg e21] at h
  by_cases e22 : op = 0x4b
  · rw [if_pos e22] at h
    simp only [Option.some.injEq] at h
    subst h
    first
    | exact ⟨rfl, rfl, rfl⟩
    | (refine ⟨?_, ?_, ?_⟩ <;> simp)
  rw [if_neg e22] at h
  by_cases e23 : op = 0x4c
  · rw [if_pos e23] at h
    simp only [Option.some.injEq] at h
    subst h
    first
    | exact ⟨rfl, rfl, rfl⟩
    | (refine ⟨?_, ?_, ?_⟩ <;> simp)
  rw [if_neg e23] at h
  by_cases e24 : op = 0x4d
  · rw [if_pos e24] at h
    simp only [Option.some.injEq] at h
    subst h
    first
    | exact ⟨rfl, rfl, rfl⟩
    | (refine ⟨?_, ?_, ?_⟩ <;> simp)
  rw [if_neg e24] at h
  by_cases e25 : op = 0x4e
  · rw [if_pos e25] at h
    split at h
    · exact Option.noConfusion h
    · rename_i byte hr
      simp only [Option.some.injEq] at h
      subst h
      first
      | exact ⟨rfl, rfl, rfl⟩
      | (refine ⟨?_, ?_, ?_⟩ <;> simp)
  rw [if_neg e25] at h
  by_cases e26 : op = 0x4f
  · rw [if_pos e26] at h
    simp only [Option.some.injEq] at h
    subst h
    first
    | exact ⟨rfl, rfl, rfl⟩
    | (refine ⟨?_, ?_, ?_⟩ <;> simp)
  rw [if_neg e26] at h
  by_cases e27 : op = 0x50
  · rw [if_pos e27] at h
    simp only [Option.some.injEq] at h
    subst h
    first
    | exact ⟨rfl, rfl, rfl⟩
    | (refine ⟨?_, ?_, ?_⟩ <;> simp)
  rw [if_neg e27] at h
  by_cases e28 : op = 0x51
  · rw [if_pos e28] at h
    simp only [Option.some.injEq] at h
    subst h
    first
    | exact ⟨rfl, rfl, rfl⟩
    | (refine ⟨?_, ?_, ?_⟩ <;> simp)
  rw [if_neg e28] at h
  by_cases e29 : op = 0x52
  · rw [if_pos e29] at h
    simp only [Option.some.injEq] at h
    subst h
    first
    | exact ⟨rfl, rfl, rfl⟩
    | (refine ⟨?_, ?_, ?_⟩ <;> simp)
  rw [if_neg e29] at h
  by_cases e30 : op = 0x53
  · rw [if_pos e30] at h
    simp only [Option.some.injEq] at h
    subst h
    first
    | exact ⟨rfl, rfl, rfl⟩
    | (refine ⟨?_, ?_, ?_⟩ <;> simp)
  rw [if_neg e30] at h
  by_cases e31 : op = 0x54
  · rw [if_pos e31] at h
    simp only [Option.some.injEq] at h
    subst h
    first
    | exact ⟨rfl, rfl, rfl⟩
    | (refine ⟨?_, ?_, ?_⟩ <;> simp)
  rw [if_neg e31] at h
  by_cases e32 : op = 0x55
  · rw [if_pos e32] at h
    simp only [Option.some.injEq] at h
    subst h
    first
    | exact ⟨rfl, rfl, rfl⟩
    | (refine ⟨?_, ?_, ?_⟩ <;> simp)
  rw [if_neg e32] at h
  by_cases e33 : op = 0x56
  · rw [if_pos e33] at h
    split at h
    · exact Option.noConfusion h
    · rename_i byte hr
      simp only [Option.some.injEq] at h
      subst h
      first
      | exact ⟨rfl, rfl, rfl⟩
      | (refine ⟨?_, ?_, ?_⟩ <;> simp)
  rw [if_neg e33] at h
  by_cases e34 : op = 0x57
  · rw [if_pos e34] at h
    simp only [Option.some.injEq] at h
    subst h
    first
    | exact ⟨rfl, rfl, rfl⟩
    | (refine ⟨?_, ?_, ?_⟩ <;> simp)
  rw [if_neg e34] at h
  by_cases e35 : op = 0x58
  · rw [if_pos e35] at h
    simp only [Option.some.injEq] at h
    subst h
    first
    | exact ⟨rfl, rfl, rfl⟩
    | (refine ⟨?_, ?_, ?_⟩ <;> simp)
  rw [if_neg e35] at h
  by_cases e36 : op = 0x59
  · rw [if_pos e36] at h
    simp only [Option.some.injEq] at h
    subst h
    first
    | exact ⟨rfl, rfl, rfl⟩
    | (refine ⟨?_, ?_, ?_⟩ <;> simp)
  rw [if_neg e36] at h
  by_cases e37 : op = 0x5a
  · rw [if_pos e37] at h
    simp only [Option.some.injEq] at h
    subst h
    first
    | exact ⟨rfl, rfl, rfl⟩
    | (refine ⟨?_, ?_, ?_⟩ <;> simp)
  rw [if_neg e37] at h
  by_cases e38 : op = 0x5b
  · rw [if_pos e38] at h
    simp only [Option.some.injEq] at h
    subst h
    first
    | exact ⟨rfl, rfl, rfl⟩
    | (refine ⟨?_, ?_, ?_⟩ <;> simp)
  rw [if_neg e38] at h
  by_cases e39 : op = 0x5c
  · rw [if_pos e39] at h
    simp only [Option.some.injEq] at h
    subst h
    first
    | exact ⟨rfl, rfl, rfl⟩
    | (refine ⟨?_, ?_, ?_⟩ <;> simp)
  rw [if_neg e39] at h
  by_cases e40 : op = 0x5d
  · rw [if_pos e40] at h
    simp only [Option.some.injEq] at h
    subst h
    first
    | exact ⟨rfl, rfl, rfl⟩
    | (refine ⟨?_, ?_, ?_⟩ <;> simp)
  rw [if_neg e40] at h
  by_cases e41 : op = 0x5e
  · rw [if_pos e41] at h
    split at h
    · exact Option.noConfusion h
    · rename_i byte hr
      simp only [Option.some.injEq] at h
      subst h
      first
      | exact ⟨rfl, rfl, rfl⟩
      | (refine ⟨?_, ?_, ?_⟩ <;> simp)
  rw [if_neg e41] at h
  by_cases e42 : op = 0x5f
  · rw [if_pos e42] at h
    simp only [Option.some.injEq] at h
    subst h
    first
    | exact ⟨rfl, rfl, rfl⟩
    | (refine ⟨?_, ?_, ?_⟩ <;> simp)
  rw [if_neg e42] at h
  by_cases e43 : op = 0x60
  · rw [if_pos e43] at h
    simp only [Option.some.injEq] at h
    subst h
    first
    | exact ⟨rfl, rfl, rfl⟩
    | (refine ⟨?_, ?_, ?_⟩ <;> simp)
  rw [if_neg e43] at h
  by_cases e44 : op = 0x61
  · rw [if_pos e44] at h
    simp only [Option.some.injEq] at h
    subst h
    first
    | exact ⟨rfl, rfl, rfl⟩
    | (refine ⟨?_, ?_, ?_⟩ <;> simp)
  rw [if_neg e44] at h
  by_cases e45 : op = 0x62
  · rw [if_pos e45] at h
    simp only [Option.some.injEq] at h
    subst h
    first
    | exact ⟨rfl, rfl, rfl⟩
    | (refine ⟨?_, ?_, ?_⟩ <;> simp)
  rw [if_neg e45] at h
  by_cases e46 : op = 0x63
  · rw [if_pos e46] at h
    simp only [Option.some.injEq] at h
    subst h
    first
    | exact ⟨rfl, rfl, rfl⟩
    | (refine ⟨?_, ?_, ?_⟩ <;> simp)
  rw [if_neg e46] at h
  by_cases e47 : op = 0x64
  · rw [if_pos e47] at h
    simp only [Option.some.injEq] at h
    subst h
    first
    | exact ⟨rfl, rfl, rfl⟩
    | (refine ⟨?_, ?_, ?_⟩ <;> simp)
  rw [if_neg e47] at h
  by_cases e48 : op = 0x65
  · rw [if_pos e48] at h
    simp only [Option.some.injEq] at h
    subst h
    first
    | exact ⟨rfl, rfl, rfl⟩
    | (refine ⟨?_, ?_, ?_⟩ <;> simp)
  rw [if_neg e48] at h
  by_cases e49 : op = 0x66
  · rw [if_pos e49] at h
    split at h
    · exact Option.noConfusion h
    · rename_i byte hr
      simp only [Option.some.injEq] at h
      subst h
      first
      | exact ⟨rfl, rfl, rfl⟩
      | (refine ⟨?_, ?_, ?_⟩ <;> simp)
  rw [if_neg e49] at h
  by_cases e50 : op = 0x67
  · rw [if_pos e50] at h
    simp only [Option.some.injEq] at h
    subst h
    first
    | exact ⟨rfl, rfl, rfl⟩
    | (refine ⟨?_, ?_, ?_⟩ <;> simp)
  rw [if_neg e50] at h
  by_cases e51 : op = 0x68
  · rw [if_pos e51] at h
    simp only [Option.some.injEq] at h
    subst h
    first
    | exact ⟨rfl, rfl, rfl⟩
    | (refine ⟨?_, ?_, ?_⟩ <;> simp)
  rw [if_neg e51] at h
  by_cases e52 : op = 0x69
  · rw [if_pos e52] at h
    simp only [Option.some.injEq] at h
    subst h
    first
    | exact ⟨rfl, rfl, rfl⟩
    | (refine ⟨?_, ?_, ?_⟩ <;> simp)
  rw [if_neg e52] at h
  by_cases e53 : op = 0x6a
  · rw [if_pos e53] at h
    simp only [Option.some.injEq] at h
    subst h
    first
    | exact ⟨rfl, rfl, rfl⟩
    | (refine ⟨?_, ?_, ?_⟩ <;> simp)
  rw [if_neg e53] at h
  by_cases e54 : op = 0x6b
  · rw [if_pos e54] at h
    simp only [Option.some.injEq] at h
    subst h
    first
    | exact ⟨rfl, rfl, rfl⟩
    | (refine ⟨?_, ?_, ?_⟩ <;> simp)
  rw [if_neg e54] at h
  by_cases e55 : op = 0x6c
  · rw [if_pos e55] at h
    simp only [Option.some.injEq] at h
    subst h
    first
    | exact ⟨rfl, rfl, rfl⟩
    | (refine ⟨?_, ?_, ?_⟩ <;> simp)
  rw [if_neg e55] at h
  by_cases e56 : op = 0x6d
  · rw [if_pos e56] at h
    simp only [Option.some.injEq] at h
    subst h
    first
    | exact ⟨rfl, rfl, rfl⟩
    | (refine ⟨?_, ?_, ?_⟩ <;> simp)
  rw [if_neg e56] at h
  by_cases e57 : op = 0x6e
  · rw [if_pos e57] at h
    split at h
    · exact Option.noConfusion h
    · rename_i byte hr
      simp only [Option.some.injEq] at h
      subst h
      first
      | exact ⟨rfl, rfl, rfl⟩
      | (refine ⟨?_, ?_, ?_⟩ <;> simp)
  rw [if_neg e57] at h
  by_cases e58 : op = 0x6f
  · rw [if_pos e58] at h
    simp only [Option.some.injEq] at h
    subst h
    first
    | exact ⟨rfl, rfl, rfl⟩
    | (refine ⟨?_, ?_, ?_⟩ <;> simp)
  rw [if_neg e58] at h
  by_cases e59 : op = 0x70
  · rw [if_pos e59] at h
    simp only [Option.some.injEq] at h
    subst h
    first
    | exact ⟨rfl, rfl, rfl⟩
    | (refine ⟨?_, ?_, ?_⟩ <;> simp)
  rw [if_neg e59] at h
  by_cases e60 : op = 0x71
  · rw [if_pos e60] at h
    simp only [Option.some.injEq] at h
    subst h
    first
    | exact ⟨rfl, rfl, rfl⟩
    | (refine ⟨?_, ?_, ?_⟩ <;> simp)
  rw [if_neg e60] at h
  by_cases e61 : op = 0x72
  · rw [if_pos e61] at h
    simp only [Option.some.injEq] at h
    subst h
    first
    | exact ⟨rfl, rfl, rfl⟩
    | (refine ⟨?_, ?_, ?_⟩ <;> simp)
  rw [if_neg e61] at h
  by_cases e62 : op = 0x73
  · rw [if_pos e62] at h
    simp only [Option.some.injEq] at h
    subst h
    first
    | exact ⟨rfl, rfl, rfl⟩
    | (refine ⟨?_, ?_, ?_⟩ <;> simp)
  rw [if_neg e62] at h
  by_cases e63 : op = 0x74
  · rw [if_pos e63] at h
    simp only [Option.some.injEq] at h
    subst h
    first
    | exact ⟨rfl, rfl, rfl⟩
    | (refine ⟨?_, ?_, ?_⟩ <;> simp)
  rw [if_neg e63] at h
  by_cases e64 : op = 0x75
  · rw [if_pos e64] at h
    simp only [Option.some.injEq] at h
    subst h
    first
    | exact ⟨rfl, rfl, rfl⟩
    | (refine ⟨?_, ?_, ?_⟩ <;> simp)
  rw [if_neg e64] at h
  by_cases e65 : op = 0x76
  · rw [if_pos e65] at h
    split at h
    · exact Option.noConfusion h
    · rename_i byte hr
      simp only [Option.some.injEq] at h
      subst h
      first
      | exact ⟨rfl, rfl, rfl⟩
      | (refine ⟨?_, ?_, ?_⟩ <;> simp)
  rw [if_neg e65] at h
  by_cases e66 : op = 0x77
  · rw [if_pos e66] at h
    simp only [Option.some.injEq] at h
    subst h
    first
    | exact ⟨rfl, rfl, rfl⟩
    | (refine ⟨?_, ?_, ?_⟩ <;> simp)
  rw [if_neg e66] at h
  by_cases e67 : op = 0x78
  · rw [if_pos e67] at h
    simp only [Option.some.injEq] at h
    subst h
    first
    | exact ⟨rfl, rfl, rfl⟩
    | (refine ⟨?_, ?_, ?_⟩ <;> simp)
  rw [if_neg e67] at h
  by_cases e68 : op = 0x79
  · rw [if_pos e68] at h
    simp only [Option.some.injEq] at h
    subst h
    first
    | exact ⟨rfl, rfl, rfl⟩
    | (refine ⟨?_, ?_, ?_⟩ <;> simp)
  rw [if_neg e68] at h
  by_cases e69 : op = 0x7a
  · rw [if_pos e69] at h
    simp only [Option.some.injEq] at h
    subst h
    first
    | exact ⟨rfl, rfl, rfl⟩
    | (refine ⟨?_, ?_, ?_⟩ <;> simp)
  rw [if_neg e69] at h
  by_cases e70 : op = 0x7b
  · rw [if_pos e70] at h
    simp only [Option.some.injEq] at h
    subst h
    first
    | exact ⟨rfl, rfl, rfl⟩
    | (refine ⟨?_, ?_, ?_⟩ <;> simp)
  rw [if_neg e70] at h
  by_cases e71 : op = 0x7c
  · rw [if_pos e71] at h
    simp only [Option.some.injEq] at h
    subst h
    first
    | exact ⟨rfl, rfl, rfl⟩
    | (refine ⟨?_, ?_, ?_⟩ <;> simp)
  rw [if_neg e71] at h
  by_cases e72 : op = 0x7d
  · rw [if_pos e72] at h
    simp only [Option.some.injEq] at h
    subst h
    first
    | exact ⟨rfl, rfl, rfl⟩
    | (refine ⟨?_, ?_, ?_⟩ <;> simp)
  rw [if_neg e72] at h
  by_cases e73 : op = 0x7e
  · rw [if_pos e73] at h
    split at h
    · exact Option.noConfusion h
    · rename_i byte hr
      simp only [Option.some.injEq] at h
      subst h
      first
      | exact ⟨rfl, rfl, rfl⟩
      | (refine ⟨?_, ?_, ?_⟩ <;> simp)
  rw [if_neg e73] at h
  by_cases e74 : op = 0x7f
  · rw [if_pos e74] at h
    simp only [Option.some.injEq] at h
    subst h
    first
    | exact ⟨rfl, rfl, rfl⟩
    | (refine ⟨?_, ?_, ?_⟩ <;> simp)
  rw [if_neg e74] at h
  exact Option.noConfusion h

/-- Interrupt-state frame of CB arms 0x80-0xbf. -/
lemma exec_cb_q2_ime (op : Nat) (m : Mmu) (r : Mmu)
    (h : exec_cb_q2 op m = some r) :
    r.interrupts.ime = m.interrupts.ime
      ∧ r.interrupts.disable_ime_counter = m.interrupts.disable_ime_counter
      ∧ r.interrupts.enable_ime_counter = m.interrupts.enable_ime_counter := by
  unfold exec_cb_q2 at h
  by_cases e75 : op = 0x80
  · rw [if_pos e75] at h
    simp only [Option.some.injEq] at h
    subst h
    first
    | exact ⟨rfl, rfl, rfl⟩
    | (refine ⟨?_, ?_, ?_⟩ <;> simp)
  rw [if_neg e75] at h
  by_cases e76 : op = 0x81
  · rw [if_pos e76] at h
    simp only [Option.some.injEq] at h
    subst h
    first
    | exact ⟨rfl, rfl, rfl⟩
    | (refine ⟨?_, ?_, ?_⟩ <;> simp)
  rw [if_neg e76] at h
  by_cases e77 : op = 0x82
  · rw [if_pos e77] at h
    simp only [Option.some.injEq] at h
    subst h
    first
    | exact ⟨rfl, rfl, rfl⟩
    | (refine ⟨?_, ?_, ?_⟩ <;> simp)
  rw [if_neg e77] at h
  by_cases e78 : op = 0x83
  · rw [if_pos e78] at h
    simp only [Option.some.injEq] at h
    subst h
    first
    | exact ⟨rfl, rfl, rfl⟩
    | (refine ⟨?_, ?_, ?_⟩ <;> simp)
  rw [if_neg e78] at h
  by_cases e79 : op = 0x84
  · rw [if_pos e79] at h
    simp only [Option.some.injEq] at h
    subst h
    first
    | exact ⟨rfl, rfl, rfl⟩
    | (refine ⟨?_, ?_, ?_⟩ <;> simp)
  rw [if_neg e79] at h
  by_cases e80 : op = 0x85
  · rw [if_pos e80] at h
    simp only [Option.some.injEq] at h
    subst h
    first
    | exact ⟨rfl, rfl, rfl⟩
    | (refine ⟨?_, ?_, ?_⟩ <;> simp)
  rw [if_neg e80] at h
  by_cases e81 : op = 0x86
  · rw [if_pos e81] at h
    split at h
    · exact Option.noConfusion h
    · rename_i byte hr
      obtain ⟨hime, hdis, hen⟩ := wb_ime_frame _ _ _ _ h
      exact ⟨by simp [hime], by simp [hdis], by simp [hen]⟩
  rw [if_neg e81] at h
  by_cases e82 : op = 0x87
  · rw [if_pos e82] at h
    simp only [Option.some.injEq] at h
    subst h
    first
    | exact ⟨rfl, rfl, rfl⟩
    | (refine ⟨?_, ?_, ?_⟩ <;> simp)
  rw [if_neg e82] at h
  by_cases e83 : op = 0x88
  · rw [if_pos e83] at h
    simp only [Option.some.injEq] at h
    subst h
    first
    | exact ⟨rfl, rfl, rfl⟩
    | (refine ⟨?_, ?_, ?_⟩ <;> simp)
  rw [if_neg e83] at h
  by_cases e84 : op = 0x89
  · rw [if_pos e84] at h
    simp only [Option.some.injEq] at h
    subst h
    first
    | exact ⟨rfl, rfl, rfl⟩
    | (refine ⟨?_, ?_, ?_⟩ <;> simp)
  rw [if_neg e84] at h
  by_cases e85 : op = 0x8a
  · rw [if_pos e85] at h
    simp only [Option.some.injEq] at h
    subst h
    first
    | exact ⟨rfl, rfl, rfl⟩
    | (refine ⟨?_, ?_, ?_⟩ <;> simp)
  rw [if_neg e85] at h
  by_cases e86 : op = 0x8b
  · rw [if_pos e86] at h
    simp only [Option.some.injEq] at h
    subst h
    first
    | exact ⟨rfl, rfl, rfl⟩
    | (refine ⟨?_, ?_, ?_⟩ <;> simp)
  rw [if_neg e86] at h
  by_cases e87 : op = 0x8c
  · rw [if_pos e87] at h
    simp only [Option.some.injEq] at h
    subst h
    first
    | exact ⟨rfl, rfl, rfl⟩
    | (refine ⟨?_, ?_, ?_⟩ <;> simp)
  rw [if_neg e87] at h
  by_cases e88 : op = 0x8d
  · rw [if_pos e88] at h
    simp only [Option.some.injEq] at h
    subst h
    first
    | exact ⟨rfl, rfl, rfl⟩
    | (refine ⟨?_, ?_, ?_⟩ <;> simp)
  rw [if_neg e88] at h
  by_cases e89 : op = 0x8e
  · rw [if_pos e89] at h
    split at h
    · exact Option.noConfusion h
    · rename_i byte hr
      obtain ⟨hime, hdis, hen⟩ := wb_ime_frame _ _ _ _ h
      exact ⟨by simp [hime], by simp [hdis], by simp [hen]⟩
  rw [if_neg e89] at h
  by_cases e90 : op = 0x8f
  · rw [if_pos e90] at h
    simp only [Option.some.injEq] at h
    subst h
    first
    | exact ⟨rfl, rfl, rfl⟩
    | (refine ⟨?_, ?_, ?_⟩ <;> simp)
  rw [if_neg e90] at h
  by_cases e91 : op = 0x90
  · rw [if_pos e91] at h
    simp only [Option.some.injEq] at h
    subst h
    first
    | exact ⟨rfl, rfl, rfl⟩
    | (refine ⟨?_, ?_, ?_⟩ <;> simp)
  rw [if_neg e91] at h
  by_cases e92 : op = 0x91
  · rw [if_pos e92] at h
    simp only [Option.some.injEq] at h
    subst h
    first
    | exact ⟨rfl, rfl, rfl⟩
    | (refine ⟨?_, ?_, ?_⟩ <;> simp)
  rw [if_neg e92] at h
  by_cases e93 : op = 0x92
  · rw [if_pos e93] at h
    simp only [Option.some.injEq] at h
    subst h
    first
    | exact ⟨rfl, rfl, rfl⟩
    | (refine ⟨?_, ?_, ?_⟩ <;> simp)
  rw [if_neg e93] at h
  by_cases e94 : op = 0x93
  · rw [if_pos e94] at h
    simp only [Option.some.injEq] at h
    subst h
    first
    | exact ⟨rfl, rfl, rfl⟩
    | (refine ⟨?_, ?_, ?_⟩ <;> simp)
  rw [if_neg e94] at h
  by_cases e95 : op = 0x94
  · rw [if_pos e95] at h
    simp only [Option.some.injEq] at h
    subst h
    first
    | exact ⟨rfl, rfl, rfl⟩
    | (refine ⟨?_, ?_, ?_⟩ <;> simp)
  rw [if_neg e95] at h
  by_cases e96 : op = 0x95
  · rw [if_pos e96] at h
    simp only [Option.some.injEq] at h
    subst h
    first
    | exact ⟨rfl, rfl, rfl⟩
    | (refine ⟨?_, ?_, ?_⟩ <;> simp)
  rw [if_neg e96] at h
  by_cases e97 : op = 0x96
  · rw [if_pos e97] at h
    split at h
    · exact Option.noConfusion h
    · rename_i byte hr
      obtain ⟨hime, hdis, hen⟩ := wb_ime_frame _ _ _ _ h
      exact ⟨by simp [hime], by simp [hdis], by simp [hen]⟩
  rw [if_neg e97] at h
  by_cases e98 : op = 0x97
  · rw [if_pos e98] at h
    simp only [Option.some.injEq] at h
    subst h
    first
    | exact ⟨rfl, rfl, rfl⟩
    | (refine ⟨?_, ?_, ?_⟩ <;> simp)
  rw [if_neg e98] at h
  by_cases e99 : op = 0x98
  · rw [if_pos e99] at h
    simp only [Option.some.injEq] at h
    subst h
    first
    | exact ⟨rfl, rfl, rfl⟩
    | (refine ⟨?_, ?_, ?_⟩ <;> simp)
  rw [if_neg e99] at h
  by_cases e100 : op = 0x99
  · rw [if_pos e100] at h
    simp only [Option.some.injEq] at h
    subst h
    first
    | exact ⟨rfl, rfl, rfl⟩
    | (refine ⟨?_, ?_, ?_⟩ <;> simp)
  rw [if_neg e100] at h
  by_cases e101 : op = 0x9a
  · rw [if_pos e101] at h
    simp only [Option.some.injEq] at h
    subst h
    first
    | exact ⟨rfl, rfl, rfl⟩
    | (refine ⟨?_, ?_, ?_⟩ <;> simp)
  rw [if_neg e101] at h
  by_cases e102 : op = 0x9b
  · rw [if_pos e102] at h
    simp only [Option.some.injEq] at h
    subst h
    first
    | exact ⟨rfl, rfl, rfl⟩
    | (refine ⟨?_, ?_, ?_⟩ <;> simp)
  rw [if_neg e102] at h
  by_cases e103 : op = 0x9c
  · rw [if_pos e103] at h
    simp only [Option.some.injEq] at h
    subst h
    first
    | exact ⟨rfl, rfl, rfl⟩
    | (refine ⟨?_, ?_, ?_⟩ <;> simp)
  rw [if_neg e103] at h
  by_cases e104 : op = 0x9d
  · rw [if_pos e104] at h
    simp only [Option.some.injEq] at h
    subst h
    first
    | exact ⟨rfl, rfl, rfl⟩
    | (refine ⟨?_, ?_, ?_⟩ <;> simp)
  rw [if_neg e104] at h
  by_cases e105 : op = 0x9e
  · rw [if_pos e105] at h
    split at h
    · exact Option.noConfusion h
    · rename_i byte hr
      obtain ⟨hime, hdis, hen⟩ := wb_ime_frame _ _ _ _ h
      exact ⟨by simp [hime], by simp [hdis], by simp [hen]⟩
  rw [if_neg e105] at h
  by_cases e106 : op = 0x9f
  · rw [if_pos e106] at h
    simp only [Option.some.injEq] at h
    subst h
    first
    | exact ⟨rfl, rfl, rfl⟩
    | (refine ⟨?_, ?_, ?_⟩ <;> simp)
  rw [if_neg e106] at h
  by_cases e107 : op = 0xa0
  · rw [if_pos e107] at h
    simp only [Option.some.injEq] at h
    subst h
    first
    | exact ⟨rfl, rfl, rfl⟩
    | (refine ⟨?_, ?_, ?_⟩ <;> simp)
  rw [if_neg e107] at h
  by_cases e108 : op = 0xa1
  · rw [if_pos e108] at h
    simp only [Option.some.injEq] at h
    subst h
    first
    | exact ⟨rfl, rfl, rfl⟩
    | (refine ⟨?_, ?_, ?_⟩ <;> simp)
  rw [if_neg e108] at h
  by_cases e109 : op = 0xa2
  · rw [if_pos e109] at h
    simp only [Option.some.injEq] at h
    subst h
    first
    | exact ⟨rfl, rfl, rfl⟩
    | (refine ⟨?_, ?_, ?_⟩ <;> simp)
  rw [if_neg e109] at h
  by_cases e110 : op = 0xa3
  · rw [if_pos e110] at h
    simp only [Option.some.injEq] at h
    subst h
    first
    | exact ⟨rfl, rfl, rfl⟩
    | (refine ⟨?_, ?_, ?_⟩ <;> simp)
  rw [if_neg e110] at h
  by_cases e111 : op = 0xa4
  · rw [if_pos e111] at h
    simp only [Option.some.injEq] at h
    subst h
    first
    | exact ⟨rfl, rfl, rfl⟩
    | (refine ⟨?_, ?_, ?_⟩ <;> simp)
  rw [if_neg e111] at h
  by_cases e112 : op = 0xa5
  · rw [if_pos e112] at h
    simp only [Option.some.injEq] at h
    subst h
    first
    | exact ⟨rfl, rfl, rfl⟩
    | (refine ⟨?_, ?_, ?_⟩ <;> simp)
  rw [if_neg e112] at h
  by_cases e113 : op = 0xa6
  · rw [if_pos e113] at h
    split at h
    · exact Option.noConfusion h
    · rename_i byte hr
      obtain ⟨hime, hdis, hen⟩ := wb_ime_frame _ _ _ _ h
      exact ⟨by simp [hime], by simp [hdis], by simp [hen]⟩
  rw [if_neg e113] at h
  by_cases e114 : op = 0xa7
  · rw [if_pos e114] at h
    simp only [Option.some.injEq] at h
    subst h
    first
    | exact ⟨rfl, rfl, rfl⟩
    | (refine ⟨?_, ?_, ?_⟩ <;> simp)
  rw [if_neg e114] at h
  by_cases e115 : op = 0xa8
  · rw [if_pos e115] at h
    simp only [Option.some.injEq] at h
    subst h
    first
    | exact ⟨rfl, rfl, rfl⟩
    | (refine ⟨?_, ?_, ?_⟩ <;> simp)
  rw [if_neg e115] at h
  by_cases e116 : op = 0xa9
  · rw [if_pos e116] at h
    simp only [Option.some.injEq] at h
    subst h
    first
    | exact ⟨rfl, rfl, rfl⟩
    | (refine ⟨?_, ?_, ?_⟩ <;> simp)
  rw [if_neg e116] at h
  by_cases e117 : op = 0xaa
  · rw [if_pos e117] at h
    simp only [Option.some.injEq] at h
    subst h
    first
    | exact ⟨rfl, rfl, rfl⟩
    | (refine ⟨?_, ?_, ?_⟩ <;> simp)
  rw [if_neg e117] at h
  by_cases e118 : op = 0xab
  · rw [if_pos e118] at h
    simp only [Option.some.injEq] at h
    subst h
    first
    | exact ⟨rfl, rfl, rfl⟩
    | (refine ⟨?_, ?_, ?_⟩ <;> simp)
  rw [if_neg e118] at h
  by_cases e119 : op = 0xac
  · rw [if_pos e119] at h
    simp only [Option.some.injEq] at h
    subst h
    first
    | exact ⟨rfl, rfl, rfl⟩
    | (refine ⟨?_, ?_, ?_⟩ <;> simp)
  rw [if_neg e119] at h
  by_cases e120 : op = 0xad
  · rw [if_pos e120] at h
    simp only [Option.some.injEq] at h
    subst h
    first
    | exact ⟨rfl, rfl, rfl⟩
    | (refine ⟨?_, ?_, ?_⟩ <;> simp)
  rw [if_neg e120] at h
  by_cases e121 : op = 0xae
  · rw [if_pos e121] at h
    split at h
    · exact Option.noConfusion h
    · rename_i byte hr
      obtain ⟨hime, hdis, hen⟩ := wb_ime_frame _ _ _ _ h
      exact ⟨by simp [hime], by simp [hdis], by simp [hen]⟩
  rw [if_neg e121] at h
  by_cases e122 : op = 0xaf
  · rw [if_pos e122] at h
    simp only [Option.some.injEq] at h
    subst h
    first
    | exact ⟨rfl, rfl, rfl⟩
    | (refine ⟨?_, ?_, ?_⟩ <;> simp)
  rw [if_neg e122] at h
  by_cases e123 : op = 0xb0
  · rw [if_pos e123] at h
    simp only [Option.some.injEq] at h
    subst h
    first
    | exact ⟨rfl, rfl, rfl⟩
    | (refine ⟨?_, ?_, ?_⟩ <;> simp)
  rw [if_neg e123] at h
  by_cases e124 : op = 0xb1
  · rw [if_pos e124] at h
    simp only [Option.some.injEq] at h
    subst h
    first
    | exact ⟨rfl, rfl, rfl⟩
    | (refine ⟨?_, ?_, ?_⟩ <;> simp)
  rw [if_neg e124] at h
  by_cases e125 : op = 0xb2
  · rw [if_pos e125] at h
    simp only [Option.some.injEq] at h
    subst h
    first
    | exact ⟨rfl, rfl, rfl⟩
    | (refine ⟨?_, ?_, ?_⟩ <;> simp)
  rw [if_neg e125] at h
  by_cases e126 : op = 0xb3
  · rw [if_pos e126] at h
    simp only [Option.some.injEq] at h
    subst h
    first
    | exact ⟨rfl, rfl, rfl⟩
    | (refine ⟨?_, ?_, ?_⟩ <;> simp)
  rw [if_neg e126] at h
  by_cases e127 : op = 0xb4
  · rw [if_pos e127] at h
    simp only [Option.some.injEq] at h
    subst h
    first
    | exact ⟨rfl, rfl, rfl⟩
    | (refine ⟨?_, ?_, ?_⟩ <;> simp)
  rw [if_neg e127] at h
  by_cases e128 : op = 0xb5
  · rw [if_pos e128] at h
    simp only [Option.some.injEq] at h
    subst h
    first
    | exact ⟨rfl, rfl, rfl⟩
    | (refine ⟨?_, ?_, ?_⟩ <;> simp)
  rw [if_neg e128] at h
  by_cases e129 : op = 0xb6
  · rw [if_pos e129] at h
    split at h
    · exact Option.noConfusion h
    · rename_i byte hr
      obtain ⟨hime, hdis, hen⟩ := wb_ime_frame _ _ _ _ h
      exact ⟨by simp [hime], by simp [hdis], by simp [hen]⟩
  rw [if_neg e129] at h
  by_cases e130 : op = 0xb7
  · rw [if_pos e130] at h
    simp only [Option.some.injEq] at h
    subst h
    first
    | exact ⟨rfl, rfl, rfl⟩
    | (refine ⟨?_, ?_, ?_⟩ <;> simp)
  rw [if_neg e130] at h
  by_cases e131 : op = 0xb8
  · rw [if_pos e131] at h
    simp only [Option.some.injEq] at h
    subst h
    first
    | exact ⟨rfl, rfl, rfl⟩
    | (refine ⟨?_, ?_, ?_⟩ <;> simp)
  rw [if_neg e131] at h
  by_cases e132 : op = 0xb9
  · rw [if_pos e132] at h
    simp only [Option.some.injEq] at h
    subst h
    first
    | exact ⟨rfl, rfl, rfl⟩
    | (refine ⟨?_, ?_, ?_⟩ <;> simp)
  rw [if_neg e132] at h
  by_cases e133 : op = 0xba
  · rw [if_pos e133] at h
    simp only [Option.some.injEq] at h
    subst h
    first
    | exact ⟨rfl, rfl, rfl⟩
    | (refine ⟨?_, ?_, ?_⟩ <;> simp)
  rw [if_neg e133] at h
  by_cases e134 : op = 0xbb
  · rw [if_pos e134] at h
    simp only [Option.some.injEq] at h
    subst h
    first
    | exact ⟨rfl, rfl, rfl⟩
    | (refine ⟨?_, ?_, ?_⟩ <;> simp)
  rw [if_neg e134] at h
  by_cases e135 : op = 0xbc
  · rw [if_pos e135] at h
    simp only [Option.some.injEq] at h
    subst h
    first
    | exact ⟨rfl, rfl, rfl⟩
    | (refine ⟨?_, ?_, ?_⟩ <;> simp)
  rw [if_neg e135] at h
  by_cases e136 : op = 0xbd
  · rw [if_pos e136] at h
    simp only [Option.some.injEq] at h
    subst h
    first
    | exact ⟨rfl, rfl, rfl⟩
    | (refine ⟨?_, ?_, ?_⟩ <;> simp)
  rw [if_neg e136] at h
  by_cases e137 : op = 0xbe
  · rw [if_pos e137] at h
    split at h
    · exact Option.noConfusion h
    · rename_i byte hr
      obtain ⟨hime, hdis, hen⟩ := wb_ime_frame _ _ _ _ h
      exact ⟨by simp [hime], by simp [hdis], by simp [hen]⟩
  rw [if_neg e137] at h
  by_cases e138 : op = 0xbf
  · rw [if_pos e138] at h
    simp only [Option.some.injEq] at h
    subst h
    first
    | exact ⟨rfl, rfl, rfl⟩
    | (refine ⟨?_, ?_, ?_⟩ <;> simp)
  rw [if_neg e138] at h
  exact Option.noConfusion h

/-- Interrupt-state frame of CB arms 0xc0-0xff. -/
lemma exec_cb_q3_ime (op : Nat) (m : Mmu) (r : Mmu)
    (h : exec_cb_q3 op m = some r) :
    r.interrupts.ime = m.interrupts.ime
      ∧ r.interrupts.disable_ime_counter = m.interrupts.disable_ime_counter
      ∧ r.interrupts.enable_ime_counter = m.interrupts.enable_ime_counter := by
  unfold exec_cb_q3 at h
  by_cases e139 : op = 0xc0
  · rw [if_pos e139] at h
    simp only [Option.some.injEq] at h
    subst h
    first
    | exact ⟨rfl, rfl, rfl⟩
    | (refine ⟨?_, ?_, ?_⟩ <;> simp)
  rw [if_neg e139] at h
  by_cases e140 : op = 0xc1
  · rw [if_pos e140] at h
    simp only [Option.some.injEq] at h
    subst h
    first
    | exact ⟨rfl, rfl, rfl⟩
    | (refine ⟨?_, ?_, ?_⟩ <;> simp)
  rw [if_neg e140] at h
  by_cases e141 : op = 0xc2
  · rw [if_pos e141] at h
    simp only [Option.some.injEq] at h
    subst h
    first
    | exact ⟨rfl, rfl, rfl⟩
    | (refine ⟨?_, ?_, ?_⟩ <;> simp)
  rw [if_neg e141] at h
  by_cases e142 : op = 0xc3
  · rw [if_pos e142] at h
    simp only [Option.some.injEq] at h
    subst h
    first
    | exact ⟨rfl, rfl, rfl⟩
    | (refine ⟨?_, ?_, ?_⟩ <;> simp)
  rw [if_neg e142] at h
  by_cases e143 : op = 0xc4
  · rw [if_pos e143] at h
    simp only [Option.some.injEq] at h
    subst h
    first
    | exact ⟨rfl, rfl, rfl⟩
    | (refine ⟨?_, ?_, ?_⟩ <;> simp)
  rw [if_neg e143] at h
  by_cases e144 : op = 0xc5
  · rw [if_pos e144] at h
    simp only [Option.some.injEq] at h
    subst h
    first
    | exact ⟨rfl, rfl, rfl⟩
    | (refine ⟨?_, ?_, ?_⟩ <;> simp)
  rw [if_neg e144] at h
  by_cases e145 : op = 0xc6
  · rw [if_pos e145] at h
    split at h
    · exact Option.noConfusion h
    · rename_i byte hr
      obtain ⟨hime, hdis, hen⟩ := wb_ime_frame _ _ _ _ h
      exact ⟨by simp [hime], by simp [hdis], by simp [hen]⟩
  rw [if_neg e145] at h
  by_cases e146 : op = 0xc7
  · rw [if_pos e146] at h
    simp only [Option.some.injEq] at h
    subst h
    first
    | exact ⟨rfl, rfl, rfl⟩
    | (refine ⟨?_, ?_, ?_⟩ <;> simp)
  rw [if_neg e146] at h
  by_cases e147 : op = 0xc8
  · rw [if_pos e147] at h
    simp only [Option.some.injEq] at h
    subst h
    first
    | exact ⟨rfl, rfl, rfl⟩
    | (refine ⟨?_, ?_, ?_⟩ <;> simp)
  rw [if_neg e147] at h
  by_cases e148 : op = 0xc9
  · rw [if_pos e148] at h
    simp only [Option.some.injEq] at h
    subst h
    first
    | exact ⟨rfl, rfl, rfl⟩
    | (refine ⟨?_, ?_, ?_⟩ <;> simp)
  rw [if_neg e148] at h
  by_cases e149 : op = 0xca
  · rw [if_pos e149] at h
    simp only [Option.some.injEq] at h
    subst h
    first
    | exact ⟨rfl, rfl, rfl⟩
    | (refine ⟨?_, ?_, ?_⟩ <;> simp)
  rw [if_neg e149] at h
  by_cases e150 : op = 0xcb
  · rw [if_pos e150] at h
    simp only [Option.some.injEq] at h
    subst h
    first
    | exact ⟨rfl, rfl, rfl⟩
    | (refine ⟨?_, ?_, ?_⟩ <;> simp)
  rw [if_neg e150] at h
  by_cases e151 : op = 0xcc
  · rw [if_pos e151] at h
    simp only [Option.some.injEq] at h
    subst h
    first
    | exact ⟨rfl, rfl, rfl⟩
    | (refine ⟨?_, ?_, ?_⟩ <;> simp)
  rw [if_neg e151] at h
  by_cases e152 : op = 0xcd
  · rw [if_pos e152] at h
    simp only [Option.some.injEq] at h
    subst h
    first
    | exact ⟨rfl, rfl, rfl⟩
    | (refine ⟨?_, ?_, ?_⟩ <;> simp)
  rw [if_neg e152] at h
  by_cases e153 : op = 0xce
  · rw [if_pos e153] at h
    split at h
    · exact Option.noConfusion h
    · rename_i byte hr
      obtain ⟨hime, hdis, hen⟩ := wb_ime_frame _ _ _ _ h
      exact ⟨by simp [hime], by simp [hdis], by simp [hen]⟩
  rw [if_neg e153] at h
  by_cases e154 : op = 0xcf
  · rw [if_pos e154] at h
    simp only [Option.some.injEq] at h
    subst h
    first
    | exact ⟨rfl, rfl, rfl⟩
    | (refine ⟨?_, ?_, ?_⟩ <;> simp)
  rw [if_neg e154] at h
  by_cases e155 : op = 0xd0
  · rw [if_pos e155] at h
    simp only [Option.some.injEq] at h
    subst h
    first
    | exact ⟨rfl, rfl, rfl⟩
    | (refine ⟨?_, ?_, ?_⟩ <;> simp)
  rw [if_neg e155] at h
  by_cases e156 : op = 0xd1
  · rw [if_pos e156] at h
    simp only [Option.some.injEq] at h
    subst h
    first
    | exact ⟨rfl, rfl, rfl⟩
    | (refine ⟨?_, ?_, ?_⟩ <;> simp)
  rw [if_neg e156] at h
  by_cases e157 : op = 0xd2
  · rw [if_pos e157] at h
    simp only [Option.some.injEq] at h
    subst h
    first
    | exact ⟨rfl, rfl, rfl⟩
    | (refine ⟨?_, ?_, ?_⟩ <;> simp)
  rw [if_neg e157] at h
  by_cases e158 : op = 0xd3
  · rw [if_pos e158] at h
    simp only [Option.some.injEq] at h
    subst h
    first
    | exact ⟨rfl, rfl, rfl⟩
    | (refine ⟨?_, ?_, ?_⟩ <;> simp)
  rw [if_neg e158] at h
  by_cases e159 : op = 0xd4
  · rw [if_pos e159] at h
    simp only [Option.some.injEq] at h
    subst h
    first
    | exact ⟨rfl, rfl, rfl⟩
    | (refine ⟨?_, ?_, ?_⟩ <;> simp)
  rw [if_neg e159] at h
  by_cases e160 : op = 0xd5
  · rw [if_pos e160] at h
    simp only [Option.some.injEq] at h
    subst h
    first
    | exact ⟨rfl, rfl, rfl⟩
    | (refine ⟨?_, ?_, ?_⟩ <;> simp)
  rw [if_neg e160] at h
  by_cases e161 : op = 0xd6
  · rw [if_pos e161] at h
    split at h
    · exact Option.noConfusion h
    · rename_i byte hr
      obtain ⟨hime, hdis, hen⟩ := wb_ime_frame _ _ _ _ h
      exact ⟨by simp [hime], by simp [hdis], by simp [hen]⟩
  rw [if_neg e161] at h
  by_cases e162 : op = 0xd7
  · rw [if_pos e162] at h
    simp only [Option.some.injEq] at h
    subst h
    first
    | exact ⟨rfl, rfl, rfl⟩
    | (refine ⟨?_, ?_, ?_⟩ <;> simp)
  rw [if_neg e162] at h
  by_cases e163 : op = 0xd8
  · rw [if_pos e163] at h
    simp only [Option.some.injEq] at h
    subst h
    first
    | exact ⟨rfl, rfl, rfl⟩
    | (refine ⟨?_, ?_, ?_⟩ <;> simp)
  rw [if_neg e163] at h
  by_cases e164 : op = 0xd9
  · rw [if_pos e164] at h
    simp only [Option.some.injEq] at h
    subst h
    first
    | exact ⟨rfl, rfl, rfl⟩
    | (refine ⟨?_, ?_, ?_⟩ <;> simp)
  rw [if_neg e164] at h
  by_cases e165 : op = 0xda
  · rw [if_pos e165] at h
    simp only [Option.some.injEq] at h
    subst h
    first
    | exact ⟨rfl, rfl, rfl⟩
    | (refine ⟨?_, ?_, ?_⟩ <;> simp)
  rw [if_neg e165] at h
  by_cases e166 : op = 0xdb
  · rw [if_pos e166] at h
    simp only [Option.some.injEq] at h
    subst h
    first
    | exact ⟨rfl, rfl, rfl⟩
    | (refine ⟨?_, ?_, ?_⟩ <;> simp)
  rw [if_neg e166] at h
  by_cases e167 : op = 0xdc
  · rw [if_pos e167] at h
    simp only [Option.some.injEq] at h
    subst h
    first
    | exact ⟨rfl, rfl, rfl⟩
    | (refine ⟨?_, ?_, ?_⟩ <;> simp)
  rw [if_neg e167] at h
  by_cases e168 : op = 0xdd
  · rw [if_pos e168] at h
    simp only [Option.some.injEq] at h
    subst h
    first
    | exact ⟨rfl, rfl, rfl⟩
    | (refine ⟨?_, ?_, ?_⟩ <;> simp)
  rw [if_neg e168] at h
  by_cases e169 : op = 0xde
  · rw [if_pos e169] at h
    split at h
    · exact Option.noConfusion h
    · rename_i byte hr
      obtain ⟨hime, hdis, hen⟩ := wb_ime_frame _ _ _ _ h
      exact ⟨by simp [hime], by simp [hdis], by simp [hen]⟩
  rw [if_neg e169] at h
  by_cases e170 : op = 0xdf
  · rw [if_pos e170] at h
    simp only [Option.some.injEq] at h
    subst h
    first
    | exact ⟨rfl, rfl, rfl⟩
    | (refine ⟨?_, ?_, ?_⟩ <;> simp)
  rw [if_neg e170] at h
  by_cases e171 : op = 0xe0
  · rw [if_pos e171] at h
    simp only [Option.some.injEq] at h
    subst h
    first
    | exact ⟨rfl, rfl, rfl⟩
    | (refine ⟨?_, ?_, ?_⟩ <;> simp)
  rw [if_neg e171] at h
  by_cases e172 : op = 0xe1
  · rw [if_pos e172] at h
    simp only [Option.some.injEq] at h
    subst h
    first
    | exact ⟨rfl, rfl, rfl⟩
    | (refine ⟨?_, ?_, ?_⟩ <;> simp)
  rw [if_neg e172] at h
  by_cases e173 : op = 0xe2
  · rw [if_pos e173] at h
    simp only [Option.some.injEq] at h
    subst h
    first
    | exact ⟨rfl, rfl, rfl⟩
    | (refine ⟨?_, ?_, ?_⟩ <;> simp)
  rw [if_neg e173] at h
  by_cases e174 : op = 0xe3
  · rw [if_pos e174] at h
    simp only [Option.some.injEq] at h
    subst h
    first
    | exact ⟨rfl, rfl, rfl⟩
    | (refine ⟨?_, ?_, ?_⟩ <;> simp)
  rw [if_neg e174] at h
  by_cases e175 : op = 0xe4
  · rw [if_pos e175] at h
    simp only [Option.some.injEq] at h
    subst h
    first
    | exact ⟨rfl, rfl, rfl⟩
    | (refine ⟨?_, ?_, ?_⟩ <;> simp)
  rw [if_neg e175] at h
  by_cases e176 : op = 0xe5
  · rw [if_pos e176] at h
    simp only [Option.some.injEq] at h
    subst h
    first
    | exact ⟨rfl, rfl, rfl⟩
    | (refine ⟨?_, ?_, ?_⟩ <;> simp)
  rw [if_neg e176] at h
  by_cases e177 : op = 0xe6
  · rw [if_pos e177] at h
    split at h
    · exact Option.noConfusion h
    · rename_i byte hr
      obtain ⟨hime, hdis, hen⟩ := wb_ime_frame _ _ _ _ h
      exact ⟨by simp [hime], by simp [hdis], by simp [hen]⟩
  rw [if_neg e177] at h
  by_cases e178 : op = 0xe7
  · rw [if_pos e178] at h
    simp only [Option.some.injEq] at h
    subst h
    first
    | exact ⟨rfl, rfl, rfl⟩
    | (refine ⟨?_, ?_, ?_⟩ <;> simp)
  rw [if_neg e178] at h
  by_cases e179 : op = 0xe8
  · rw [if_pos e179] at h
    simp only [Option.some.injEq] at h
    subst h
    first
    | exact ⟨rfl, rfl, rfl⟩
    | (refine ⟨?_, ?_, ?_⟩ <;> simp)
  rw [if_neg e179] at h
  by_cases e180 : op = 0xe9
  · rw [if_pos e180] at h
    simp only [Option.some.injEq] at h
    subst h
    first
    | exact ⟨rfl, rfl, rfl⟩
    | (refine ⟨?_, ?_, ?_⟩ <;> simp)
  rw [if_neg e180] at h
  by_cases e181 : op = 0xea
  · rw [if_pos e181] at h
    simp only [Option.some.injEq] at h
    subst h
    first
    | exact ⟨rfl, rfl, rfl⟩
    | (refine ⟨?_, ?_, ?_⟩ <;> simp)
  rw [if_neg e181] at h
  by_cases e182 : op = 0xeb
  · rw [if_pos e182] at h
    simp only [Option.some.injEq] at h
    subst h
    first
    | exact ⟨rfl, rfl, rfl⟩
    | (refine ⟨?_, ?_, ?_⟩ <;> simp)
  rw [if_neg e182] at h
  by_cases e183 : op = 0xec
  · rw [if_pos e183] at h
    simp only [Option.some.injEq] at h
    subst h
    first
    | exact ⟨rfl, rfl, rfl⟩
    | (refine ⟨?_, ?_, ?_⟩ <;> simp)
  rw [if_neg e183] at h
  by_cases e184 : op = 0xed
  · rw [if_pos e184] at h
    simp only [Option.some.injEq] at h
    subst h
    first
    | exact ⟨rfl, rfl, rfl⟩
    | (refine ⟨?_, ?_, ?_⟩ <;> simp)
  rw [if_neg e184] at h
  by_cases e185 : op = 0xee
  · rw [if_pos e185] at h
    split at h
    · exact Option.noConfusion h
    · rename_i byte hr
      obtain ⟨hime, hdis, hen⟩ := wb_ime_frame _ _ _ _ h
      exact ⟨by simp [hime], by simp [hdis], by simp [hen]⟩
  rw [if_neg e185] at h
  by_cases e186 : op = 0xef
  · rw [if_pos e186] at h
    simp only [Option.some.injEq] at h
    subst h
    first
    | exact ⟨rfl, rfl, rfl⟩
    | (refine ⟨?_, ?_, ?_⟩ <;> simp)
  rw [if_neg e186] at h
  by_cases e187 : op = 0xf0
  · rw [if_pos e187] at h
    simp only [Option.some.injEq] at h
    subst h
    first
    | exact ⟨rfl, rfl, rfl⟩
    | (refine ⟨?_, ?_, ?_⟩ <;> simp)
  rw [if_neg e187] at h
  by_cases e188 : op = 0xf1
  · rw [if_pos e188] at h
    simp only [Option.some.injEq] at h
    subst h
    first
    | exact ⟨rfl, rfl, rfl⟩
    | (refine ⟨?_, ?_, ?_⟩ <;> simp)
  rw [if_neg e188] at h
  by_cases e189 : op = 0xf2
  · rw [if_pos e189] at h
    simp only [Option.some.injEq] at h
    subst h
    first
    | exact ⟨rfl, rfl, rfl⟩
    | (refine ⟨?_, ?_, ?_⟩ <;> simp)
  rw [if_neg e189] at h
  by_cases e190 : op = 0xf3
  · rw [if_pos e190] at h
    simp only [Option.some.injEq] at h
    subst h
    first
    | exact ⟨rfl, rfl, rfl⟩
    | (refine ⟨?_, ?_, ?_⟩ <;> simp)
  rw [if_neg e190] at h
  by_cases e191 : op = 0xf4
  · rw [if_pos e191] at h
    simp only [Option.some.injEq] at h
    subst h
    first
    | exact ⟨rfl, rfl, rfl⟩
    | (refine ⟨?_, ?_, ?_⟩ <;> simp)
  rw [if_neg e191] at h
  by_cases e192 : op = 0xf5
  · rw [if_pos e192] at h
    simp only [Option.some.injEq] at h
    subst h
    first
    | exact ⟨rfl, rfl, rfl⟩
    | (refine ⟨?_, ?_, ?_⟩ <;> simp)
  rw [if_neg e192] at h
  by_cases e193 : op = 0xf6
  · rw [if_pos e193] at h
    split at h
    · exact Option.noConfusion h
    · rename_i byte hr
      obtain ⟨hime, hdis, hen⟩ := wb_ime_frame _ _ _ _ h
      exact ⟨by simp [hime], by simp [hdis], by simp [hen]⟩
  rw [if_neg e193] at h
  by_cases e194 : op = 0xf7
  · rw [if_pos e194] at h
    simp only [Option.some.injEq] at h
    subst h
    first
    | exact ⟨rfl, rfl, rfl⟩
    | (refine ⟨?_, ?_, ?_⟩ <;> simp)
  rw [if_neg e194] at h
  by_cases e195 : op = 0xf8
  · rw [if_pos e195] at h
    simp only [Option.some.injEq] at h
    subst h
    first
    | exact ⟨rfl, rfl, rfl⟩
    | (refine ⟨?_, ?_, ?_⟩ <;> simp)
  rw [if_neg e195] at h
  by_cases e196 : op = 0xf9
  · rw [if_pos e196] at h
    simp only [Option.some.injEq] at h
    subst h
    first
    | exact ⟨rfl, rfl, rfl⟩
    | (refine ⟨?_, ?_, ?_⟩ <;> simp)
  rw [if_neg e196] at h
  by_cases e197 : op = 0xfa
  · rw [if_pos e197] at h
    simp only [Option.some.injEq] at h
    subst h
    first
    | exact ⟨rfl, rfl, rfl⟩
    | (refine ⟨?_, ?_, ?_⟩ <;> simp)
  rw [if_neg e197] at h
  by_cases e198 : op = 0xfb
  · rw [if_pos e198] at h
    simp only [Option.some.injEq] at h
    subst h
    first
    | exact ⟨rfl, rfl, rfl⟩
    | (refine ⟨?_, ?_, ?_⟩ <;> simp)
  rw [if_neg e198] at h
  by_cases e199 : op = 0xfc
  · rw [if_pos e199] at h
    simp only [Option.some.injEq] at h
    subst h
    first
    | exact ⟨rfl, rfl, rfl⟩
    | (refine ⟨?_, ?_, ?_⟩ <;> simp)
  rw [if_neg e199] at h
  by_cases e200 : op = 0xfd
  · rw [if_pos e200] at h
    simp only [Option.some.injEq] at h
    subst h
    first
    | exact ⟨rfl, rfl, rfl⟩
    | (refine ⟨?_, ?_, ?_⟩ <;> simp)
  rw [if_neg e200] at h
  by_cases e201 : op = 0xfe
  · rw [if_pos e201] at h
    split at h
    · exact Option.noConfusion h
    · rename_i byte hr
      obtain ⟨hime, hdis, hen⟩ := wb_ime_frame _ _ _ _ h
      exact ⟨by simp [hime], by simp [hdis], by simp [hen]⟩
  rw [if_neg e201] at h
  by_cases e202 : op = 0xff
  · rw [if_pos e202] at h
    simp only [Option.some.injEq] at h
    subst h
    first
    | exact ⟨rfl, rfl, rfl⟩
    | (refine ⟨?_, ?_, ?_⟩ <;> simp)
  rw [if_neg e202] at h
  exact Option.noConfusion h

/-- Interrupt-state frame of the CB-prefixed dispatch: no CB arm changes the
IME flag or either delay counter (writes through `wb` may change the request
or enable masks only). -/
lemma exec_cb_ime (op : Nat) (m : Mmu) (r : Mmu)
    (h : exec_cb op m = some r) :
    r.interrupts.ime = m.interrupts.ime
      ∧ r.interrupts.disable_ime_counter = m.interrupts.disable_ime_counter
      ∧ r.interrupts.enable_ime_counter = m.interrupts.enable_ime_counter := by
  unfold exec_cb at h
  split_ifs at h
  · exact exec_cb_q0_ime _ _ _ h
  · exact exec_cb_q1_ime _ _ _ h
  · exact exec_cb_q2_ime _ _ _ h
  · exact exec_cb_q3_ime _ _ _ h

/-- Ticking the IME delay timers never changes the enable mask, the request
mask, or the halted flag. -/
lemma tick_ime_timer_masks (s : Interrupts) :
    (s.tick_ime_timer).inte = s.inte ∧ (s.tick_ime_timer).intf = s.intf
      ∧ (s.tick_ime_timer).is_halted = s.is_halted := by
  by_cases h1 : s.disable_ime_counter = 2 <;> by_cases h2 : s.disable_ime_counter = 1 <;>
    by_cases h3 : s.enable_ime_counter = 2 <;> by_cases h4 : s.enable_ime_counter = 1 <;>
      simp [Interrupts.tick_ime_timer, h1, h2, h3, h4]

/-- One tick from the freshly armed disable state: with IME on, the disable
counter at 2 and the enable counter not at 2, the tick leaves IME on, moves
the disable counter to 1 and exhausts the enable counter. -/
lemma tick_ime_timer_armed (s : Interrupts) (hime : s.ime = true)
    (hd : s.disable_ime_counter = 2) (he : s.enable_ime_counter ≠ 2) :
    (s.tick_ime_timer).ime = true ∧ (s.tick_ime_timer).disable_ime_counter = 1
      ∧ (s.tick_ime_timer).enable_ime_counter = 0 := by
  by_cases h1 : s.enable_ime_counter = 1 <;>
    simp [Interrupts.tick_ime_timer, hd, he, h1, hime]

/-- The tick that lands the disable: with the disable counter at 1 and the
enable counter not at 1, the tick turns IME off. -/
lemma tick_ime_timer_lands (s : Interrupts) (hd : s.disable_ime_counter = 1)
    (he : s.enable_ime_counter ≠ 1) :
    (s.tick_ime_timer).ime = false := by
  by_cases h2 : s.enable_ime_counter = 2 <;>
    simp [Interrupts.tick_ime_timer, hd, he, h2]

/-- When `Interrupts::try_interrupt` services nothing, the state is unchanged. -/
lemma interrupts_try_none (s t : Interrupts) (h : s.try_interrupt = some (none, t)) :
    t = s := by
  unfold Interrupts.try_interrupt at h
  split_ifs at h
  · rw [Option.some.injEq, Prod.mk.injEq] at h
    exact h.2.symm
  · rw [Option.some.injEq, Prod.mk.injEq] at h
    exact h.2.symm
  · rw [Option.some.injEq, Prod.mk.injEq] at h
    exact absurd h.1 (by simp)

/-- When `Interrupts::try_interrupt` services an interrupt, it preserves IME,
both delay counters and the enable mask (only `intf` and `is_halted` move). -/
lemma interrupts_try_some_frame (s t : Interrupts) (n : Nat)
    (h : s.try_interrupt = some (some n, t)) :
    t.ime = s.ime ∧ t.disable_ime_counter = s.disable_ime_counter
      ∧ t.enable_ime_counter = s.enable_ime_counter ∧ t.inte = s.inte := by
  unfold Interrupts.try_interrupt at h
  split_ifs at h
  · rw [Option.some.injEq, Prod.mk.injEq] at h
    exact absurd h.1 (by simp)
  · rw [Option.some.injEq, Prod.mk.injEq] at h
    exact absurd h.1 (by simp)
  · rw [Option.some.injEq, Prod.mk.injEq] at h
    obtain ⟨-, h2⟩ := h
    subst h2
    exact ⟨rfl, rfl, rfl, rfl⟩

/-- `MMU::try_interrupt` returning 0 cycles serviced nothing and left the
machine unchanged. -/
lemma mmu_try_interrupt_zero (m w : Mmu) (h : m.try_interrupt = some (w, 0)) :
    w = m := by
  unfold Mmu.try_interrupt at h
  split at h
  · exact Option.noConfusion h
  · rename_i ints heq
    rw [Option.some.injEq, Prod.mk.injEq] at h
    have h2 := interrupts_try_none _ _ heq
    subst h2
    exact h.1.symm
  · rename_i nn ints heq
    split_ifs at h
    · split at h
      · exact Option.noConfusion h
      · rename_i m2 hp
        rw [Option.some.injEq, Prod.mk.injEq] at h
        exact absurd h.2 (by simp)

/-- `MMU::try_interrupt` preserves IME and both delay counters. -/
lemma mmu_try_interrupt_ime (m w : Mmu) (n : Nat) (h : m.try_interrupt = some (w, n)) :
    ime_frame w.interrupts m.interrupts := by
  unfold Mmu.try_interrupt at h
  split at h
  · exact Option.noConfusion h
  · rename_i ints heq
    rw [Option.some.injEq, Prod.mk.injEq] at h
    have h2 := interrupts_try_none _ _ heq
    subst h2
    rw [← h.1]
    exact ime_frame_rfl _
  · rename_i nn ints heq
    split_ifs at h
    · split at h
      · exact Option.noConfusion h
      · rename_i m2 hp
        rw [Option.some.injEq, Prod.mk.injEq] at h
        obtain ⟨h1, -⟩ := h
        rw [← h1]
        have hf := interrupts_try_some_frame _ _ _ heq
        have hp2 := push_stack_ime_frame _ _ _ hp
        exact ime_frame_trans hp2 ⟨hf.1, hf.2.1, hf.2.2.1⟩

/-- A byte read only looks at the interrupt state through the two mask
registers: machines differing only in the rest of the interrupt state read
the same bytes. -/
lemma rb_interrupts_congr (m : Mmu) (i : Interrupts) (a : Nat)
    (h1 : i.inte = m.interrupts.inte) (h2 : i.intf = m.interrupts.intf) :
    ({ m with interrupts := i } : Mmu).rb a = m.rb a := by
  unfold Mmu.rb
  by_cases c0 : a ≤ 0xFF
  · simp only [if_pos c0, h1, h2]
  simp only [if_neg c0]
  by_cases c1 : a ≤ 0x7FFF
  · simp only [if_pos c1, h1, h2]
  simp only [if_neg c1]
  by_cases c2 : 0x8000 ≤ a ∧ a ≤ 0x9FFF
  · simp only [if_pos c2, h1, h2]
  simp only [if_neg c2]
  by_cases c3 : 0xC000 ≤ a ∧ a ≤ 0xDFFF
  · simp only [if_pos c3, h1, h2]
  simp only [if_neg c3]
  by_cases c4 : 0xE000 ≤ a ∧ a ≤ 0xFDFF
  · simp only [if_pos c4, h1, h2]
  simp only [if_neg c4]
  by_cases c5 : 0xFE00 ≤ a ∧ a ≤ 0xFE9F
  · simp only [if_pos c5, h1, h2]
  simp only [if_neg c5]
  by_cases c6 : 0xFEA0 ≤ a ∧ a ≤ 0xFEFF
  · simp only [if_pos c6, h1, h2]
  simp only [if_neg c6]
  by_cases c7 : a = 0xFF00
  · simp only [if_pos c7, h1, h2]
  simp only [if_neg c7]
  by_cases c8 : a = 0xFF0F
  · simp only [if_pos c8, h1, h2]
  simp only [if_neg c8]
  by_cases c9 : a = 0xFF01
  · simp only [if_pos c9, h1, h2]
  simp only [if_neg c9]
  by_cases c10 : a = 0xFF02
  · simp only [if_pos c10, h1, h2]
  simp only [if_neg c10]
  by_cases c11 : 0xFF04 ≤ a ∧ a ≤ 0xFF07
  · simp only [if_pos c11, h1, h2]
  simp only [if_neg c11]
  by_cases c12 : 0xFF10 ≤ a ∧ a ≤ 0xFF3F
  · simp only [if_pos c12, h1, h2]
  simp only [if_neg c12]
  by_cases c13 : a = 0xFF46
  · simp only [if_pos c13, h1, h2]
  simp only [if_neg c13]
  by_cases c14 : 0xFF40 ≤ a ∧ a ≤ 0xFF4B
  · simp only [if_pos c14, h1, h2]
  simp only [if_neg c14]
  by_cases c15 : 0xFF80 ≤ a ∧ a ≤ 0xFFFE
  · simp only [if_pos c15, h1, h2]
  simp only [if_neg c15]
  by_cases c16 : a = 0xFFFF
  · simp only [if_pos c16, h1, h2]
  simp only [if_neg c16]

/-- `CPU::do_opcode` preserves IME; it moves the disable delay counter only
when the fetched opcode is DI (0xF3), and moves the enable delay counter only
to 2 (EI) unless the fetched opcode is RETI (0xD9). -/
lemma do_opcode_ime (gc : GetCycles) (m w : Mmu) (c : Nat)
    (h : do_opcode gc m = some (w, c)) :
    w.interrupts.ime = m.interrupts.ime
      ∧ (m.rb m.pc = some 0xF3
          ∨ w.interrupts.disable_ime_counter = m.interrupts.disable_ime_counter)
      ∧ (m.rb m.pc = some 0xD9
          ∨ w.interrupts.enable_ime_counter = m.interrupts.enable_ime_counter
          ∨ w.interrupts.enable_ime_counter = 2) := by
  unfold do_opcode at h
  split at h
  · exact Option.noConfusion h
  · rename_i first m1 hf
    obtain ⟨hrb, rfl⟩ := (get_next_byte_eq_some _ _ _).mp hf
    split_ifs at h with hcb
    · split at h
      · exact Option.noConfusion h
      · rename_i op m2 hf2
        obtain ⟨hrb2, rfl⟩ := (get_next_byte_eq_some _ _ _).mp hf2
        split at h
        · exact Option.noConfusion h
        · rename_i m3 he
          rw [Option.some.injEq, Prod.mk.injEq] at h
          obtain ⟨h1, -⟩ := h
          subst h1
          have hcbf := exec_cb_ime _ _ _ he
          exact ⟨hcbf.1, Or.inr hcbf.2.1, Or.inr (Or.inl hcbf.2.2)⟩
    · split at h
      · exact Option.noConfusion h
      · rename_i m3 cond he
        rw [Option.some.injEq, Prod.mk.injEq] at h
        obtain ⟨h1, -⟩ := h
        subst h1
        have he2 := exec_opcode_ime first _ _ he
        refine ⟨he2.1, ?_, ?_⟩
        · rcases he2.2.1 with hop | hrest
          · exact Or.inl (hop ▸ hrb)
          · exact Or.inr hrest
        · rcases he2.2.2 with hop | hrest
          · exact Or.inl (hop ▸ hrb)
          · exact Or.inr hrest

/-- First step after `disable_ime`: with IME on, the disable counter freshly
armed at 2 and the enable counter not at 2, any successful CPU step whose next
opcode is neither DI nor RETI leaves IME on, the disable counter at 1 and the
enable counter away from 1. -/
lemma cpu_step_after_disable (gc : GetCycles) (m w : Mmu) (c : Nat)
    (hime : m.interrupts.ime = true)
    (hd : m.interrupts.disable_ime_counter = 2)
    (he : m.interrupts.enable_ime_counter ≠ 2)
    (hdi : m.rb m.pc ≠ some 0xF3)
    (hreti : m.rb m.pc ≠ some 0xD9)
    (h : cpu_step gc m = some (w, c)) :
    w.interrupts.ime = true ∧ w.interrupts.disable_ime_counter = 1
      ∧ w.interrupts.enable_ime_counter ≠ 1 := by
  have ht := tick_ime_timer_armed m.interrupts hime hd he
  have hmask := tick_ime_timer_masks m.interrupts
  unfold cpu_step at h
  split at h
  · exact Option.noConfusion h
  · rename_i mi n heq
    split_ifs at h with hn hh
    · rw [Option.some.injEq, Prod.mk.injEq] at h
      obtain ⟨h1, -⟩ := h
      subst h1
      have hz := mmu_try_interrupt_zero _ _ (hn ▸ heq)
      subst hz
      exact ⟨ht.1, ht.2.1, by rw [ht.2.2]; omega⟩
    · have hz := mmu_try_interrupt_zero _ _ (hn ▸ heq)
      subst hz
      have hio := do_opcode_ime gc _ _ _ h
      have hcongr : ({ m with interrupts := m.interrupts.tick_ime_timer } : Mmu).rb m.pc
          = m.rb m.pc := rb_interrupts_congr m _ m.pc hmask.1 hmask.2.1
      refine ⟨hio.1.trans ht.1, ?_, ?_⟩
      · rcases hio.2.1 with hop | hrest
        · exact absurd (hcongr ▸ hop) hdi
        · exact hrest.trans ht.2.1
      · rcases hio.2.2 with hop | hrest | h2
        · exact absurd (hcongr ▸ hop) hreti
        · rw [hrest, ht.2.2]; omega
        · omega
    · rw [Option.some.injEq, Prod.mk.injEq] at h
      obtain ⟨h1, -⟩ := h
      subst h1
      have hf := mmu_try_interrupt_ime _ _ _ heq
      exact ⟨hf.1.trans ht.1, hf.2.1.trans ht.2.1, by rw [hf.2.2, ht.2.2]; omega⟩

/-- Second step after `disable_ime`: with the disable counter at 1 and the
enable counter away from 1, any successful CPU step turns IME off. -/
lemma cpu_step_lands_disable (gc : GetCycles) (m w : Mmu) (c : Nat)
    (hd : m.interrupts.disable_ime_counter = 1)
    (he : m.interrupts.enable_ime_counter ≠ 1)
    (h : cpu_step gc m = some (w, c)) :
    w.interrupts.ime = false := by
  have ht := tick_ime_timer_lands m.interrupts hd he
  unfold cpu_step at h
  split at h
  · exact Option.noConfusion h
  · rename_i mi n heq
    split_ifs at h with hn hh
    · rw [Option.some.injEq, Prod.mk.injEq] at h
      obtain ⟨h1, -⟩ := h
      subst h1
      have hz := mmu_try_interrupt_zero _ _ (hn ▸ heq)
      subst hz
      exact ht
    · have hz := mmu_try_interrupt_zero _ _ (hn ▸ heq)
      subst hz
      have hio := do_opcode_ime gc _ _ _ h
      exact hio.1.trans ht
    · rw [Option.some.injEq, Prod.mk.injEq] at h
      obtain ⟨h1, -⟩ := h
      subst h1
      have hf := mmu_try_interrupt_ime _ _ _ heq
      exact hf.1.trans ht

/-- C1 (code_bug): with the programmable counter enabled on clock select 3,
equal to 0xFF and one cycle short of a full tick period, advancing
`Timer::step` by one cycle completes the period and reloads the counter from
the modulo register, but leaves the interrupt request mask at 0: the Timer
request bit (bit 2) is never raised.  On clock select 1 the tick size
truncated to `u16` is 0 and the source while-loop never terminates (`none`). -/
theorem C1_timer_overflow_misses_interrupt :
    (∃ t m, Timer.step c1_timer c1_mmu 1 = some (t, m)
      ∧ m.timer.counter = 0xAB ∧ m.interrupts.intf = 0
      ∧ is_bit_set m.interrupts.intf 2 = false)
    ∧ Timer.step c1_timer c1_mmu_clock1 1 = none :=
  ⟨⟨_, _, rfl, rfl, rfl, rfl⟩, rfl⟩

/-- C2 (code_bug): the dispatch is not total on the advertised ranges: reading
timer register 0xFF07 hits the missing `TimerRegisters::rb` arm and panics
(`none`), and writing to the echo region 0xE000-0xFDFF falls through every
`MMU::wb` arm and panics (`none`). -/
theorem C2_dispatch_gaps :
    mmu_base.rb 0xFF07 = none ∧ mmu_base.wb 0xE000 1 = none ∧ mmu_base.wb 0xFDFF 1 = none :=
  ⟨rfl, rfl, rfl⟩

/-- C3 (code_bug): INC C (opcode 0x0C) increments C without updating any flag:
from C = 0x0F with all flags clear, the increment carries out of bit 3 yet the
half-carry flag (indeed the whole flag register) stays 0.  And `alu::adc`
computes its half-carry from the bare operand, ignoring the carry-in: A = 0,
B = 0x0F with carry set actually adds to 0x10 — a carry out of bit 3 — yet the
half-carry flag stays clear. -/
theorem C3_inc_adc_flag_bugs :
    (∃ r, do_opcode gc_one c3_inc_mmu = some r
       ∧ r.1.c = 0x10 ∧ r.1.flag_h = false ∧ r.1.f = 0)
    ∧ (∃ r, do_opcode gc_one c3_adc_mmu = some r
       ∧ r.1.a = 0x10 ∧ r.1.flag_h = false) :=
  ⟨⟨_, rfl, rfl, rfl, rfl⟩, ⟨_, rfl, rfl, rfl⟩⟩

/-- C4 (code_bug): an MBC1 write of 0 to the bank select range stores bank
number 0 unclamped, and the following banked read at 0x4000 returns the byte
at offset 0 of the image (bank 0), where before the write it returned the
bank-1 byte: selecting bank 0 through this path is not clamped to 1. -/
theorem C4_mbc1_bank0_unclamped :
    ∃ cart, c4_cart.wb 0x2000 0 = some cart
      ∧ cart.rb 0x4000 = some 0
      ∧ c4_cart.rb 0x4000 = some 1 :=
  ⟨_, rfl, rfl, rfl⟩

/-- C9 (confirmed): XOR of the accumulator with itself always yields 0 with
the zero flag set and the subtract, half-carry and carry flags all clear. -/
theorem C9_xor_self_law (m : Mmu) :
    (alu.xor m m.a).a = 0 ∧ (alu.xor m m.a).flag_z = true
      ∧ (alu.xor m m.a).flag_n = false ∧ (alu.xor m m.a).flag_h = false
      ∧ (alu.xor m m.a).flag_c = false := by
  unfold alu.xor
  simp [Nat.xor_self]

/-- C10 (confirmed): with the carry flag set, opcode 0x38 (JR C, r8) fetches
its operand and reports the branch as taken — so the step returns the taken
cycle cost — but the computed branch target is discarded: the program counter
lands on the byte after the operand. -/
theorem C10_jr_c_discards_jump (gc : GetCycles) (m : Mmu) (b : Nat)
    (hc : m.flag_c = true)
    (hop : m.rb m.pc = some 0x38)
    (hb : m.rb ((m.pc + 1) % 65536) = some b) :
    do_opcode gc m = some ({ m with pc := (m.pc + 2) % 65536 }, gc 0x38 false true) := by
  have h1 : m.get_next_byte = some (0x38, { m with pc := (m.pc + 1) % 65536 }) :=
    (get_next_byte_eq_some _ _ _).mpr ⟨hop, rfl⟩
  have h2 : ({ m with pc := (m.pc + 1) % 65536 } : Mmu).get_next_byte
      = some (b, { m with pc := ((m.pc + 1) % 65536 + 1) % 65536 }) := by
    refine (get_next_byte_eq_some _ _ _).mpr ⟨?_, rfl⟩
    exact hb
  have he : exec_opcode 0x38 ({ m with pc := (m.pc + 1) % 65536 } : Mmu)
      = match ({ m with pc := (m.pc + 1) % 65536 } : Mmu).get_next_byte with
        | none => none
        | some (_, m1) => if m1.flag_c then some (m1, true) else some (m1, false) := rfl
  have hpc : ((m.pc + 1) % 65536 + 1) % 65536 = (m.pc + 2) % 65536 := by omega
  unfold do_opcode
  rw [h1]
  simp only [h2, he]
  rw [if_pos (show ({ m with pc := ((m.pc + 1) % 65536 + 1) % 65536 } : Mmu).flag_c = true from hc)]
  simp only [hpc]
  simp

/-- C10 witness: the property at the concrete fixture `c10_mmu` with the
branch-sensitive cycle table. -/
theorem C10_jr_c_discards_jump_witness :
    do_opcode gc_branch c10_mmu
      = some ({ c10_mmu with pc := (c10_mmu.pc + 2) % 65536 }, gc_branch 0x38 false true) :=
  C10_jr_c_discards_jump gc_branch c10_mmu 5 rfl rfl rfl

/-- C6 (corrected): after `disable_ime`, IME is still on after one successful
CPU step and off after the second — provided the enable delay counter is not
mid-flight at 2 and the opcode the first step executes is neither DI (0xF3)
nor RETI (0xD9); without these provisos the enable path can rearm IME before
the disable lands (see the counterexample). -/
theorem C6_disable_ime_delay (gc : GetCycles) (m m1 m2 : Mmu) (c1 c2 : Nat)
    (hime : m.interrupts.ime = true)
    (hen : m.interrupts.enable_ime_counter ≠ 2)
    (hdi : m.rb m.pc ≠ some 0xF3)
    (hreti : m.rb m.pc ≠ some 0xD9)
    (h1 : cpu_step gc { m with interrupts := m.interrupts.disable_ime } = some (m1, c1))
    (h2 : cpu_step gc m1 = some (m2, c2)) :
    m1.interrupts.ime = true ∧ m2.interrupts.ime = false := by
  have hcongr : ({ m with interrupts := m.interrupts.disable_ime } : Mmu).rb m.pc
      = m.rb m.pc := rb_interrupts_congr m _ m.pc rfl rfl
  have key1 := cpu_step_after_disable gc { m with interrupts := m.interrupts.disable_ime }
    m1 c1 hime rfl hen (by rw [hcongr]; exact hdi) (by rw [hcongr]; exact hreti) h1
  have key2 := cpu_step_lands_disable gc m1 m2 c2 key1.2.1 key1.2.2 h2
  exact ⟨key1.1, key2⟩

/-- C6 witness: two CPU steps after `disable_ime` on the NOP machine. -/
theorem C6_disable_ime_delay_witness :
    ∃ m1 m2 c1 c2,
      cpu_step gc_one { c6_nop with interrupts := c6_nop.interrupts.disable_ime }
          = some (m1, c1)
        ∧ cpu_step gc_one m1 = some (m2, c2)
        ∧ m1.interrupts.ime = true ∧ m2.interrupts.ime = false := by
  obtain ⟨⟨m1, c1⟩, h1, h2x⟩ : ∃ x,
      cpu_step gc_one { c6_nop with interrupts := c6_nop.interrupts.disable_ime }
          = some x
        ∧ (cpu_step gc_one x.1).isSome = true := ⟨_, rfl, rfl⟩
  obtain ⟨⟨m2, c2⟩, h2⟩ := Option.isSome_iff_exists.mp h2x
  have hc := C6_disable_ime_delay gc_one c6_nop m1 m2 c1 c2 rfl (by decide)
    (by decide) (by decide) h1 h2
  exact ⟨m1, m2, c1, c2, h1, h2, hc.1, hc.2⟩

/-- C6 counterexample: the machine whose next opcodes are all RETI still has
IME on two steps after `disable_ime` — the claim fails without the amended
provisos (here the first step executes RETI, which arms the enable counter
with delay 1, rearming IME in the same tick that lands the disable). -/
theorem C6_counterexample :
    c6_start.interrupts.ime = true
      ∧ (c6_after2.map fun r => r.1.interrupts.ime) = some true :=
  ⟨rfl, rfl⟩

/-- When IME is on, some enabled interrupt is requested, and the request mask
is valid, `Interrupts::try_interrupt` fires: it returns the index of the
lowest active bit and clears that request bit. -/
lemma try_interrupt_fires (s : Interrupts)
    (hime : s.ime = true) (hne : s.inte &&& s.intf ≠ 0) (hlt : s.intf < 32) :
    s.try_interrupt = some (some (u8_trailing_zeros (s.inte &&& s.intf)),
      { s with is_halted := false
               intf := s.intf &&&
                 (255 ^^^ ((1 <<< u8_trailing_zeros (s.inte &&& s.intf)) % 256)) }) := by
  unfold Interrupts.try_interrupt
  rw [if_neg (by simp [hime]), if_neg (by simpa using hne), if_neg (by omega)]

/-- C5 (corrected): with master-enable on, V-Blank (bit 0) and Timer (bit 2)
enabled and requested, a valid request mask (top three bits clear), and the
LCD-status interrupt (bit 1) not simultaneously enabled and requested, the
first `try_interrupt` returns index 0 and clears exactly request bit 0 (the
enable mask and every other request bit unchanged), and a second call then
returns index 2.  Without the bit-1 proviso the second call returns 1 (see
the counterexample); without the validity proviso the first call panics. -/
theorem C5_interrupt_priority (s : Interrupts)
    (hime : s.ime = true)
    (h0e : s.inte.testBit 0 = true) (h0f : s.intf.testBit 0 = true)
    (h2e : s.inte.testBit 2 = true) (h2f : s.intf.testBit 2 = true)
    (hlt : s.intf < 32)
    (hnot1 : s.inte.testBit 1 = false ∨ s.intf.testBit 1 = false) :
    ∃ t u, s.try_interrupt = some (some 0, t)
      ∧ t.inte = s.inte
      ∧ t.intf.testBit 0 = false
      ∧ (∀ k, k ≠ 0 → t.intf.testBit k = s.intf.testBit k)
      ∧ t.try_interrupt = some (some 2, u) := by
  have hact0 : (s.inte &&& s.intf).testBit 0 = true := by
    rw [Nat.testBit_and, h0e, h0f]; rfl
  have htz : u8_trailing_zeros (s.inte &&& s.intf) = 0 := by
    unfold u8_trailing_zeros
    rw [if_pos hact0]
  have hne1 : s.inte &&& s.intf ≠ 0 := by
    intro hz
    rw [hz] at hact0
    simp at hact0
  have hfire1 := try_interrupt_fires s hime hne1 hlt
  rw [htz, show (255 ^^^ ((1 <<< (0 : Nat)) % 256)) = 254 from by decide] at hfire1
  have hbit0 : (s.intf &&& 254).testBit 0 = false := by
    rw [Nat.testBit_and]; simp
  have hothers : ∀ k, k ≠ 0 → (s.intf &&& 254).testBit k = s.intf.testBit k := by
    intro k hk
    rw [Nat.testBit_and]
    by_cases hk8 : k < 8
    · have h254 : Nat.testBit 254 k = true := by
        interval_cases k
        · exact absurd rfl hk
        all_goals decide
      rw [h254, Bool.and_true]
    · have hbig : s.intf.testBit k = false := by
        apply Nat.testBit_lt_two_pow
        have h5 : 2 ^ 5 ≤ 2 ^ k := Nat.pow_le_pow_right (by omega) (by omega)
        omega
      rw [hbig, Bool.false_and]
  have ht1 : (s.inte &&& (s.intf &&& 254)).testBit 1 = false := by
    rw [Nat.testBit_and, Nat.testBit_and,
      show Nat.testBit 254 1 = true from by decide, Bool.and_true]
    rcases hnot1 with h | h <;> rw [h] <;> simp
  have ht2 : (s.inte &&& (s.intf &&& 254)).testBit 2 = true := by
    rw [Nat.testBit_and, Nat.testBit_and,
      show Nat.testBit 254 2 = true from by decide, Bool.and_true, h2e, h2f]
    rfl
  have htz2 : u8_trailing_zeros (s.inte &&& (s.intf &&& 254)) = 2 := by
    unfold u8_trailing_zeros
    rw [if_neg ?hb0, if_neg ?hb1, if_pos ht2]
    case hb0 =>
      rw [Nat.testBit_and, hbit0, Bool.and_false]
      simp
    case hb1 =>
      rw [ht1]
      simp
  have hne2 : s.inte &&& (s.intf &&& 254) ≠ 0 := by
    intro hz
    rw [hz] at ht2
    simp at ht2
  have hlt3 : s.intf &&& 254 < 32 := by
    have := Nat.and_le_left (n := s.intf) (m := 254)
    omega
  have hfire2 := try_interrupt_fires { s with is_halted := false, intf := s.intf &&& 254 }
    hime hne2 hlt3
  have hfire2x : ({ s with is_halted := false, intf := s.intf &&& 254 } : Interrupts).try_interrupt
      = some (some (u8_trailing_zeros (s.inte &&& (s.intf &&& 254))),
          { s with is_halted := false
                   intf := (s.intf &&& 254) &&&
                     (255 ^^^ ((1 <<< u8_trailing_zeros (s.inte &&& (s.intf &&& 254))) % 256)) }) :=
    hfire2
  rw [htz2, show (255 ^^^ ((1 <<< (2 : Nat)) % 256)) = 251 from by decide] at hfire2x
  exact ⟨_, _, hfire1, rfl, hbit0, hothers, hfire2x⟩

/-- C5 witness: the property at the concrete controller with exactly V-Blank
and Timer enabled and requested. -/
theorem C5_interrupt_priority_witness :
    ∃ t u, c5w_ints.try_interrupt = some (some 0, t)
      ∧ t.inte = c5w_ints.inte
      ∧ t.intf.testBit 0 = false
      ∧ (∀ k, k ≠ 0 → t.intf.testBit k = c5w_ints.intf.testBit k)
      ∧ t.try_interrupt = some (some 2, u) :=
  C5_interrupt_priority c5w_ints rfl (by decide) (by decide) (by decide) (by decide)
    (by decide) (Or.inl (by decide))

/-- C5 counterexample: with the LCD-status interrupt (bit 1) also enabled and
requested, the first call still returns index 0, but the second call returns
index 1, not the Timer index 2. -/
theorem C5_counterexample :
    ∃ t u, c5_ints.try_interrupt = some (some 0, t)
      ∧ t.try_interrupt = some (some 1, u) :=
  ⟨_, _, rfl, rfl⟩

/-- Reassembling a byte-aligned split: `(a * 256) ||| b = a * 256 + b` for
byte-sized `b`. -/
lemma mul256_or (a b : Nat) (hb : b < 256) : (a * 256) ||| b = a * 256 + b := by
  apply Nat.eq_of_testBit_eq
  intro j
  rw [Nat.testBit_or]
  have h256 : (256 : Nat) = 2 ^ 8 := by norm_num
  have hmul : a * 256 = 2 ^ 8 * a := by rw [h256]; ring
  have hadd : a * 256 + b = 2 ^ 8 * a + b := by rw [hmul]
  rw [hadd, hmul, Nat.testBit_mul_pow_two, Nat.testBit_mul_pow_two_add _ hb]
  by_cases hj : j < 8
  · rw [if_pos hj]
    simp [show ¬(j ≥ 8) from by omega]
  · rw [if_neg hj]
    have hbj : b.testBit j = false :=
      Nat.testBit_lt_two_pow (by
        calc b < 256 := hb
        _ = 2 ^ 8 := by norm_num
        _ ≤ 2 ^ j := Nat.pow_le_pow_right (by omega) (by omega))
    simp [hbj, show j ≥ 8 from by omega]

/-- Splitting a 16-bit word into its two bytes and reassembling them as the
stack word write/read pair does yields the word back. -/
lemma word_split_reassemble (w : Nat) (hw : w < 65536) :
    ((((w >>> 8) % 256) <<< 8) ||| (w &&& 0xFF)) = w := by
  have h1 : w >>> 8 = w / 256 := by
    rw [Nat.shiftRight_eq_div_pow]
  have h2 : w &&& 0xFF = w % 256 := Nat.and_pow_two_sub_one_eq_mod w 8
  have h3 : w / 256 < 256 := by omega
  rw [h1, h2, Nat.mod_eq_of_lt h3, Nat.shiftLeft_eq,
    show (2 : Nat) ^ 8 = 256 from by norm_num,
    mul256_or _ _ (Nat.mod_lt _ (by omega))]
  omega

/-- A push with the stack pointer in writable work memory: both byte writes
land in the `wb` work-memory arm, the low byte at `sp - 2`, the high byte at
`sp - 1`. -/
lemma push_stack_sram (m : Mmu) (w : Nat) (h1 : 0xC002 ≤ m.sp) (h2 : m.sp ≤ 0xE000) :
    m.push_stack w = some { m with
      sp := m.sp - 2
      sram := fun i => if i = m.sp - 1 - 0xC000 then (w >>> 8) % 256
                       else if i = m.sp - 2 - 0xC000 then w &&& 0xFF
                       else m.sram i } := by
  have key : ({ m with sp := m.sp - 2 } : Mmu).ww (m.sp - 2) w
      = some { m with
          sp := m.sp - 2
          sram := fun i => if i = m.sp - 1 - 0xC000 then (w >>> 8) % 256
                           else if i = m.sp - 2 - 0xC000 then w &&& 0xFF
                           else m.sram i } := by
    unfold Mmu.ww
    rw [wb_sram_arm _ _ _ (by omega) (by omega)]
    show ({ m with
        sp := m.sp - 2
        sram := fun i => if i = m.sp - 2 - 0xC000 then w &&& 0xFF else m.sram i } : Mmu).wb
      ((m.sp - 2 + 1) % 65536) ((w >>> 8) % 256) = _
    rw [show (m.sp - 2 + 1) % 65536 = m.sp - 1 from by omega]
    rw [wb_sram_arm _ _ _ (by omega) (by omega)]
  show ({ m with sp := (m.sp + 65534) % 65536 } : Mmu).ww ((m.sp + 65534) % 65536) w = _
  rw [show (m.sp + 65534) % 65536 = m.sp - 2 from by omega]
  exact key

/-- A pop with the stack pointer in work memory: both byte reads land in the
`rb` work-memory arm and reassemble little-endian. -/
lemma pop_stack_sram (m : Mmu) (h1 : 0xC000 ≤ m.sp) (h2 : m.sp + 1 ≤ 0xDFFF) :
    m.pop_stack = some ((m.sram (m.sp + 1 - 0xC000) <<< 8) ||| m.sram (m.sp - 0xC000),
      { m with sp := (m.sp + 2) % 65536 }) := by
  have hrw : m.rw m.sp
      = some ((m.sram (m.sp + 1 - 0xC000) <<< 8) ||| m.sram (m.sp - 0xC000)) := by
    unfold Mmu.rw
    rw [rb_sram_arm _ _ (by omega) (by omega)]
    show (match m.rb ((m.sp + 1) % 65536) with
          | none => none
          | some msb => some ((msb <<< 8) ||| m.sram (m.sp - 0xC000))) = _
    rw [show (m.sp + 1) % 65536 = m.sp + 1 from by omega,
      rb_sram_arm _ _ (by omega) (by omega)]
  unfold Mmu.pop_stack
  rw [hrw]

/-- One push followed by one pop, fully characterised: the pushed word comes
back, the stack pointer round-trips, and only the two stack cells changed. -/
lemma push_pop_word (m : Mmu) (w : Nat) (h1 : 0xC002 ≤ m.sp) (h2 : m.sp ≤ 0xE000)
    (hw : w < 65536) :
    ∃ m1, m.push_stack w = some m1
      ∧ m1.sp = m.sp - 2
      ∧ m1.sram (m.sp - 2 - 0xC000) = w &&& 0xFF
      ∧ m1.sram (m.sp - 1 - 0xC000) = (w >>> 8) % 256
      ∧ (∀ i, i ≠ m.sp - 2 - 0xC000 → i ≠ m.sp - 1 - 0xC000 → m1.sram i = m.sram i)
      ∧ m1.pop_stack = some (w, { m1 with sp := m.sp }) := by
  have hp1 := push_stack_sram m w h1 h2
  set R1 : Mmu := { m with
    sp := m.sp - 2
    sram := fun i => if i = m.sp - 1 - 0xC000 then (w >>> 8) % 256
                     else if i = m.sp - 2 - 0xC000 then w &&& 0xFF
                     else m.sram i } with hR1
  have hlo : R1.sram (m.sp - 2 - 0xC000) = w &&& 0xFF := by
    simp only [hR1]
    rw [if_neg (by omega)]
    simp
  have hhi : R1.sram (m.sp - 1 - 0xC000) = (w >>> 8) % 256 := by
    simp only [hR1]
    simp
  have hframe : ∀ i, i ≠ m.sp - 2 - 0xC000 → i ≠ m.sp - 1 - 0xC000
      → R1.sram i = m.sram i := by
    intro i hi2 hi1
    simp only [hR1]
    rw [if_neg hi1, if_neg hi2]
  have hpop : R1.pop_stack
      = some ((R1.sram (m.sp - 2 + 1 - 0xC000) <<< 8) ||| R1.sram (m.sp - 2 - 0xC000),
          { R1 with sp := (m.sp - 2 + 2) % 65536 }) :=
    pop_stack_sram R1 (show (0xC000 : Nat) ≤ m.sp - 2 from by omega)
      (show m.sp - 2 + 1 ≤ (0xDFFF : Nat) from by omega)
  rw [show m.sp - 2 + 1 - 0xC000 = m.sp - 1 - 0xC000 from by omega,
    show (m.sp - 2 + 2) % 65536 = m.sp from by omega, hhi, hlo,
    word_split_reassemble w hw] at hpop
  exact ⟨R1, hp1, rfl, hlo, hhi, hframe, hpop⟩

/-- C8 (confirmed): with the stack pointer addressing writable work memory
(with room for the accesses), pushing a word and popping returns exactly that
word and restores the stack pointer; pushing W1 then W2 and popping twice
yields W2 then W1, with the pointer decreasing by exactly 2 per push. -/
theorem C8_stack_lifo (m : Mmu) (w1 w2 : Nat)
    (hsp1 : 0xC004 ≤ m.sp) (hsp2 : m.sp ≤ 0xE000)
    (hw1 : w1 < 65536) (hw2 : w2 < 65536) :
    ∃ m1 q m2 q2 q1,
      m.push_stack w1 = some m1 ∧ m1.sp = m.sp - 2
      ∧ m1.pop_stack = some (w1, q) ∧ q.sp = m.sp
      ∧ m1.push_stack w2 = some m2 ∧ m2.sp = m.sp - 4
      ∧ m2.pop_stack = some (w2, q2) ∧ q2.sp = m.sp - 2
      ∧ q2.pop_stack = some (w1, q1) ∧ q1.sp = m.sp := by
  obtain ⟨m1, hp1, hsp1e, hlo1, hhi1, hfr1, hpop1⟩ :=
    push_pop_word m w1 (by omega) (by omega) hw1
  obtain ⟨m2, hp2, hsp2e, hlo2, hhi2, hfr2, hpop2⟩ :=
    push_pop_word m1 w2 (by omega) (by omega) hw2
  have hpop3 := pop_stack_sram ({ m2 with sp := m1.sp } : Mmu)
    (show (0xC000 : Nat) ≤ m1.sp from by omega)
    (show m1.sp + 1 ≤ (0xDFFF : Nat) from by omega)
  have hpop3x : ({ m2 with sp := m1.sp } : Mmu).pop_stack
      = some ((m2.sram (m1.sp + 1 - 0xC000) <<< 8) ||| m2.sram (m1.sp - 0xC000),
          { m2 with sp := (m1.sp + 2) % 65536 }) := hpop3
  have hr1 : m2.sram (m1.sp - 0xC000) = m1.sram (m1.sp - 0xC000) :=
    hfr2 _ (by omega) (by omega)
  have hr2 : m2.sram (m1.sp + 1 - 0xC000) = m1.sram (m1.sp + 1 - 0xC000) :=
    hfr2 _ (by omega) (by omega)
  rw [hr1, hr2, show m1.sp - 0xC000 = m.sp - 2 - 0xC000 from by omega,
    show m1.sp + 1 - 0xC000 = m.sp - 1 - 0xC000 from by omega,
    hlo1, hhi1, word_split_reassemble w1 hw1,
    show (m1.sp + 2) % 65536 = m.sp from by omega] at hpop3x
  exact ⟨m1, _, m2, _, _, hp1, hsp1e, hpop1, rfl, hp2, by omega, hpop2,
    show m1.sp = m.sp - 2 from by omega, hpop3x, rfl⟩

/-- C8 witness: the round trip at a concrete machine with the stack at
0xD000, pushing 0x1234 then 0xBEEF. -/
theorem C8_stack_lifo_witness :
    ∃ m1 q m2 q2 q1,
      ({ mmu_base with sp := 0xD000 } : Mmu).push_stack 0x1234 = some m1
        ∧ m1.sp = 0xCFFE
      ∧ m1.pop_stack = some (0x1234, q) ∧ q.sp = 0xD000
      ∧ m1.push_stack 0xBEEF = some m2 ∧ m2.sp = 0xCFFC
      ∧ m2.pop_stack = some (0xBEEF, q2) ∧ q2.sp = 0xCFFE
      ∧ q2.pop_stack = some (0x1234, q1) ∧ q1.sp = 0xD000 :=
  C8_stack_lifo { mmu_base with sp := 0xD000 } 0x1234 0xBEEF (by decide) (by decide)
    (by decide) (by decide)

@[simp] lemma draw_pixel_modeclock (p : Ppu) (l c v : Nat) :
    (p.draw_pixel l c v).modeclock = p.modeclock := rfl

lemma draw_background_modeclock (p : Ppu) (m : Mmu) (q : Ppu)
    (h : draw_background_scanline p m = some q) : q.modeclock = p.modeclock := by
  simp only [draw_background_scanline] at h
  split_ifs at h
  · simp only [Option.some.injEq] at h
    subst h
    rfl
  all_goals
    refine foldlM_preserve (P := fun x => x.modeclock = p.modeclock) ?_ _ p q rfl h
  all_goals
    intro b x b' hb hstep
  all_goals
    simp only [bind, Option.bind] at hstep
  all_goals
    split at hstep
  · exact Option.noConfusion hstep
  · rename_i pv hpv
    simp only [Option.some.injEq] at hstep
    subst hstep
    simp [hb]
  · exact Option.noConfusion hstep
  · rename_i pv hpv
    simp only [Option.some.injEq] at hstep
    subst hstep
    simp [hb]

lemma draw_window_modeclock (p : Ppu) (m : Mmu) (q : Ppu)
    (h : draw_window_scanline p m = some q) : q.modeclock = p.modeclock := by
  simp only [draw_window_scanline] at h
  split_ifs at h
  · simp only [Option.some.injEq] at h
    subst h
    rfl
  · simp only [Option.some.injEq] at h
    subst h
    rfl
  all_goals
    refine foldlM_preserve (P := fun x => x.modeclock = p.modeclock) ?_ _ p q rfl h
  all_goals
    intro b x b' hb hstep
  all_goals
    split_ifs at hstep
  all_goals
    first
    | (simp only [Option.some.injEq] at hstep
       subst hstep
       exact hb)
    | (simp only [bind, Option.bind] at hstep
       split at hstep
       · exact Option.noConfusion hstep
       · rename_i px hpx
         simp only [Option.some.injEq] at hstep
         subst hstep
         simp [hb])

lemma draw_sprites_modeclock (p : Ppu) (m : Mmu) (q : Ppu)
    (h : draw_sprites_scanline p m = some q) : q.modeclock = p.modeclock := by
  simp only [draw_sprites_scanline] at h
  split_ifs at h
  all_goals
    first
    | (simp only [Option.some.injEq] at h
       subst h
       rfl)
    | (simp only [bind, Option.bind] at h
       split at h
       · exact Option.noConfusion h
       · rename_i sprites hsp
         refine foldlM_preserve (P := fun x => x.modeclock = p.modeclock) ?_ _ p q rfl h
         intro b s b' hb hstep
         simp only [bind, Option.bind] at hstep
         split at hstep
         · simp at hstep
         · rename_i b0 h0
           (try simp only [] at hstep)
           split at hstep
           · simp at hstep
           · rename_i b1 h1
             (try simp only [] at hstep)
             split at hstep
             · simp at hstep
             · rename_i sn h2
               (try simp only [] at hstep)
               split at hstep
               · simp at hstep
               · rename_i fl h3
                 (try simp only [] at hstep)
                 split at hstep
                 · simp at hstep
                 · rename_i lo h4
                   (try simp only [] at hstep)
                   split at hstep
                   · simp at hstep
                   · rename_i hi h5
                     (try simp only [] at hstep)
                     refine foldlM_preserve (P := fun x => x.modeclock = p.modeclock) ?_ _ b b' hb hstep
                     intro b2 pn b2' hb2 hstep2
                     split_ifs at hstep2 <;>
                       first
                       | (simp only [Option.some.injEq] at hstep2
                          subst hstep2
                          exact hb2)
                       | (simp only [] at hstep2
                          split_ifs at hstep2 <;>
                            (simp only [Option.some.injEq] at hstep2
                             subst hstep2
                             simp [hb2]))
                       | simp at hstep2)

lemma draw_scanline_modeclock (p : Ppu) (m : Mmu) (q : Ppu)
    (h : p.draw_scanline m = some q) : q.modeclock = p.modeclock := by
  simp only [Ppu.draw_scanline] at h
  split_ifs at h
  · simp only [Option.some.injEq] at h
    subst h
    rfl
  · simp only [bind, Option.bind] at h
    split at h
    · simp at h
    · rename_i p1 hbg
      (try simp only [] at h)
      split at h
      · simp at h
      · rename_i p2 hwin
        (try simp only [] at h)
        have e1 := draw_background_modeclock _ _ _ hbg
        have e2 := draw_window_modeclock _ _ _ hwin
        have e3 := draw_sprites_modeclock _ _ _ h
        rw [e3, e2, e1]

/-- The permanent LY = LYC comparison only touches the interrupt request
mask. -/
@[simp] lemma check_lyc_ppu (m : Mmu) : (m.check_lyc_interrupt).ppu = m.ppu := by
  unfold Mmu.check_lyc_interrupt
  split_ifs <;> rfl

/-- The clear block is inert while the clear flag is down. -/
lemma ppu_clear_phase_false (p : Ppu) (m : Mmu) (h : m.ppu.clear_screen = false) :
    ppu_clear_phase p m = (p, m) := by
  unfold ppu_clear_phase
  rw [h]
  rfl

/-- The clear block with the flag up: blank image, zero clock, line and mode. -/
lemma ppu_clear_phase_true (p : Ppu) (m : Mmu) (h : m.ppu.clear_screen = true) :
    ppu_clear_phase p m
      = ({ p with image_buffer := fun _ => 0, modeclock := 0 },
         { m with ppu := { m.ppu with line := 0, mode := 0, clear_screen := false } }) := by
  unfold ppu_clear_phase
  rw [h]
  rfl

/-- No line wrap below 456 accumulated cycles. -/
lemma ppu_wrap_phase_no (p : Ppu) (m : Mmu) (mode : Nat) (h : p.modeclock < 456) :
    ppu_wrap_phase p m mode = (p, m) := by
  unfold ppu_wrap_phase
  rw [if_neg (by omega)]

/-- Wrapping off line 0: the excess is carried over, the line advances to 1,
and the V-Blank entry check falls through. -/
lemma ppu_wrap_phase_wrap (p : Ppu) (m : Mmu) (mode : Nat)
    (hmc : 456 ≤ p.modeclock) (hline : m.ppu.line = 0) :
    ppu_wrap_phase p m mode
      = ({ p with modeclock := p.modeclock - 456 },
         ({ m with ppu := { m.ppu with line := (m.ppu.line + 1) % 154 } } : Mmu).check_lyc_interrupt) := by
  unfold ppu_wrap_phase ppu_vblank_phase
  rw [if_pos hmc, if_neg ?vb]
  case vb =>
    rw [check_lyc_ppu]
    simp [hline]

/-- Commit preserves the scanline. -/
@[simp] lemma ppu_mode_commit_line (m : Mmu) (nm : Nat) (si : Bool) :
    (ppu_mode_commit m nm si).ppu.line = m.ppu.line := by
  unfold ppu_mode_commit
  split_ifs <;> rfl

/-- Commit preserves the clear flag. -/
@[simp] lemma ppu_mode_commit_clear (m : Mmu) (nm : Nat) (si : Bool) :
    (ppu_mode_commit m nm si).ppu.clear_screen = m.ppu.clear_screen := by
  unfold ppu_mode_commit
  split_ifs <;> rfl

/-- Commit sets the mode. -/
@[simp] lemma ppu_mode_commit_mode (m : Mmu) (nm : Nat) (si : Bool) :
    (ppu_mode_commit m nm si).ppu.mode = nm := by
  unfold ppu_mode_commit
  split_ifs <;> rfl

/-- On a pre-wrap line-0 step the mode block may change modes and draw, but
never moves the mode clock, the scanline, or the clear flag. -/
lemma ppu_mode_phase_line0 (p : Ppu) (m : Mmu) (mode : Nat) (p1 : Ppu) (m1 : Mmu)
    (h : ppu_mode_phase p m mode = some (p1, m1)) (hline : m.ppu.line = 0) :
    p1.modeclock = p.modeclock ∧ m1.ppu.line = 0
      ∧ m1.ppu.clear_screen = m.ppu.clear_screen := by
  unfold ppu_mode_phase at h
  rw [if_pos (by omega)] at h
  split at h
  · rename_i nm si heq
    unfold ppu_apply_mode at h
    split_ifs at h with h0
    · split at h
      · exact Option.noConfusion h
      · rename_i p2 hd
        rw [Option.some.injEq, Prod.mk.injEq] at h
        obtain ⟨hp, hm⟩ := h
        subst hp
        subst hm
        refine ⟨draw_scanline_modeclock _ _ _ hd, ?_, ?_⟩
        · rw [ppu_mode_commit_line]
          exact hline
        · rw [ppu_mode_commit_clear]
    · rw [Option.some.injEq, Prod.mk.injEq] at h
      obtain ⟨hp, hm⟩ := h
      subst hp
      subst hm
      refine ⟨rfl, ?_, ?_⟩
      · rw [ppu_mode_commit_line]
        exact hline
      · rw [ppu_mode_commit_clear]
  · rw [Option.some.injEq, Prod.mk.injEq] at h
    obtain ⟨hp, hm⟩ := h
    subst hp
    subst hm
    exact ⟨rfl, hline, rfl⟩

/-- At mode clock 0 on line 1 with the snapshot mode equal to the current
mode, the mode block lands in (or stays in) sprite scan. -/
lemma ppu_mode_phase_wrapped (p : Ppu) (m : Mmu) (mode : Nat) (p1 : Ppu) (m1 : Mmu)
    (h : ppu_mode_phase p m mode = some (p1, m1))
    (hline : m.ppu.line = 1) (hmc : p.modeclock = 0) (hmode : m.ppu.mode = mode) :
    p1.modeclock = 0 ∧ m1.ppu.line = 1 ∧ m1.ppu.mode = 2
      ∧ m1.ppu.clear_screen = m.ppu.clear_screen := by
  unfold ppu_mode_phase at h
  rw [if_pos (by omega)] at h
  by_cases h2 : mode = 2
  · rw [if_neg (by simp [h2]), if_neg (by rintro ⟨ha, -⟩; omega),
      if_neg (by rintro ⟨ha, -⟩; omega)] at h
    (try simp only [] at h)
    rw [Option.some.injEq, Prod.mk.injEq] at h
    obtain ⟨hp, hm⟩ := h
    subst hp
    subst hm
    exact ⟨hmc, hline, hmode.trans h2, rfl⟩
  · rw [if_pos ⟨by omega, h2⟩] at h
    (try simp only [] at h)
    unfold ppu_apply_mode at h
    rw [if_neg (by omega)] at h
    rw [Option.some.injEq, Prod.mk.injEq] at h
    obtain ⟨hp, hm⟩ := h
    subst hp
    subst hm
    refine ⟨hmc, ?_, ?_, ?_⟩
    · rw [ppu_mode_commit_line]
      exact hline
    · rw [ppu_mode_commit_mode]
    · rw [ppu_mode_commit_clear]

/-- A `PPU::step` that keeps the accumulated cycles strictly below a full
line: the mode clock advances by exactly the fed cycles, the scanline stays
at 0, and the clear flag is down afterwards. -/
lemma ppu_step_pre (p : Ppu) (m : Mmu) (c : Nat) (p1 : Ppu) (m1 : Mmu)
    (h : p.step m c = some (p1, m1))
    (hline : m.ppu.line = 0)
    (hinv : m.ppu.clear_screen = false ∨ p.modeclock = 0)
    (hlt : p.modeclock + c < 456) :
    p1.modeclock = p.modeclock + c ∧ m1.ppu.line = 0 ∧ m1.ppu.clear_screen = false := by
  unfold Ppu.step at h
  cases hcl : m.ppu.clear_screen with
  | true =>
    have hmc : p.modeclock = 0 := by
      rcases hinv with hx | hx
      · rw [hcl] at hx
        exact absurd hx (by simp)
      · exact hx
    rw [ppu_clear_phase_true p m hcl] at h
    (try simp only [] at h)
    have e2 := ppu_wrap_phase_no { p with modeclock := 0 + c, image_buffer := fun _ => 0 }
      { m with ppu := { m.ppu with line := 0, mode := 0, clear_screen := false } } 0
      (show 0 + c < 456 from by omega)
    rw [e2] at h
    (try simp only [] at h)
    have e := ppu_mode_phase_line0 _ _ _ _ _ h rfl
    refine ⟨?_, e.2.1, e.2.2.trans rfl⟩
    rw [e.1]
    show 0 + c = p.modeclock + c
    omega
  | false =>
    rw [ppu_clear_phase_false p m hcl] at h
    (try simp only [] at h)
    have e2 := ppu_wrap_phase_no { p with modeclock := p.modeclock + c } m m.ppu.mode
      (show p.modeclock + c < 456 from hlt)
    rw [e2] at h
    (try simp only [] at h)
    have e := ppu_mode_phase_line0 _ _ _ _ _ h hline
    exact ⟨e.1, e.2.1, e.2.2.trans hcl⟩

/-- A `PPU::step` that completes the 456th cycle of line 0: the mode clock
wraps to 0, the scanline advances to 1, and the machine lands in sprite scan
(mode 2). -/
lemma ppu_step_wrapping (p : Ppu) (m : Mmu) (c : Nat) (p1 : Ppu) (m1 : Mmu)
    (h : p.step m c = some (p1, m1))
    (hline : m.ppu.line = 0)
    (hinv : m.ppu.clear_screen = false ∨ p.modeclock = 0)
    (heq : p.modeclock + c = 456) :
    p1.modeclock = 0 ∧ m1.ppu.line = 1 ∧ m1.ppu.mode = 2
      ∧ m1.ppu.clear_screen = false := by
  unfold Ppu.step at h
  cases hcl : m.ppu.clear_screen with
  | true =>
    have hmc : p.modeclock = 0 := by
      rcases hinv with hx | hx
      · rw [hcl] at hx
        exact absurd hx (by simp)
      · exact hx
    rw [ppu_clear_phase_true p m hcl] at h
    (try simp only [] at h)
    have e2 := ppu_wrap_phase_wrap { p with modeclock := 0 + c, image_buffer := fun _ => 0 }
      { m with ppu := { m.ppu with line := 0, mode := 0, clear_screen := false } } 0
      (show 456 ≤ 0 + c from by omega) rfl
    rw [e2] at h
    (try simp only [] at h)
    have e := ppu_mode_phase_wrapped _ _ _ _ _ h
      (by rw [check_lyc_ppu])
      (show 0 + c - 456 = 0 from by omega)
      (by rw [check_lyc_ppu])
    refine ⟨e.1, e.2.1, e.2.2.1, ?_⟩
    rw [e.2.2.2]
    rw [check_lyc_ppu]
  | false =>
    rw [ppu_clear_phase_false p m hcl] at h
    (try simp only [] at h)
    have e2 := ppu_wrap_phase_wrap { p with modeclock := p.modeclock + c } m m.ppu.mode
      (show 456 ≤ p.modeclock + c from by omega) hline
    rw [e2] at h
    (try simp only [] at h)
    have e := ppu_mode_phase_wrapped _ _ _ _ _ h
      (by rw [check_lyc_ppu]; simp [hline])
      (show p.modeclock + c - 456 = 0 from by omega)
      (by rw [check_lyc_ppu])
    refine ⟨e.1, e.2.1, e.2.2.1, ?_⟩
    rw [e.2.2.2]
    rw [check_lyc_ppu]
    exact hcl

/-- A zero-cycle `PPU::step` on line 1 in mode 2 changes nothing that the
scanline invariant tracks. -/
lemma ppu_step_idle (p : Ppu) (m : Mmu) (p1 : Ppu) (m1 : Mmu)
    (h : p.step m 0 = some (p1, m1))
    (hcl : m.ppu.clear_screen = false) (hmc : p.modeclock = 0)
    (hline : m.ppu.line = 1) (hmode : m.ppu.mode = 2) :
    p1.modeclock = 0 ∧ m1.ppu.line = 1 ∧ m1.ppu.mode = 2
      ∧ m1.ppu.clear_screen = false := by
  unfold Ppu.step at h
  rw [ppu_clear_phase_false p m hcl] at h
  (try simp only [] at h)
  have e2 := ppu_wrap_phase_no { p with modeclock := p.modeclock + 0 } m m.ppu.mode
    (show p.modeclock + 0 < 456 from by omega)
  rw [e2] at h
  (try simp only [] at h)
  have e := ppu_mode_phase_wrapped _ _ _ _ _ h hline
    (show p.modeclock + 0 = 0 from by omega) rfl
  exact ⟨e.1, e.2.1, e.2.2.1, e.2.2.2.trans hcl⟩

/-- Tail phase of the 456-cycle run: once the wrap has happened (line 1,
mode 2, mode clock 0), the remaining zero-cycle feeds change nothing. -/
lemma ppu_run_tail (feeds : List Nat) :
    ∀ (p : Ppu) (m : Mmu) (r : Ppu × Mmu),
    ppu_run feeds p m = some r →
    feeds.sum = 0 → p.modeclock = 0 → m.ppu.line = 1 → m.ppu.mode = 2 →
    m.ppu.clear_screen = false →
    r.2.ppu.line = 1 ∧ r.2.ppu.mode = 2 := by
  induction feeds with
  | nil =>
    intro p m r h hsum hmc hline hmode hcl
    unfold ppu_run at h
    rw [Option.some.injEq] at h
    subst h
    exact ⟨hline, hmode⟩
  | cons c rest ih =>
    intro p m r h hsum hmc hline hmode hcl
    have hc0 : c = 0 := by
      simp only [List.sum_cons] at hsum
      omega
    subst hc0
    unfold ppu_run at h
    split at h
    · exact Option.noConfusion h
    · rename_i p1 m1 heq
      have e := ppu_step_idle p m p1 m1 heq hcl hmc hline hmode
      exact ih p1 m1 r h (by simp only [List.sum_cons] at hsum; omega)
        e.1 e.2.1 e.2.2.1 e.2.2.2

/-- Main phase of the 456-cycle run: while the partial sum has not yet
reached a full line the state keeps scanline 0 with the mode clock equal to
the cycles consumed; the step that completes cycle 456 lands on scanline 1 in
mode 2, and the (necessarily zero-cycle) remainder keeps it there. -/
lemma ppu_run_main (feeds : List Nat) :
    ∀ (p : Ppu) (m : Mmu) (r : Ppu × Mmu),
    ppu_run feeds p m = some r →
    m.ppu.line = 0 →
    p.modeclock + feeds.sum = 456 →
    feeds.sum ≠ 0 →
    (m.ppu.clear_screen = false ∨ p.modeclock = 0) →
    r.2.ppu.line = 1 ∧ r.2.ppu.mode = 2 := by
  induction feeds with
  | nil =>
    intro p m r h hline hsum hne hinv
    simp at hne
  | cons c rest ih =>
    intro p m r h hline hsum hne hinv
    unfold ppu_run at h
    split at h
    · exact Option.noConfusion h
    · rename_i p1 m1 heq
      simp only [List.sum_cons] at hsum
      by_cases hwrap : p.modeclock + c = 456
      · have e := ppu_step_wrapping p m c p1 m1 heq hline hinv hwrap
        exact ppu_run_tail rest p1 m1 r h (by omega) e.1 e.2.1 e.2.2.1 e.2.2.2
      · have hlt : p.modeclock + c < 456 := by omega
        have e := ppu_step_pre p m c p1 m1 heq hline hinv hlt
        exact ih p1 m1 r h e.2.1 (by omega) (by omega) (Or.inl e.2.2)

/-- C7 (corrected): with the display powered on, the scanline at 0 and the
in-mode cycle counter at 0, any sequence of `PPU::step` calls feeding exactly
456 cycles in total that completes without a fatal error leaves the scanline
at 1 and the mode at sprite scan (mode 2).  The completion proviso is
necessary: a feed schedule that pauses in the H-Blank window can crash the
scanline renderer on an in-domain state (see the counterexample). -/
theorem C7_scanline_after_456 (feeds : List Nat) (p : Ppu) (m : Mmu) (r : Ppu × Mmu)
    (hlcd : m.ppu.lcd_on = true)
    (hline : m.ppu.line = 0)
    (hmc : p.modeclock = 0)
    (hsum : feeds.sum = 456)
    (h : ppu_run feeds p m = some r) :
    r.2.ppu.line = 1 ∧ r.2.ppu.mode = 2 :=
  ppu_run_main feeds p m r h hline (by omega) (by omega) (Or.inr hmc)

/-- C7 witness: two 228-cycle feeds from the concrete display fixture. -/
theorem C7_scanline_after_456_witness :
    ∃ r, ppu_run [228, 228] Ppu.new c7_mmu = some r
      ∧ r.2.ppu.line = 1 ∧ r.2.ppu.mode = 2 := by
  obtain ⟨r, hr⟩ : ∃ r, ppu_run [228, 228] Ppu.new c7_mmu = some r := ⟨_, rfl⟩
  have e := C7_scanline_after_456 [228, 228] Ppu.new c7_mmu r rfl rfl rfl (by decide) hr
  exact ⟨r, hr, e⟩

/-- C7 counterexample: an in-domain state (display on, scanline 0, mode clock
0) and a 456-cycle feed on which the run does not complete: pausing at mode
clock 300 switches to H-Blank and draws the scanline, and sprite 0 (x byte 1,
bg-priority set) makes `draw_sprites_scanline` index `bg_color_zero` with the
negative `x_pos` — an out-of-bounds panic in the source (`none` here). -/
theorem C7_counterexample :
    c7x_mmu.ppu.lcd_on = true ∧ c7x_mmu.ppu.line = 0 ∧ Ppu.new.modeclock = 0
      ∧ ([300, 156] : List Nat).sum = 456
      ∧ ppu_run [300, 156] Ppu.new c7x_mmu = none :=
  ⟨rfl, rfl, rfl, rfl, rfl⟩
